import Mathlib

/-!
# go-demo-app: the three-layer error-translation pipeline

A shallow embedding of the user resource of `go-demo-app`:

* `repository` : `internal/app/repository/user_repository.go`
* `service`    : `internal/app/service/{model,user_service}.go`
* `controller` : `internal/app/controller/{errors,model,user_controller}.go`
* `main`       : the wiring of the three layers in `cmd/demo-app/main.go`
* `postgres`   : the table `config.users`, the store behind the repository

Go packages are Lean namespaces, so `controller.ErrUserNotFound`,
`service.ErrUserNotFound` and `repository.ErrUserNotFound` are three different
constants, as in the source.

Conventions of the embedding.

* Go `int` is `Int`; the 64-bit range only matters where text is parsed into an
  `int` (`strconv.Atoi`, JSON numbers), where it is checked explicitly.
* A pointer `*T` is `Ptr T = Option T` (`none` is `nil`), a slice `[]T` is
  `Slice T = Option (List T)` (`none` is the nil slice).
* A Go function that reads or writes state outside itself (the database, a
  mock) is a function `σ → Except Panic α × σ`: it returns normally with a value
  or panics, and in both cases leaves a new state behind.
* A pair of results `(v, err)` is a pair `α × Option GoError`; Go may return a
  value together with an error, so the two are kept independent.
-/

namespace GoDemoApp

/-! ## Go runtime values -/

/-- A non-nil Go `error` value, with the structure the program can observe:
identity (`==`, `switch err`), dynamic type (`err.(type)`) and the `Unwrap`
chain (`errors.Is`).

* `sentinel pkg name`: the value of the package-level variable `pkg.name`.
* `pgError code message`: a `pgx.PgError` struct value.
* `value ptr typ text`: any other error without `Unwrap`, of dynamic type
  `typ`, allocated at `ptr`.
* `wrapped ptr typ text inner`: an error whose `Unwrap` returns `inner`
  (`fmt.Errorf` with `%w`, `*strconv.NumError`). -/
inductive GoError where
  | sentinel (pkg : String) (name : String)
  | pgError (code : String) (message : String)
  | value (ptr : Nat) (typ : String) (text : String)
  | wrapped (ptr : Nat) (typ : String) (text : String) (inner : GoError)
  deriving DecidableEq, Repr

/-- A run-time panic of the Go program. -/
inductive Panic where
  | nilDereference
  deriving DecidableEq, Repr

/-- Go pointer `*T`; `none` is `nil`. -/
abbrev Ptr (α : Type) : Type := Option α

/-- Go slice `[]T`; `none` is the nil slice, `some []` the empty non-nil one. -/
abbrev Slice (α : Type) : Type := Option (List α)

/-- Go `len` of a slice: a nil slice has length 0. -/
def Slice.len {α : Type} : Slice α → Nat
  | none => 0
  | some xs => xs.length

/-- A Go function with effects on a state `σ`: it either returns a value or
panics, and leaves a state behind either way. -/
abbrev Go (σ : Type) (α : Type) : Type := σ → Except Panic α × σ

namespace errors

/-- The loop of Go's `errors.Is` for non-nil `err` and `target`: compare, then
follow `Unwrap`. None of the error types of this program has an `Is` method. -/
def is : GoError → GoError → Bool
  | .wrapped ptr typ text inner, target =>
      decide (GoError.wrapped ptr typ text inner = target) || is inner target
  | e, target => decide (e = target)

/-- Go's `errors.Is(err, target)`; `none` is the nil error. -/
def Is (err : Option GoError) (target : Option GoError) : Bool :=
  match err, target with
  | some e, some t => is e t
  | none, none => true
  | _, _ => false

end errors

/-! ## Sentinel errors of the standard library and of the drivers -/

namespace sql

/-- Go's `database/sql.ErrNoRows`. -/
def ErrNoRows : GoError := .sentinel "sql" "ErrNoRows"

end sql

namespace context

/-- Go's `context.DeadlineExceeded`, what a store call returns when the query
timeout expires. -/
def DeadlineExceeded : GoError := .sentinel "context" "DeadlineExceeded"

end context

namespace pgerrcode

/-- The constant `pgerrcode.UniqueViolation` (SQLSTATE 23505). -/
def UniqueViolation : String := "23505"

end pgerrcode

/-! ## Package `repository` -/

namespace repository

/-- Modelled from the spec: the declaration of `repository.ErrUserNotFound` is
not among the sources. It is the repository's NotFound domain error, a sentinel
value of its own. -/
def ErrUserNotFound : GoError := .sentinel "repository" "ErrUserNotFound"

/-- Modelled from the spec: the declaration of `repository.ErrUserAlreadyExists`
is not among the sources. It is the repository's AlreadyExists domain error, a
sentinel value of its own. -/
def ErrUserAlreadyExists : GoError := .sentinel "repository" "ErrUserAlreadyExists"

/-- Modelled from the spec: the declaration of `repository.User` is not among
the sources; its four fields are the ones `service/model.go` reads and writes
(the persistence shape of the user). -/
structure User where
  ID : Int
  Name : String
  Email : String
  Age : Int
  deriving DecidableEq, Repr

/-- What `sql.Result.RowsAffected()` returns for a result: the count and the
error. -/
structure SqlResult where
  rowsAffected : Int
  rowsAffectedErr : Option GoError
  deriving DecidableEq, Repr

/-- An argument bound to a placeholder of a query. -/
inductive SqlArg where
  | int (n : Int)
  | str (s : String)
  deriving DecidableEq, Repr

/-- The part of `*sqlx.DB` the repository calls, over a store state `σ`. The
database handle is an external collaborator: each method is a function of the
query text, its arguments and the store state. The context argument carries
only the query timeout; when it expires the call returns the context's error.

* `SelectContext query` returns the rows it appended to the destination slice
  (pointers to fresh structs) and the error.
* `GetContext dest query args` returns the new contents of `*dest` and the
  error.
* `QueryRowScan dest query args` is `QueryRowContext(...).Scan(&dest)`: the new
  contents of `dest` and the error.
* `ExecContext query args` returns the `sql.Result` (a nil interface is `none`)
  and the error. -/
structure DB (σ : Type) where
  SelectContext : String → σ → (List User × Option GoError) × σ
  GetContext : User → String → List SqlArg → σ → (User × Option GoError) × σ
  QueryRowScan : Int → String → List SqlArg → σ → (Int × Option GoError) × σ
  ExecContext : String → List SqlArg → σ → (Option SqlResult × Option GoError) × σ

def postgresGetAllUsersQuery : String :=
  "SELECT id, name, email, age FROM config.users"

def postgresGetUserQuery : String :=
  "SELECT id, name, email, age FROM config.users WHERE id = $1"

def postgresCreateUserQuery : String :=
  "INSERT INTO config.users (name, email, age) VALUES ($1, $2, $3) RETURNING id"

def postgresUpdateUserQuery : String :=
  "UPDATE config.users SET name = $1, email = $2, age = $3 WHERE id = $4"

def postgresDeleteUserQuery : String :=
  "DELETE FROM config.users WHERE id = $1"

/-- Source interface `UserRepository`. -/
structure UserRepository (σ : Type) where
  GetAll : Go σ (Slice (Ptr User) × Option GoError)
  Get : Int → Go σ (Ptr User × Option GoError)
  Create : Ptr User → Go σ (Int × Option GoError)
  Update : Ptr User → Go σ (Option GoError)
  Delete : Int → Go σ (Option GoError)

/-- Source `PostgresUserRepository`; `queryTimeout` is a duration in
nanoseconds. -/
structure PostgresUserRepository (σ : Type) where
  queryTimeout : Nat
  db : DB σ

/-- Source `NewPostgresUserRepository`. -/
def NewPostgresUserRepository {σ : Type} (db : DB σ) (queryTimeout : Nat) :
    PostgresUserRepository σ :=
  { queryTimeout := queryTimeout, db := db }

/-- The type switch of `Create` and `Update`:
`switch typedErr := err.(type) { case pgx.PgError: typedErr.Code == pgerrcode.UniqueViolation }`.
It looks at the dynamic type of `err` itself and does not unwrap. -/
def isUniqueViolation : Option GoError → Bool
  | some (.pgError code _) => code == pgerrcode.UniqueViolation
  | _ => false

/-- Source `noRowsAffected`: it calls `RowsAffected` on the result, which
panics on a nil interface, drops the error and compares the count with 0. -/
def noRowsAffected : Option SqlResult → Except Panic Bool
  | none => .error .nilDereference
  | some result => .ok (result.rowsAffected == 0)

/-- Source `PostgresUserRepository.GetAll`: `users := []*User{}`, filled by
`SelectContext`, returned together with the error. -/
def PostgresUserRepository.GetAll {σ : Type} (r : PostgresUserRepository σ) :
    Go σ (Slice (Ptr User) × Option GoError) := fun st =>
  match r.db.SelectContext postgresGetAllUsersQuery st with
  | ((rows, err), st1) => (.ok (some ([] ++ rows.map some), err), st1)

/-- Source `PostgresUserRepository.Get`: `user := &User{}`, filled by
`GetContext`. -/
def PostgresUserRepository.Get {σ : Type} (r : PostgresUserRepository σ) (id : Int) :
    Go σ (Ptr User × Option GoError) := fun st =>
  match r.db.GetContext { ID := 0, Name := "", Email := "", Age := 0 }
      postgresGetUserQuery [.int id] st with
  | ((user, err), st1) =>
    if errors.Is err (some sql.ErrNoRows) then (.ok (none, some ErrUserNotFound), st1)
    else (.ok (some user, err), st1)

/-- Source `PostgresUserRepository.Create`. The arguments of the query
dereference `user` before the store is called. -/
def PostgresUserRepository.Create {σ : Type} (r : PostgresUserRepository σ)
    (user : Ptr User) : Go σ (Int × Option GoError) := fun st =>
  match user with
  | none => (.error .nilDereference, st)
  | some u =>
    match r.db.QueryRowScan 0 postgresCreateUserQuery
        [.str u.Name, .str u.Email, .int u.Age] st with
    | ((id, err), st1) =>
      if isUniqueViolation err then (.ok (0, some ErrUserAlreadyExists), st1)
      else (.ok (id, err), st1)

/-- Source `PostgresUserRepository.Update`. After the type switch the source
goes on to `noRowsAffected(result)` whatever `err` is, and ends in
`return nil`. -/
def PostgresUserRepository.Update {σ : Type} (r : PostgresUserRepository σ)
    (user : Ptr User) : Go σ (Option GoError) := fun st =>
  match user with
  | none => (.error .nilDereference, st)
  | some u =>
    match r.db.ExecContext postgresUpdateUserQuery
        [.str u.Name, .str u.Email, .int u.Age, .int u.ID] st with
    | ((result, err), st1) =>
      if isUniqueViolation err then (.ok (some ErrUserAlreadyExists), st1)
      else
        match noRowsAffected result with
        | .error p => (.error p, st1)
        | .ok true => (.ok (some ErrUserNotFound), st1)
        | .ok false => (.ok none, st1)

/-- Source `PostgresUserRepository.Delete`. -/
def PostgresUserRepository.Delete {σ : Type} (r : PostgresUserRepository σ)
    (id : Int) : Go σ (Option GoError) := fun st =>
  match r.db.ExecContext postgresDeleteUserQuery [.int id] st with
  | ((result, err), st1) =>
    match err with
    | some e => (.ok (some e), st1)
    | none =>
      match noRowsAffected result with
      | .error p => (.error p, st1)
      | .ok true => (.ok (some ErrUserNotFound), st1)
      | .ok false => (.ok none, st1)

/-- The method set of `*PostgresUserRepository` as a `UserRepository`. -/
def PostgresUserRepository.toUserRepository {σ : Type} (r : PostgresUserRepository σ) :
    UserRepository σ :=
  { GetAll := r.GetAll, Get := r.Get, Create := r.Create, Update := r.Update,
    Delete := r.Delete }

/-- One call on a `UserRepository`, with its arguments. -/
inductive Call where
  | GetAll
  | Get (id : Int)
  | Create (user : Ptr User)
  | Update (user : Ptr User)
  | Delete (id : Int)
  deriving DecidableEq, Repr

/-- A repository that behaves as `repo` and appends every call it receives to
a log kept next to the state. -/
def UserRepository.recording {σ : Type} (repo : UserRepository σ) :
    UserRepository (σ × List Call) :=
  { GetAll := fun st =>
      match repo.GetAll st.1 with
      | (res, st1) => (res, (st1, st.2 ++ [Call.GetAll]))
    Get := fun id st =>
      match repo.Get id st.1 with
      | (res, st1) => (res, (st1, st.2 ++ [Call.Get id]))
    Create := fun user st =>
      match repo.Create user st.1 with
      | (res, st1) => (res, (st1, st.2 ++ [Call.Create user]))
    Update := fun user st =>
      match repo.Update user st.1 with
      | (res, st1) => (res, (st1, st.2 ++ [Call.Update user]))
    Delete := fun id st =>
      match repo.Delete id st.1 with
      | (res, st1) => (res, (st1, st.2 ++ [Call.Delete id])) }

end repository

/-! ## Package `service`: model and errors -/

namespace service

/-- Modelled from the spec: the declaration of `service.ErrUserNotFound` is not
among the sources. It is the service-level NotFound domain error, a sentinel
value distinct from the repository's. -/
def ErrUserNotFound : GoError := .sentinel "service" "ErrUserNotFound"

/-- Modelled from the spec: the declaration of `service.ErrUserAlreadyExists` is
not among the sources. It is the service-level AlreadyExists domain error, a
sentinel value distinct from the repository's. -/
def ErrUserAlreadyExists : GoError := .sentinel "service" "ErrUserAlreadyExists"

/-- The user model of the service layer (`service/model.go`). -/
structure User where
  ID : Int
  Name : String
  Email : String
  Age : Int
  deriving DecidableEq, Repr

/-- Source `repositoryUserToServiceUser`, on a non-nil argument. -/
def repositoryUserToServiceUser (user : repository.User) : User :=
  { ID := user.ID, Name := user.Name, Email := user.Email, Age := user.Age }

/-- Source `serviceUserToRepositoryUser`, on a non-nil argument. -/
def serviceUserToRepositoryUser (user : User) : repository.User :=
  { ID := user.ID, Name := user.Name, Email := user.Email, Age := user.Age }

/-- Source interface `UserService`. -/
structure UserService (σ : Type) where
  GetAll : Go σ (Slice (Ptr User) × Option GoError)
  Get : Int → Go σ (Ptr User × Option GoError)
  Create : Ptr User → Go σ (Ptr User × Option GoError)
  Update : Ptr User → Go σ (Option GoError)
  Delete : Int → Go σ (Option GoError)

/-- Source `userService`. -/
structure userService (σ : Type) where
  userRepository : repository.UserRepository σ

/-- The loop of `GetAll`: `serviceUsers[i] = repositoryUserToServiceUser(user)`
for every element in order; converting a nil element dereferences it. -/
def convertAll : List (Ptr repository.User) → Except Panic (List (Ptr User))
  | [] => .ok []
  | none :: _ => .error .nilDereference
  | some user :: rest =>
    match convertAll rest with
    | .error p => .error p
    | .ok out => .ok (some (repositoryUserToServiceUser user) :: out)

/-- Source `userService.GetAll`. A nil slice from the repository has length 0,
so `make([]*User, len(users))` is an empty non-nil slice for it. -/
def userService.GetAll {σ : Type} (s : userService σ) :
    Go σ (Slice (Ptr User) × Option GoError) := fun st =>
  match s.userRepository.GetAll st with
  | (.error p, st1) => (.error p, st1)
  | (.ok (users, err), st1) =>
    match err with
    | some e => (.ok (none, some e), st1)
    | none =>
      match convertAll (users.getD []) with
      | .error p => (.error p, st1)
      | .ok serviceUsers => (.ok (some serviceUsers, none), st1)

/-- Source `userService.Get`. -/
def userService.Get {σ : Type} (s : userService σ) (id : Int) :
    Go σ (Ptr User × Option GoError) := fun st =>
  match s.userRepository.Get id st with
  | (.error p, st1) => (.error p, st1)
  | (.ok (user, err), st1) =>
    match err with
    | some e =>
      if errors.Is (some e) (some repository.ErrUserNotFound) then
        (.ok (none, some ErrUserNotFound), st1)
      else (.ok (none, some e), st1)
    | none =>
      match user with
      | none => (.error .nilDereference, st1)
      | some u => (.ok (some (repositoryUserToServiceUser u), none), st1)

/-- Source `userService.Create`. -/
def userService.Create {σ : Type} (s : userService σ) (user : Ptr User) :
    Go σ (Ptr User × Option GoError) := fun st =>
  match user with
  | none => (.error .nilDereference, st)
  | some u =>
    match s.userRepository.Create (some (serviceUserToRepositoryUser u)) st with
    | (.error p, st1) => (.error p, st1)
    | (.ok (id, err), st1) =>
      match err with
      | some e =>
        if errors.Is (some e) (some repository.ErrUserAlreadyExists) then
          (.ok (none, some ErrUserAlreadyExists), st1)
        else (.ok (none, some e), st1)
      | none =>
        (.ok (some { ID := id, Name := u.Name, Email := u.Email, Age := u.Age }, none), st1)

/-- Source `userService.Update`. -/
def userService.Update {σ : Type} (s : userService σ) (user : Ptr User) :
    Go σ (Option GoError) := fun st =>
  match user with
  | none => (.error .nilDereference, st)
  | some u =>
    match s.userRepository.Update (some (serviceUserToRepositoryUser u)) st with
    | (.error p, st1) => (.error p, st1)
    | (.ok err, st1) =>
      if errors.Is err (some repository.ErrUserNotFound) then
        (.ok (some ErrUserNotFound), st1)
      else if errors.Is err (some repository.ErrUserAlreadyExists) then
        (.ok (some ErrUserAlreadyExists), st1)
      else (.ok err, st1)

/-- Source `userService.Delete`. -/
def userService.Delete {σ : Type} (s : userService σ) (id : Int) :
    Go σ (Option GoError) := fun st =>
  match s.userRepository.Delete id st with
  | (.error p, st1) => (.error p, st1)
  | (.ok err, st1) =>
    if errors.Is err (some repository.ErrUserNotFound) then
      (.ok (some ErrUserNotFound), st1)
    else (.ok err, st1)

/-- The method set of `*userService` as a `UserService`. -/
def userService.toUserService {σ : Type} (s : userService σ) : UserService σ :=
  { GetAll := s.GetAll, Get := s.Get, Create := s.Create, Update := s.Update,
    Delete := s.Delete }

/-- Source `NewUserService`. -/
def NewUserService {σ : Type} (repository : repository.UserRepository σ) :
    UserService σ :=
  userService.toUserService { userRepository := repository }

/-- One call on a `UserService`, with its arguments. -/
inductive Call where
  | GetAll
  | Get (id : Int)
  | Create (user : Ptr User)
  | Update (user : Ptr User)
  | Delete (id : Int)
  deriving DecidableEq, Repr

/-- A service that behaves as `svc` and appends every call it receives to a
log kept next to the state. -/
def UserService.recording {σ : Type} (svc : UserService σ) :
    UserService (σ × List Call) :=
  { GetAll := fun st =>
      match svc.GetAll st.1 with
      | (res, st1) => (res, (st1, st.2 ++ [Call.GetAll]))
    Get := fun id st =>
      match svc.Get id st.1 with
      | (res, st1) => (res, (st1, st.2 ++ [Call.Get id]))
    Create := fun user st =>
      match svc.Create user st.1 with
      | (res, st1) => (res, (st1, st.2 ++ [Call.Create user]))
    Update := fun user st =>
      match svc.Update user st.1 with
      | (res, st1) => (res, (st1, st.2 ++ [Call.Update user]))
    Delete := fun id st =>
      match svc.Delete id st.1 with
      | (res, st1) => (res, (st1, st.2 ++ [Call.Delete id])) }

end service

/-! ## Standard library and framework pieces the controller calls -/

namespace strconv

/-- Go's `strconv.syntaxError`: a `*NumError` wrapping `strconv.ErrSyntax`. -/
def syntaxError (fn : String) (str : String) : GoError :=
  .wrapped 0 "*strconv.NumError" (fn ++ ": parsing " ++ str ++ ": invalid syntax")
    (.sentinel "strconv" "ErrSyntax")

/-- Go's `strconv.rangeError`: a `*NumError` wrapping `strconv.ErrRange`. -/
def rangeError (fn : String) (str : String) : GoError :=
  .wrapped 0 "*strconv.NumError" (fn ++ ": parsing " ++ str ++ ": value out of range")
    (.sentinel "strconv" "ErrRange")

/-- The digit loop of `strconv.ParseUint(s, 10, 64)` from an accumulator `n`:
`none` is a character that is not a decimal digit, `some none` an overflow of 64
bits (reported as soon as it happens), `some (some v)` the value. -/
def parseDigits : List Char → Nat → Option (Option Nat)
  | [], n => some (some n)
  | c :: cs, n =>
    if c.isDigit then
      if n * 10 + (c.toNat - 48) > 2 ^ 64 - 1 then some none
      else parseDigits cs (n * 10 + (c.toNat - 48))
    else none

/-- Go's `strconv.Atoi` on a 64-bit platform (`ParseInt(s, 10, 0)`): an
optional sign, then at least one decimal digit and nothing else, with a value in
the range of `int`. -/
def Atoi (s : String) : Except GoError Int :=
  let neg : Bool := s.toList.head? == some '-'
  let digits : List Char :=
    if s.toList.head? == some '-' || s.toList.head? == some '+' then s.toList.tail
    else s.toList
  if digits = [] then .error (syntaxError "Atoi" s)
  else
    match parseDigits digits 0 with
    | none => .error (syntaxError "Atoi" s)
    | some none => .error (rangeError "Atoi" s)
    | some (some un) =>
      if neg then
        if un > 2 ^ 63 then .error (rangeError "Atoi" s) else .ok (-(un : Int))
      else
        if un ≥ 2 ^ 63 then .error (rangeError "Atoi" s) else .ok (un : Int)

end strconv

namespace json

/-- A JSON value in the position of an object member, as far as decoding into
an `int` or a `string` field tells values apart. `intLit n` is a number literal
without fraction and exponent, `otherNum` any other number literal; the contents
of arrays and objects are never looked at. -/
inductive Value where
  | null
  | bool (b : Bool)
  | intLit (n : Int)
  | otherNum (text : String)
  | str (s : String)
  | array
  | object
  deriving DecidableEq, Repr

/-- The body of a request as `json.Decoder.Decode` sees it: `malformed` when
the body is absent, empty or not the text of a JSON value; otherwise the first
JSON value of the body, which is the only one gin decodes. Members of an object
are in the order of the text, repeated keys included. -/
inductive Body where
  | malformed
  | object (members : List (String × Value))
  | null
  | other
  deriving DecidableEq, Repr

/-- The error of a body that is not JSON (`*json.SyntaxError`, `io.EOF`). -/
def syntaxError : GoError := .value 0 "*json.SyntaxError" "invalid character"

/-- The error of a JSON value that does not fit the Go type
(`*json.UnmarshalTypeError`). -/
def unmarshalTypeError : GoError :=
  .value 0 "*json.UnmarshalTypeError" "json: cannot unmarshal"

/-- Whether the key of a member selects the struct field with JSON name `name`.
`encoding/json` takes an exact match or else a match under case folding; for
the names used here (`id`, `name`, `email`, `age`) folding is ASCII case
insensitivity. -/
def keyMatches (key : String) (name : String) : Bool :=
  key.toList.map Char.toLower == name.toList

/-- Decoding a member value into an `int` field holding `cur`: `null` leaves
the field as it is, an integer literal in the 64-bit range sets it, anything
else is a type error. -/
def decodeInt (cur : Int) : Value → Option Int
  | .null => some cur
  | .intLit n => if -(2 ^ 63) ≤ n ∧ n < 2 ^ 63 then some n else none
  | _ => none

/-- Decoding a member value into a `string` field holding `cur`. -/
def decodeString (cur : String) : Value → Option String
  | .null => some cur
  | .str s => some s
  | _ => none

/-- Decoding the members of an object into a struct, in order: `step` decodes
one member into the field its key selects, `none` being a type error, which
makes the whole decoding fail. -/
def decodeMembers {α : Type} (step : α → String → Value → Option α) :
    List (String × Value) → α → Option α
  | [], a => some a
  | (key, v) :: rest, a =>
    match step a key v with
    | none => none
    | some a1 => decodeMembers step rest a1

/-- The call `json.NewDecoder(body).Decode(&obj)` for a struct `obj` that
starts as `zero`. -/
def decode {α : Type} (step : α → String → Value → Option α) (zero : α) :
    Body → Except GoError α
  | .malformed => .error syntaxError
  | .other => .error unmarshalTypeError
  | .null => .ok zero
  | .object members =>
    match decodeMembers step members zero with
    | none => .error unmarshalTypeError
    | some a => .ok a

/-- No member of the object has a key that selects the field `name`: the
field is absent from the payload. -/
def absent (name : String) (members : List (String × Value)) : Bool :=
  members.all (fun kv => !keyMatches kv.1 name)

end json

namespace binding

/-- The error of the validator (`validator.ValidationErrors`). -/
def validationErrors : GoError :=
  .value 0 "validator.ValidationErrors" "Field validation failed"

/-- The rule `required` on an `int` field: the value is not the zero value. -/
def requiredInt (n : Int) : Bool := n != 0

/-- The rule `required` on a `string` field: the value is not the zero value. -/
def requiredString (s : String) : Bool := s != ""

end binding

namespace gin

/-- The part of `*gin.Context` the handlers read: the path parameters, the
request body, and the email rule of the engine's validator. -/
structure Context where
  params : List (String × String)
  body : json.Body
  emailRx : String → Bool

/-- The method `ctx.Param(key)`: the value of the path parameter, or the empty
string when there is none. -/
def Context.Param (ctx : Context) (key : String) : String :=
  match ctx.params.find? (fun kv => kv.1 == key) with
  | some kv => kv.2
  | none => ""

end gin

/-! ## Package `controller`: model -/

namespace controller

/-- Source `User` (`controller/model.go`), tags
`json:"id"`, `json:"name" binding:"required"`,
`json:"email" binding:"required,email"`, `json:"age" binding:"required"`. -/
structure User where
  ID : Int
  Name : String
  Email : String
  Age : Int
  deriving DecidableEq, Repr

/-- Source `UpdateUserRequest`, tags as for `User` with
`json:"id" binding:"required"` on `ID`. -/
structure UpdateUserRequest where
  ID : Int
  Name : String
  Email : String
  Age : Int
  deriving DecidableEq, Repr

/-- Source `GetUsersResponse`, JSON key `users`. -/
structure GetUsersResponse where
  Users : Slice (Ptr User)
  deriving DecidableEq, Repr

/-- Source `updateUserRequestToServiceUser`, on a non-nil argument. -/
def updateUserRequestToServiceUser (user : UpdateUserRequest) : service.User :=
  { ID := user.ID, Name := user.Name, Email := user.Email, Age := user.Age }

/-- Source `createUserRequestToServiceUser`, on a non-nil argument. -/
def createUserRequestToServiceUser (user : User) : service.User :=
  { ID := user.ID, Name := user.Name, Email := user.Email, Age := user.Age }

/-- Source `serviceUserToControllerUser`, on a non-nil argument. -/
def serviceUserToControllerUser (user : service.User) : User :=
  { ID := user.ID, Name := user.Name, Email := user.Email, Age := user.Age }

/-- Decoding one object member into a `User`, by the `json` tags of the
struct. A key that selects no field is skipped. -/
def User.decodeMember (u : User) (key : String) (v : json.Value) : Option User :=
  if json.keyMatches key "id" then (json.decodeInt u.ID v).map (fun n => { u with ID := n })
  else if json.keyMatches key "name" then
    (json.decodeString u.Name v).map (fun x => { u with Name := x })
  else if json.keyMatches key "email" then
    (json.decodeString u.Email v).map (fun x => { u with Email := x })
  else if json.keyMatches key "age" then
    (json.decodeInt u.Age v).map (fun n => { u with Age := n })
  else some u

/-- Decoding one object member into an `UpdateUserRequest`. -/
def UpdateUserRequest.decodeMember (u : UpdateUserRequest) (key : String) (v : json.Value) :
    Option UpdateUserRequest :=
  if json.keyMatches key "id" then (json.decodeInt u.ID v).map (fun n => { u with ID := n })
  else if json.keyMatches key "name" then
    (json.decodeString u.Name v).map (fun x => { u with Name := x })
  else if json.keyMatches key "email" then
    (json.decodeString u.Email v).map (fun x => { u with Email := x })
  else if json.keyMatches key "age" then
    (json.decodeInt u.Age v).map (fun n => { u with Age := n })
  else some u

/-- The `binding` tags of `User`: `Name` required, `Email` required and an
email address, `Age` required; `ID` has none. `emailRx` is the email rule of the
validator library, a regular expression that is not part of this repository. -/
def User.validate (emailRx : String → Bool) (u : User) : Bool :=
  binding.requiredString u.Name
    && (binding.requiredString u.Email && emailRx u.Email)
    && binding.requiredInt u.Age

/-- The `binding` tags of `UpdateUserRequest`: as `User`, and `ID` required. -/
def UpdateUserRequest.validate (emailRx : String → Bool) (u : UpdateUserRequest) : Bool :=
  binding.requiredInt u.ID
    && binding.requiredString u.Name
    && (binding.requiredString u.Email && emailRx u.Email)
    && binding.requiredInt u.Age

/-- The call `ctx.BindJSON(&inputUser)` of `createUser`, with
`inputUser := User{}`: decode the body, then validate the struct. -/
def User.BindJSON (emailRx : String → Bool) (body : json.Body) : Except GoError User :=
  match json.decode User.decodeMember { ID := 0, Name := "", Email := "", Age := 0 } body with
  | .error e => .error e
  | .ok u => if User.validate emailRx u then .ok u else .error binding.validationErrors

/-- The call `ctx.BindJSON(&inputUser)` of `updateUser`, with
`inputUser := UpdateUserRequest{}`. -/
def UpdateUserRequest.BindJSON (emailRx : String → Bool) (body : json.Body) :
    Except GoError UpdateUserRequest :=
  match
    json.decode UpdateUserRequest.decodeMember
      { ID := 0, Name := "", Email := "", Age := 0 } body with
  | .error e => .error e
  | .ok u =>
    if UpdateUserRequest.validate emailRx u then .ok u else .error binding.validationErrors

end controller

/-! ## Package `controller`: errors -/

namespace controller

/-- Source `APIError` (`controller/errors.go`); the JSON keys are `error_code`,
`error_message` and `status`. -/
structure APIError where
  ErrorCode : String
  Message : String
  Status : Nat
  deriving DecidableEq, Repr

/-- `http.StatusNotFound` = 404. -/
def ErrUserNotFound : APIError :=
  { ErrorCode := "ErrUserNotFound", Message := "user not found", Status := 404 }

/-- `http.StatusConflict` = 409. -/
def ErrUserAlreadyExists : APIError :=
  { ErrorCode := "ErrUserAlreadyExists", Message := "user already exists", Status := 409 }

/-- `http.StatusBadRequest` = 400. -/
def ErrValidationFailed : APIError :=
  { ErrorCode := "ErrValidationFailed", Message := "validation failed", Status := 400 }

/-- `http.StatusInternalServerError` = 500. -/
def ErrInternalServer : APIError :=
  { ErrorCode := "ErrInternalServer", Message := "internal server error", Status := 500 }

/-- `http.StatusBadRequest` = 400. -/
def ErrInvalidID : APIError :=
  { ErrorCode := "ErrInvalidID", Message := "invalid id", Status := 400 }

/-- Source `apiErrorFromServiceError`: a `switch err` on the identity of the
error value. The source returns a pointer to one of the five package-level
`APIError` variables; their contents are pairwise different, so a pointer is
identified with the value it points to. -/
def apiErrorFromServiceError (err : GoError) : APIError :=
  if err = service.ErrUserNotFound then ErrUserNotFound
  else if err = service.ErrUserAlreadyExists then ErrUserAlreadyExists
  else ErrInternalServer

end controller

/-! ## Package `controller`: handlers -/

namespace controller

/-- Level of a log entry written through the zap logger. -/
inductive LogLevel where
  | Warn
  | Error
  deriving DecidableEq, Repr

/-- An entry the handler writes to `c.logger`: level, message and the error
given as `zap.Error(err)`. -/
structure LogEntry where
  level : LogLevel
  msg : String
  err : Option GoError
  deriving DecidableEq, Repr

/-- What the handler serialises as the body of the response. -/
inductive ResponseBody where
  | empty
  | apiError (e : APIError)
  | user (u : User)
  | users (r : GetUsersResponse)
  deriving DecidableEq, Repr

/-- The HTTP response a handler writes: `ctx.JSON(status, obj)` sets both,
`ctx.Status(status)` leaves the body empty. -/
structure Response where
  status : Nat
  body : ResponseBody
  deriving DecidableEq, Repr

/-- Everything a handler leaves behind when it returns: the response and the
log entries. -/
structure Served where
  response : Response
  logs : List LogEntry
  deriving DecidableEq, Repr

/-- Source `UserController`; the logger is represented by the log entries in
`Served`. -/
structure UserController (σ : Type) where
  userService : service.UserService σ

/-- Source `NewUserController`. -/
def NewUserController {σ : Type} (service : service.UserService σ) : UserController σ :=
  { userService := service }

/-- The loop of `getUsers`:
`usersInResponse[i] = serviceUserToControllerUser(user)` for every element in
order; converting a nil element dereferences it. -/
def convertAll : List (Ptr service.User) → Except Panic (List (Ptr User))
  | [] => .ok []
  | none :: _ => .error .nilDereference
  | some user :: rest =>
    match convertAll rest with
    | .error p => .error p
    | .ok out => .ok (some (serviceUserToControllerUser user) :: out)

/-- Source `UserController.getUsers`. -/
def UserController.getUsers {σ : Type} (c : UserController σ) (_ctx : gin.Context) :
    Go σ Served := fun st =>
  match c.userService.GetAll st with
  | (.error p, st1) => (.error p, st1)
  | (.ok (users, err), st1) =>
    match err with
    | some e =>
      (.ok { response :=
               { status := (apiErrorFromServiceError e).Status,
                 body := .apiError (apiErrorFromServiceError e) },
             logs := [{ level := .Error, msg := "Failed to get users", err := some e }] },
       st1)
    | none =>
      match convertAll (users.getD []) with
      | .error p => (.error p, st1)
      | .ok usersInResponse =>
        (.ok { response := { status := 200, body := .users { Users := some usersInResponse } },
               logs := [] },
         st1)

/-- Source `UserController.getUser`. -/
def UserController.getUser {σ : Type} (c : UserController σ) (ctx : gin.Context) :
    Go σ Served := fun st =>
  match strconv.Atoi (ctx.Param "id") with
  | .error perr =>
    (.ok { response := { status := ErrInvalidID.Status, body := .apiError ErrInvalidID },
           logs := [{ level := .Warn, msg := "Failed to parse id", err := some perr }] },
     st)
  | .ok parsedID =>
    match c.userService.Get parsedID st with
    | (.error p, st1) => (.error p, st1)
    | (.ok (user, err), st1) =>
      match err with
      | some e =>
        (.ok { response :=
                 { status := (apiErrorFromServiceError e).Status,
                   body := .apiError (apiErrorFromServiceError e) },
               logs :=
                 if apiErrorFromServiceError e ≠ ErrUserNotFound then
                   [{ level := .Warn, msg := "Failed to get user", err := some e }]
                 else [] },
         st1)
      | none =>
        match user with
        | none => (.error .nilDereference, st1)
        | some u =>
          (.ok { response := { status := 200, body := .user (serviceUserToControllerUser u) },
                 logs := [] },
           st1)

/-- Source `UserController.createUser`. When `BindJSON` fails gin has already
set the status 400 itself; the handler then writes the same status with the
body. -/
def UserController.createUser {σ : Type} (c : UserController σ) (ctx : gin.Context) :
    Go σ Served := fun st =>
  match User.BindJSON ctx.emailRx ctx.body with
  | .error berr =>
    (.ok { response :=
             { status := ErrValidationFailed.Status, body := .apiError ErrValidationFailed },
           logs := [{ level := .Warn, msg := "Failed to parse user", err := some berr }] },
     st)
  | .ok inputUser =>
    match c.userService.Create (some (createUserRequestToServiceUser inputUser)) st with
    | (.error p, st1) => (.error p, st1)
    | (.ok (newUser, err), st1) =>
      match err with
      | some e =>
        (.ok { response :=
                 { status := (apiErrorFromServiceError e).Status,
                   body := .apiError (apiErrorFromServiceError e) },
               logs := [{ level := .Warn, msg := "Failed to create user", err := some e }] },
         st1)
      | none =>
        match newUser with
        | none => (.error .nilDereference, st1)
        | some u =>
          (.ok { response := { status := 201, body := .user (serviceUserToControllerUser u) },
                 logs := [] },
           st1)

/-- Source `UserController.updateUser`. -/
def UserController.updateUser {σ : Type} (c : UserController σ) (ctx : gin.Context) :
    Go σ Served := fun st =>
  match UpdateUserRequest.BindJSON ctx.emailRx ctx.body with
  | .error berr =>
    (.ok { response :=
             { status := ErrValidationFailed.Status, body := .apiError ErrValidationFailed },
           logs := [{ level := .Warn, msg := "Failed to parse user", err := some berr }] },
     st)
  | .ok inputUser =>
    match c.userService.Update (some (updateUserRequestToServiceUser inputUser)) st with
    | (.error p, st1) => (.error p, st1)
    | (.ok err, st1) =>
      match err with
      | some e =>
        (.ok { response :=
                 { status := (apiErrorFromServiceError e).Status,
                   body := .apiError (apiErrorFromServiceError e) },
               logs :=
                 if apiErrorFromServiceError e ≠ ErrUserNotFound then
                   [{ level := .Warn, msg := "Failed to update user", err := some e }]
                 else [] },
         st1)
      | none => (.ok { response := { status := 200, body := .empty }, logs := [] }, st1)

/-- Source `UserController.deleteUser`. -/
def UserController.deleteUser {σ : Type} (c : UserController σ) (ctx : gin.Context) :
    Go σ Served := fun st =>
  match strconv.Atoi (ctx.Param "id") with
  | .error perr =>
    (.ok { response := { status := ErrInvalidID.Status, body := .apiError ErrInvalidID },
           logs := [{ level := .Warn, msg := "Failed to parse id", err := some perr }] },
     st)
  | .ok parsedID =>
    match c.userService.Delete parsedID st with
    | (.error p, st1) => (.error p, st1)
    | (.ok err, st1) =>
      match err with
      | some e =>
        (.ok { response :=
                 { status := (apiErrorFromServiceError e).Status,
                   body := .apiError (apiErrorFromServiceError e) },
               logs :=
                 if apiErrorFromServiceError e ≠ ErrUserNotFound then
                   [{ level := .Warn, msg := "Failed to delete user", err := some e }]
                 else [] },
         st1)
      | none => (.ok { response := { status := 200, body := .empty }, logs := [] }, st1)

/-- Source `UserController.ConfigureRoutes`: the routes of group `/v1`, as
method, path pattern and handler. -/
def UserController.ConfigureRoutes {σ : Type} (c : UserController σ) :
    List (String × String × (gin.Context → Go σ Served)) :=
  [ ("GET", "/v1/users", c.getUsers),
    ("GET", "/v1/users/:id", c.getUser),
    ("POST", "/v1/users", c.createUser),
    ("PUT", "/v1/users", c.updateUser),
    ("DELETE", "/v1/users/:id", c.deleteUser) ]

/-- The response of a run of a handler; `none` when the handler panicked. -/
def responseOf {σ : Type} (run : Except Panic Served × σ) : Option Response :=
  match run.1 with
  | .ok served => some served.response
  | .error _ => none

end controller

/-! ## Package `controller`: keys that select no field -/

namespace controller

/-- The key of an object member selects none of the fields `id`, `name`,
`email`, `age` of `User` and `UpdateUserRequest`: an unknown field. -/
def unknownField (key : String) : Bool :=
  !json.keyMatches key "id" && !json.keyMatches key "name"
    && !json.keyMatches key "email" && !json.keyMatches key "age"

end controller

/-! ## Package `repository`: the calls a database handle receives -/

namespace repository

/-- One call on a `DB`, with the query text and its arguments. -/
inductive DBCall where
  | SelectContext (query : String)
  | GetContext (query : String) (args : List SqlArg)
  | QueryRowScan (query : String) (args : List SqlArg)
  | ExecContext (query : String) (args : List SqlArg)
  deriving DecidableEq, Repr

/-- A database handle that behaves as `db` and appends every call it receives
to a log kept next to the state. -/
def DB.recording {σ : Type} (db : DB σ) : DB (σ × List DBCall) :=
  { SelectContext := fun query st =>
      match db.SelectContext query st.1 with
      | (res, st1) => (res, (st1, st.2 ++ [DBCall.SelectContext query]))
    GetContext := fun dest query args st =>
      match db.GetContext dest query args st.1 with
      | (res, st1) => (res, (st1, st.2 ++ [DBCall.GetContext query args]))
    QueryRowScan := fun dest query args st =>
      match db.QueryRowScan dest query args st.1 with
      | (res, st1) => (res, (st1, st.2 ++ [DBCall.QueryRowScan query args]))
    ExecContext := fun query args st =>
      match db.ExecContext query args st.1 with
      | (res, st1) => (res, (st1, st.2 ++ [DBCall.ExecContext query args])) }

end repository

/-! ## Package `main`: the wiring of the layers -/

namespace main

/-- The wiring of `main` (`cmd/demo-app/main.go`): the controller on
`service.NewUserService` on `repository.NewPostgresUserRepository` on the
database handle, with the parsed query timeout. -/
def userController {σ : Type} (db : repository.DB σ) (parsedQueryTimeout : Nat) :
    controller.UserController σ :=
  controller.NewUserController
    (service.NewUserService
      (repository.NewPostgresUserRepository db parsedQueryTimeout).toUserRepository)

end main

/-! ## The store: the table `config.users` -/

namespace postgres

/-- Modelled from the spec: the table `config.users` and its schema come from
the migrations, which are not among the sources. The store holds the user rows
in insertion order and the next value of the id sequence; ids are assigned by
the store, and no two rows may share an email. -/
structure Store where
  rows : List repository.User
  nextID : Int
  deriving DecidableEq, Repr

/-- Modelled from the spec: the error the store raises when a statement would
make two rows share an email, a `pgx.PgError` with the unique-violation code. -/
def uniqueViolation : GoError :=
  .pgError pgerrcode.UniqueViolation
    "duplicate key value violates unique constraint"

/-- The error of a statement the store does not know. -/
def unknownStatement : GoError := .pgError "42601" "syntax error"

/-- Modelled from the spec: `INSERT ... RETURNING id`. The row gets the next id
of the sequence; when the email is already taken the statement fails with the
unique violation and stores nothing (the sequence value is used up all the
same, as in Postgres). -/
def Store.insert (s : Store) (name : String) (email : String) (age : Int) :
    Except GoError Int × Store :=
  if s.rows.any (fun r => r.Email == email) then
    (.error uniqueViolation, { rows := s.rows, nextID := s.nextID + 1 })
  else
    (.ok s.nextID,
      { rows := s.rows ++ [{ ID := s.nextID, Name := name, Email := email, Age := age }],
        nextID := s.nextID + 1 })

/-- Modelled from the spec: `UPDATE ... WHERE id = $4`, a full replace of name,
email and age on the rows with that id. It fails with the unique violation when
a row with another id already has the new email; otherwise it reports the
number of rows it matched. -/
def Store.update (s : Store) (name : String) (email : String) (age : Int) (id : Int) :
    Except GoError Int × Store :=
  if s.rows.any (fun r => r.ID == id)
      && s.rows.any (fun r => r.ID != id && r.Email == email) then
    (.error uniqueViolation, s)
  else
    (.ok (s.rows.countP (fun r => r.ID == id)),
      { rows := s.rows.map (fun r =>
          if r.ID == id then { ID := id, Name := name, Email := email, Age := age } else r),
        nextID := s.nextID })

/-- Modelled from the spec: `DELETE ... WHERE id = $1`, a hard delete of the
rows with that id; it reports the number of rows it removed. -/
def Store.delete (s : Store) (id : Int) : Int × Store :=
  (s.rows.countP (fun r => r.ID == id),
    { rows := s.rows.filter (fun r => r.ID != id), nextID := s.nextID })

/-- Modelled from the spec: the database handle on the store. Each method
recognises the statements of the repository by their text and arguments;
`GetContext` returns `sql.ErrNoRows` when no row has the id and leaves the
destination alone. -/
def db : repository.DB Store :=
  { SelectContext := fun query s =>
      if query = repository.postgresGetAllUsersQuery then ((s.rows, none), s)
      else (([], some unknownStatement), s)
    GetContext := fun dest query args s =>
      match decide (query = repository.postgresGetUserQuery), args with
      | true, [.int id] =>
        match s.rows.find? (fun r => r.ID == id) with
        | some r => ((r, none), s)
        | none => ((dest, some sql.ErrNoRows), s)
      | _, _ => ((dest, some unknownStatement), s)
    QueryRowScan := fun dest query args s =>
      match decide (query = repository.postgresCreateUserQuery), args with
      | true, [.str name, .str email, .int age] =>
        match s.insert name email age with
        | (.ok id, s1) => ((id, none), s1)
        | (.error e, s1) => ((dest, some e), s1)
      | _, _ => ((dest, some unknownStatement), s)
    ExecContext := fun query args s =>
      match decide (query = repository.postgresUpdateUserQuery),
          decide (query = repository.postgresDeleteUserQuery), args with
      | true, _, [.str name, .str email, .int age, .int id] =>
        match s.update name email age id with
        | (.ok n, s1) => ((some { rowsAffected := n, rowsAffectedErr := none }, none), s1)
        | (.error e, s1) => ((none, some e), s1)
      | false, true, [.int id] =>
        match s.delete id with
        | (n, s1) => ((some { rowsAffected := n, rowsAffectedErr := none }, none), s1)
      | _, _, _ => ((none, some unknownStatement), s) }

/-- The application as `main` wires it, on the store, with the default query
timeout of five seconds. -/
def app : controller.UserController Store :=
  main.userController db 5000000000

end postgres

/-! ## Package `controller`: the table of API errors -/

namespace controller

/-- The five `APIError` variables of the `var` block of `controller/errors.go`,
in the order of the source. -/
def apiErrors : List APIError :=
  [ErrUserNotFound, ErrUserAlreadyExists, ErrValidationFailed, ErrInternalServer,
    ErrInvalidID]

end controller

/-! ## Fixtures: concrete collaborators for the worked examples -/

namespace Fixtures

/-- A service double whose every method fails with the error `e`. -/
def failingService (e : GoError) : service.UserService Unit :=
  { GetAll := fun st => (.ok (none, some e), st)
    Get := fun _ st => (.ok (none, some e), st)
    Create := fun _ st => (.ok (none, some e), st)
    Update := fun _ st => (.ok (some e), st)
    Delete := fun _ st => (.ok (some e), st) }

/-- The error `errors.New("error")` the controller tests make the service
return. -/
def plainError : GoError := .value 1 "*errors.errorString" "error"

/-- A stand-in for the email rule of the validator: an address has an `@`. -/
def sampleEmailRx (s : String) : Bool := s.toList.contains '@'

/-- The path parameter `id` set to `id`, and the JSON body `body`. -/
def request (id : String) (body : json.Body) : gin.Context :=
  { params := [("id", id)], body := body, emailRx := sampleEmailRx }

/-- The body `{"name": "Name Name 1", "email": "email1@email.com", "age": 37}`
of the controller tests. -/
def createBody : json.Body :=
  .object [("name", .str "Name Name 1"), ("email", .str "email1@email.com"),
    ("age", .intLit 37)]

/-- The body of the update tests: `createBody` with `"id": 1`. -/
def updateBody : json.Body :=
  .object [("id", .intLit 1), ("name", .str "Name Name 1"),
    ("email", .str "email1@email.com"), ("age", .intLit 37)]

/-- The user `USER1` of the repository tests. -/
def USER1 : repository.User :=
  { ID := 1, Name := "Name Name 1", Email := "email1@email.com", Age := 37 }

/-- A database handle on which every call runs into the query timeout: the call
returns `context.DeadlineExceeded`, leaves the destination as it was and, for
`ExecContext`, returns a nil `sql.Result`, as `database/sql` does on an error. -/
def timeoutDB : repository.DB Unit :=
  { SelectContext := fun _ st => (([], some context.DeadlineExceeded), st)
    GetContext := fun dest _ _ st => ((dest, some context.DeadlineExceeded), st)
    QueryRowScan := fun dest _ _ st => ((dest, some context.DeadlineExceeded), st)
    ExecContext := fun _ _ st => ((none, some context.DeadlineExceeded), st) }

/-- The repository of the tests, with its timeout of two seconds, on
`timeoutDB`. -/
def timeoutRepository : repository.PostgresUserRepository Unit :=
  repository.NewPostgresUserRepository timeoutDB 2000000000

/-- A repository double whose every method fails with the error `e`. -/
def failingRepository (e : GoError) : repository.UserRepository Unit :=
  { GetAll := fun st => (.ok (none, some e), st)
    Get := fun _ st => (.ok (none, some e), st)
    Create := fun _ st => (.ok (0, some e), st)
    Update := fun _ st => (.ok (some e), st)
    Delete := fun _ st => (.ok (some e), st) }

/-- The user `USER1_SERVICE` of the service tests. -/
def USER1_SERVICE : service.User :=
  { ID := 1, Name := "Name Name 1", Email := "email1@email.com", Age := 37 }

/-- A repository double of the service tests: `Create` stores nothing and
returns the id `id` with no error; the other methods succeed with empty
results. -/
def creatingRepository (id : Int) : repository.UserRepository Unit :=
  { GetAll := fun st => (.ok (some [], none), st)
    Get := fun _ st => (.ok (some USER1, none), st)
    Create := fun _ st => (.ok (id, none), st)
    Update := fun _ st => (.ok none, st)
    Delete := fun _ st => (.ok none, st) }

/-- The body `{"name": "Name Name 1", "email": "invalid", "age": 37}` of the
test `returns 400 when invalid email`. -/
def invalidEmailBody : json.Body :=
  .object [("name", .str "Name Name 1"), ("email", .str "invalid"), ("age", .intLit 37)]

/-- The body of the update test with an invalid email: `invalidEmailBody` with
`"id": 1`. -/
def invalidEmailUpdateBody : json.Body :=
  .object [("id", .intLit 1), ("name", .str "Name Name 1"), ("email", .str "invalid"),
    ("age", .intLit 37)]

/-- A create body without a name: `{"email": "email1@email.com", "age": 37}`. -/
def noNameBody : json.Body :=
  .object [("email", .str "email1@email.com"), ("age", .intLit 37)]

/-- An update body with the id 0:
`{"id": 0, "name": "Name Name 1", "email": "email1@email.com", "age": 37}`. -/
def zeroIDUpdateBody : json.Body :=
  .object [("id", .intLit 0), ("name", .str "Name Name 1"),
    ("email", .str "email1@email.com"), ("age", .intLit 37)]

/-- A service double that succeeds: `Create` returns its argument, with no
error. -/
def echoService : service.UserService Unit :=
  { GetAll := fun st => (.ok (some [], none), st)
    Get := fun _ st => (.ok (some USER1_SERVICE, none), st)
    Create := fun user st => (.ok (user, none), st)
    Update := fun _ st => (.ok none, st)
    Delete := fun _ st => (.ok none, st) }

/-- The create body of the test `additional fields are ignored`:
`createBody` with `"foo": "bar"`. -/
def createBodyWithFoo : json.Body :=
  .object ([("name", .str "Name Name 1"), ("email", .str "email1@email.com"),
    ("age", .intLit 37)] ++ ("foo", .str "bar") :: [])

/-- The update body of the test `additional fields are ignored`:
`updateBody` with `"foo": "bar"`. -/
def updateBodyWithFoo : json.Body :=
  .object ([("id", .intLit 1), ("name", .str "Name Name 1"),
    ("email", .str "email1@email.com"), ("age", .intLit 37)] ++ ("foo", .str "bar") :: [])

/-- The service double of the test `additional fields are ignored`: `Create`
returns the user with `ID` 1 and `Update` returns no error. -/
def acceptingService : service.UserService Unit :=
  { GetAll := fun st => (.ok (some [], none), st)
    Get := fun _ st => (.ok (some USER1_SERVICE, none), st)
    Create := fun _ st => (.ok (some USER1_SERVICE, none), st)
    Update := fun _ st => (.ok none, st)
    Delete := fun _ st => (.ok none, st) }

/-- The user `USER2` of the repository tests. -/
def USER2 : repository.User :=
  { ID := 2, Name := "Name Name 2", Email := "email2@email.com", Age := 102 }

/-- The user `USER2_SERVICE` of the service tests. -/
def USER2_SERVICE : service.User :=
  { ID := 2, Name := "Name Name 2", Email := "email2@email.com", Age := 102 }

/-- A freshly migrated store: no rows, the id sequence at 1. -/
def emptyStore : postgres.Store := { rows := [], nextID := 1 }

/-- The store after `USER1` and `USER2` were created. -/
def twoUserStore : postgres.Store := { rows := [USER1, USER2], nextID := 3 }

/-- The repository of the tests, with its timeout of two seconds, on the
store. -/
def storeRepository : repository.PostgresUserRepository postgres.Store :=
  repository.NewPostgresUserRepository postgres.db 2000000000

/-- A service double whose `GetAll` returns the slice `users` and no error. -/
def listingService (users : Slice (Ptr service.User)) : service.UserService Unit :=
  { GetAll := fun st => (.ok (users, none), st)
    Get := fun _ st => (.ok (some USER1_SERVICE, none), st)
    Create := fun user st => (.ok (user, none), st)
    Update := fun _ st => (.ok none, st)
    Delete := fun _ st => (.ok none, st) }

/-- A repository double whose `GetAll` returns the slice `users` and no
error. -/
def listingRepository (users : Slice (Ptr repository.User)) : repository.UserRepository Unit :=
  { GetAll := fun st => (.ok (users, none), st)
    Get := fun _ st => (.ok (some USER1, none), st)
    Create := fun _ st => (.ok (1, none), st)
    Update := fun _ st => (.ok none, st)
    Delete := fun _ st => (.ok none, st) }

/-- The error `sql.ErrNoRows` wrapped with `fmt.Errorf("get user: %w", ...)`. -/
def wrappedNoRows : GoError :=
  .wrapped 2 "*fmt.wrapError" "get user: sql: no rows in result set" sql.ErrNoRows

/-- A database handle whose `GetContext` fails with `wrappedNoRows` and leaves
the destination as it was; the other calls behave as on `timeoutDB`. -/
def wrappedNoRowsDB : repository.DB Unit :=
  { timeoutDB with GetContext := fun dest _ _ st => ((dest, some wrappedNoRows), st) }

/-- An update body for the id 99999, which was never created:
`{"id": 99999, "name": "Name Name 1", "email": "email1@email.com", "age": 37}`. -/
def missingUpdateBody : json.Body :=
  .object [("id", .intLit 99999), ("name", .str "Name Name 1"),
    ("email", .str "email1@email.com"), ("age", .intLit 37)]

/-- A second create body with the email of `createBody`:
`{"name": "Other Name", "email": "email1@email.com", "age": 50}`. -/
def sameEmailBody : json.Body :=
  .object [("name", .str "Other Name"), ("email", .str "email1@email.com"),
    ("age", .intLit 50)]

/-- The error `fmt.Errorf("get: %w", service.ErrUserNotFound)`. -/
def wrappedServiceNotFound : GoError :=
  .wrapped 3 "*fmt.wrapError" "get: user not found" service.ErrUserNotFound

/-- The error `fmt.Errorf("get: %w", repository.ErrUserNotFound)`. -/
def wrappedRepositoryNotFound : GoError :=
  .wrapped 4 "*fmt.wrapError" "get: user not found" repository.ErrUserNotFound

/-- The error `fmt.Errorf("create: %w", repository.ErrUserAlreadyExists)`. -/
def wrappedRepositoryAlreadyExists : GoError :=
  .wrapped 5 "*fmt.wrapError" "create: user already exists" repository.ErrUserAlreadyExists

/-- The error of a driver whose results cannot count the affected rows. -/
def rowsAffectedUnsupported : GoError :=
  .value 6 "*errors.errorString" "RowsAffected is not supported"

/-- A database handle on the store whose statements take effect as on
`postgres.db`, but whose results cannot report the affected rows:
`RowsAffected` returns 0 with `rowsAffectedUnsupported`. -/
def unreportingDB : repository.DB postgres.Store :=
  { postgres.db with
    ExecContext := fun query args s =>
      match postgres.db.ExecContext query args s with
      | ((some _, none), s1) =>
        ((some { rowsAffected := 0, rowsAffectedErr := some rowsAffectedUnsupported }, none),
          s1)
      | other => other }

end Fixtures

/-! ## Theorems -/

/-- C1: `apiErrorFromServiceError` maps `service.ErrUserNotFound` to the
`APIError` with code `ErrUserNotFound`, message `user not found` and status 404,
and `service.ErrUserAlreadyExists` to the one with code `ErrUserAlreadyExists`,
message `user already exists` and status 409. -/
theorem controller.apiErrorFromServiceError_domain_errors :
    controller.apiErrorFromServiceError service.ErrUserNotFound
        = { ErrorCode := "ErrUserNotFound", Message := "user not found", Status := 404 }
      ∧ controller.apiErrorFromServiceError service.ErrUserAlreadyExists
        = { ErrorCode := "ErrUserAlreadyExists", Message := "user already exists",
            Status := 409 } := by
  constructor <;> decide

/-- C2: in every handler, when the service call the handler makes returns an
error that is neither `service.ErrUserNotFound` nor
`service.ErrUserAlreadyExists`, the response has status 500 and the body with
code `ErrInternalServer`, message `internal server error` and status 500. The
response is this one constant whatever the error is, so two such errors give
the same `APIError` and the same response. -/
theorem controller.other_service_error_gives_internal_server_error {σ : Type}
    (c : controller.UserController σ) (ctx : gin.Context) (st st1 : σ) (e : GoError)
    (hnf : e ≠ service.ErrUserNotFound) (hae : e ≠ service.ErrUserAlreadyExists) :
    (∀ users, c.userService.GetAll st = (.ok (users, some e), st1) →
        controller.responseOf (c.getUsers ctx st)
          = some { status := 500,
                   body := .apiError { ErrorCode := "ErrInternalServer",
                                       Message := "internal server error", Status := 500 } })
    ∧ (∀ id user, strconv.Atoi (ctx.Param "id") = .ok id →
        c.userService.Get id st = (.ok (user, some e), st1) →
        controller.responseOf (c.getUser ctx st)
          = some { status := 500,
                   body := .apiError { ErrorCode := "ErrInternalServer",
                                       Message := "internal server error", Status := 500 } })
    ∧ (∀ input newUser, controller.User.BindJSON ctx.emailRx ctx.body = .ok input →
        c.userService.Create (some (controller.createUserRequestToServiceUser input)) st
          = (.ok (newUser, some e), st1) →
        controller.responseOf (c.createUser ctx st)
          = some { status := 500,
                   body := .apiError { ErrorCode := "ErrInternalServer",
                                       Message := "internal server error", Status := 500 } })
    ∧ (∀ input, controller.UpdateUserRequest.BindJSON ctx.emailRx ctx.body = .ok input →
        c.userService.Update (some (controller.updateUserRequestToServiceUser input)) st
          = (.ok (some e), st1) →
        controller.responseOf (c.updateUser ctx st)
          = some { status := 500,
                   body := .apiError { ErrorCode := "ErrInternalServer",
                                       Message := "internal server error", Status := 500 } })
    ∧ (∀ id, strconv.Atoi (ctx.Param "id") = .ok id →
        c.userService.Delete id st = (.ok (some e), st1) →
        controller.responseOf (c.deleteUser ctx st)
          = some { status := 500,
                   body := .apiError { ErrorCode := "ErrInternalServer",
                                       Message := "internal server error", Status := 500 } })
    ∧ (∀ e2, e2 ≠ service.ErrUserNotFound → e2 ≠ service.ErrUserAlreadyExists →
        controller.apiErrorFromServiceError e2 = controller.apiErrorFromServiceError e) := by
  have hapi : ∀ x, x ≠ service.ErrUserNotFound → x ≠ service.ErrUserAlreadyExists →
      controller.apiErrorFromServiceError x = controller.ErrInternalServer := by
    intro x h1 h2
    simp [controller.apiErrorFromServiceError, h1, h2]
  refine ⟨?_, ?_, ?_, ?_, ?_, ?_⟩
  · intro users h
    simp [controller.UserController.getUsers, h, hapi e hnf hae, controller.responseOf,
      controller.ErrInternalServer]
  · intro id user hid h
    simp [controller.UserController.getUser, hid, h, hapi e hnf hae, controller.responseOf,
      controller.ErrInternalServer]
  · intro input newUser hb h
    simp [controller.UserController.createUser, hb, h, hapi e hnf hae, controller.responseOf,
      controller.ErrInternalServer]
  · intro input hb h
    simp [controller.UserController.updateUser, hb, h, hapi e hnf hae, controller.responseOf,
      controller.ErrInternalServer]
  · intro id hid h
    simp [controller.UserController.deleteUser, hid, h, hapi e hnf hae, controller.responseOf,
      controller.ErrInternalServer]
  · intro e2 h1 h2
    rw [hapi e2 h1 h2, hapi e hnf hae]

/-- Worked example for C2: with a service that fails with `errors.New("error")`
in every method, each of the five handlers answers 500 with the
`ErrInternalServer` body. -/
theorem controller.other_service_error_gives_internal_server_error_witness :
    Fixtures.plainError ≠ service.ErrUserNotFound
      ∧ Fixtures.plainError ≠ service.ErrUserAlreadyExists
      ∧ controller.responseOf
          ((controller.NewUserController (Fixtures.failingService Fixtures.plainError)).getUsers
            (Fixtures.request "1" Fixtures.updateBody) ())
        = some { status := 500,
                 body := .apiError { ErrorCode := "ErrInternalServer",
                                     Message := "internal server error", Status := 500 } }
      ∧ controller.responseOf
          ((controller.NewUserController (Fixtures.failingService Fixtures.plainError)).getUser
            (Fixtures.request "1" Fixtures.updateBody) ())
        = some { status := 500,
                 body := .apiError { ErrorCode := "ErrInternalServer",
                                     Message := "internal server error", Status := 500 } }
      ∧ controller.responseOf
          ((controller.NewUserController (Fixtures.failingService Fixtures.plainError)).createUser
            (Fixtures.request "1" Fixtures.updateBody) ())
        = some { status := 500,
                 body := .apiError { ErrorCode := "ErrInternalServer",
                                     Message := "internal server error", Status := 500 } }
      ∧ controller.responseOf
          ((controller.NewUserController (Fixtures.failingService Fixtures.plainError)).updateUser
            (Fixtures.request "1" Fixtures.updateBody) ())
        = some { status := 500,
                 body := .apiError { ErrorCode := "ErrInternalServer",
                                     Message := "internal server error", Status := 500 } }
      ∧ controller.responseOf
          ((controller.NewUserController (Fixtures.failingService Fixtures.plainError)).deleteUser
            (Fixtures.request "1" Fixtures.updateBody) ())
        = some { status := 500,
                 body := .apiError { ErrorCode := "ErrInternalServer",
                                     Message := "internal server error", Status := 500 } } :=
  have h := controller.other_service_error_gives_internal_server_error
    (controller.NewUserController (Fixtures.failingService Fixtures.plainError))
    (Fixtures.request "1" Fixtures.updateBody) () () Fixtures.plainError
    (by decide) (by decide)
  ⟨by decide, by decide, h.1 none rfl, h.2.1 1 none rfl rfl,
    h.2.2.1 { ID := 1, Name := "Name Name 1", Email := "email1@email.com", Age := 37 } none
      rfl rfl,
    h.2.2.2.1 { ID := 1, Name := "Name Name 1", Email := "email1@email.com", Age := 37 }
      rfl rfl,
    h.2.2.2.2.1 1 rfl rfl⟩

/-- C3 (the code departs from it in `Update`): when the store call runs into the
query timeout, `ExecContext` returns a nil result and
`context.DeadlineExceeded`, which is neither a no-rows signal nor a uniqueness
violation. `GetAll`, `Get`, `Create` and `Delete` return that error; `Update`
does not test `err`, goes on to `noRowsAffected(result)` and panics on the nil
result instead of returning the error. -/
theorem repository.Update_on_store_timeout_does_not_return_the_error :
    (Fixtures.timeoutRepository.Update (some Fixtures.USER1) ()).1
        = .error Panic.nilDereference
      ∧ (Fixtures.timeoutRepository.Delete 1 ()).1 = .ok (some context.DeadlineExceeded)
      ∧ (Fixtures.timeoutRepository.GetAll ()).1
          = .ok (some [], some context.DeadlineExceeded)
      ∧ (Fixtures.timeoutRepository.Get 1 ()).1
          = .ok (some { ID := 0, Name := "", Email := "", Age := 0 },
              some context.DeadlineExceeded)
      ∧ (Fixtures.timeoutRepository.Create (some Fixtures.USER1) ()).1
          = .ok (0, some context.DeadlineExceeded)
      ∧ errors.Is (some context.DeadlineExceeded) (some sql.ErrNoRows) = false
      ∧ repository.isUniqueViolation (some context.DeadlineExceeded) = false := by
  refine ⟨rfl, rfl, rfl, rfl, rfl, rfl, rfl⟩

/-! ### Service layer: what each operation does with the repository's result -/

theorem service.GetAll_of_repository_error {σ : Type} (s : service.userService σ)
    (st st1 : σ) (users : Slice (Ptr repository.User)) (e : GoError)
    (h : s.userRepository.GetAll st = (.ok (users, some e), st1)) :
    s.GetAll st = (.ok (none, some e), st1) := by
  simp [service.userService.GetAll, h]

theorem service.Get_of_repository_error {σ : Type} (s : service.userService σ)
    (id : Int) (st st1 : σ) (user : Ptr repository.User) (e : GoError)
    (h : s.userRepository.Get id st = (.ok (user, some e), st1)) :
    s.Get id st
      = (.ok (none,
          some (if errors.Is (some e) (some repository.ErrUserNotFound)
            then service.ErrUserNotFound else e)), st1) := by
  simp only [service.userService.Get, h]
  split <;> rfl

theorem service.Create_of_repository_error {σ : Type} (s : service.userService σ)
    (u : service.User) (st st1 : σ) (id : Int) (e : GoError)
    (h : s.userRepository.Create (some (service.serviceUserToRepositoryUser u)) st
      = (.ok (id, some e), st1)) :
    s.Create (some u) st
      = (.ok (none,
          some (if errors.Is (some e) (some repository.ErrUserAlreadyExists)
            then service.ErrUserAlreadyExists else e)), st1) := by
  simp only [service.userService.Create, h]
  split <;> rfl

theorem service.Update_of_repository_result {σ : Type} (s : service.userService σ)
    (u : service.User) (st st1 : σ) (err : Option GoError)
    (h : s.userRepository.Update (some (service.serviceUserToRepositoryUser u)) st
      = (.ok err, st1)) :
    s.Update (some u) st
      = (.ok (if errors.Is err (some repository.ErrUserNotFound)
            then some service.ErrUserNotFound
          else if errors.Is err (some repository.ErrUserAlreadyExists)
            then some service.ErrUserAlreadyExists
          else err), st1) := by
  simp only [service.userService.Update, h]
  split
  · rfl
  · split <;> rfl

theorem service.Delete_of_repository_result {σ : Type} (s : service.userService σ)
    (id : Int) (st st1 : σ) (err : Option GoError)
    (h : s.userRepository.Delete id st = (.ok err, st1)) :
    s.Delete id st
      = (.ok (if errors.Is err (some repository.ErrUserNotFound)
            then some service.ErrUserNotFound else err), st1) := by
  simp only [service.userService.Delete, h]
  split <;> rfl

/-- C4, as the code has it: each operation translates the repository domain
errors it tests for, `repository.ErrUserNotFound` in `Get`, `Update` and
`Delete` and `repository.ErrUserAlreadyExists` in `Create` and `Update`, into the
service-level error, which is a different value from the repository's. In the
other combinations (`GetAll` with either, `Get` and `Delete` with
`repository.ErrUserAlreadyExists`, `Create` with `repository.ErrUserNotFound`)
the repository's own error value is returned unchanged. -/
theorem service.domain_errors_translated_per_operation {σ : Type}
    (s : service.userService σ) (st st1 : σ) :
    (∀ id user, s.userRepository.Get id st = (.ok (user, some repository.ErrUserNotFound), st1) →
        s.Get id st = (.ok (none, some service.ErrUserNotFound), st1))
    ∧ (∀ u, s.userRepository.Update (some (service.serviceUserToRepositoryUser u)) st
          = (.ok (some repository.ErrUserNotFound), st1) →
        s.Update (some u) st = (.ok (some service.ErrUserNotFound), st1))
    ∧ (∀ id, s.userRepository.Delete id st = (.ok (some repository.ErrUserNotFound), st1) →
        s.Delete id st = (.ok (some service.ErrUserNotFound), st1))
    ∧ (∀ u id, s.userRepository.Create (some (service.serviceUserToRepositoryUser u)) st
          = (.ok (id, some repository.ErrUserAlreadyExists), st1) →
        s.Create (some u) st = (.ok (none, some service.ErrUserAlreadyExists), st1))
    ∧ (∀ u, s.userRepository.Update (some (service.serviceUserToRepositoryUser u)) st
          = (.ok (some repository.ErrUserAlreadyExists), st1) →
        s.Update (some u) st = (.ok (some service.ErrUserAlreadyExists), st1))
    ∧ service.ErrUserNotFound ≠ repository.ErrUserNotFound
    ∧ service.ErrUserAlreadyExists ≠ repository.ErrUserAlreadyExists
    ∧ (∀ users e, (e = repository.ErrUserNotFound ∨ e = repository.ErrUserAlreadyExists) →
        s.userRepository.GetAll st = (.ok (users, some e), st1) →
        s.GetAll st = (.ok (none, some e), st1))
    ∧ (∀ id user,
        s.userRepository.Get id st = (.ok (user, some repository.ErrUserAlreadyExists), st1) →
        s.Get id st = (.ok (none, some repository.ErrUserAlreadyExists), st1))
    ∧ (∀ u id, s.userRepository.Create (some (service.serviceUserToRepositoryUser u)) st
          = (.ok (id, some repository.ErrUserNotFound), st1) →
        s.Create (some u) st = (.ok (none, some repository.ErrUserNotFound), st1))
    ∧ (∀ id, s.userRepository.Delete id st = (.ok (some repository.ErrUserAlreadyExists), st1) →
        s.Delete id st = (.ok (some repository.ErrUserAlreadyExists), st1)) := by
  refine ⟨?_, ?_, ?_, ?_, ?_, by decide, by decide, ?_, ?_, ?_, ?_⟩
  · intro id user h
    rw [service.Get_of_repository_error s id st st1 user _ h]; rfl
  · intro u h
    rw [service.Update_of_repository_result s u st st1 _ h]; rfl
  · intro id h
    rw [service.Delete_of_repository_result s id st st1 _ h]; rfl
  · intro u id h
    rw [service.Create_of_repository_error s u st st1 id _ h]; rfl
  · intro u h
    rw [service.Update_of_repository_result s u st st1 _ h]; rfl
  · intro users e _ h
    exact service.GetAll_of_repository_error s st st1 users e h
  · intro id user h
    rw [service.Get_of_repository_error s id st st1 user _ h]; rfl
  · intro u id h
    rw [service.Create_of_repository_error s u st st1 id _ h]; rfl
  · intro id h
    rw [service.Delete_of_repository_result s id st st1 _ h]; rfl

/-- Worked example for C4: on a repository that fails with
`repository.ErrUserNotFound`, `Get` returns `service.ErrUserNotFound` and
`Create` returns the repository's value. -/
theorem service.domain_errors_translated_per_operation_witness :
    ((service.userService.mk (Fixtures.failingRepository repository.ErrUserNotFound)).Get 1 ()
        = (.ok (none, some service.ErrUserNotFound), ()))
      ∧ ((service.userService.mk (Fixtures.failingRepository repository.ErrUserNotFound)).Create
          (some Fixtures.USER1_SERVICE) ()
        = (.ok (none, some repository.ErrUserNotFound), ())) :=
  have h := service.domain_errors_translated_per_operation
    (service.userService.mk (Fixtures.failingRepository repository.ErrUserNotFound)) () ()
  ⟨h.1 1 none rfl, h.2.2.2.2.2.2.2.2.2.1 Fixtures.USER1_SERVICE 0 rfl⟩

/-- C4 as stated fails: the claim asks every operation to translate both
repository domain errors. `GetAll` hands on either of them, `Get` and `Delete`
hand on `repository.ErrUserAlreadyExists`, and `Create` hands on
`repository.ErrUserNotFound`: in each case the service returns the repository's
own error value, which is not the service-level one. -/
theorem service.domain_error_passed_through_untranslated :
    ((service.userService.mk (Fixtures.failingRepository repository.ErrUserAlreadyExists)).Delete
          1 ()).1 = .ok (some repository.ErrUserAlreadyExists)
      ∧ ((service.userService.mk (Fixtures.failingRepository repository.ErrUserAlreadyExists)).Get
          1 ()).1 = .ok (none, some repository.ErrUserAlreadyExists)
      ∧ ((service.userService.mk (Fixtures.failingRepository repository.ErrUserNotFound)).Create
          (some Fixtures.USER1_SERVICE) ()).1 = .ok (none, some repository.ErrUserNotFound)
      ∧ ((service.userService.mk (Fixtures.failingRepository repository.ErrUserNotFound)).GetAll
          ()).1 = .ok (none, some repository.ErrUserNotFound)
      ∧ ((service.userService.mk (Fixtures.failingRepository repository.ErrUserAlreadyExists)).GetAll
          ()).1 = .ok (none, some repository.ErrUserAlreadyExists)
      ∧ repository.ErrUserAlreadyExists ≠ service.ErrUserAlreadyExists
      ∧ repository.ErrUserNotFound ≠ service.ErrUserNotFound := by
  refine ⟨rfl, rfl, rfl, rfl, rfl, by decide, by decide⟩

/-- C5: `Get`, `Update` and `Delete` return `service.ErrUserNotFound` when the
repository call returns `repository.ErrUserNotFound`, `Get` with a nil user;
`Create` and `Update` return `service.ErrUserAlreadyExists` when the repository
call returns `repository.ErrUserAlreadyExists`. -/
theorem service.not_found_and_already_exists_remapped {σ : Type}
    (repo : repository.UserRepository σ) (st st1 : σ) (id : Int) (u : service.User) :
    (∀ user, repo.Get id st = (.ok (user, some repository.ErrUserNotFound), st1) →
        (service.userService.mk repo).Get id st
          = (.ok (none, some service.ErrUserNotFound), st1))
    ∧ (repo.Update (some (service.serviceUserToRepositoryUser u)) st
          = (.ok (some repository.ErrUserNotFound), st1) →
        (service.userService.mk repo).Update (some u) st
          = (.ok (some service.ErrUserNotFound), st1))
    ∧ (repo.Delete id st = (.ok (some repository.ErrUserNotFound), st1) →
        (service.userService.mk repo).Delete id st
          = (.ok (some service.ErrUserNotFound), st1))
    ∧ (∀ newID, repo.Create (some (service.serviceUserToRepositoryUser u)) st
          = (.ok (newID, some repository.ErrUserAlreadyExists), st1) →
        (service.userService.mk repo).Create (some u) st
          = (.ok (none, some service.ErrUserAlreadyExists), st1))
    ∧ (repo.Update (some (service.serviceUserToRepositoryUser u)) st
          = (.ok (some repository.ErrUserAlreadyExists), st1) →
        (service.userService.mk repo).Update (some u) st
          = (.ok (some service.ErrUserAlreadyExists), st1)) := by
  refine ⟨?_, ?_, ?_, ?_, ?_⟩
  · intro user h
    rw [service.Get_of_repository_error ⟨repo⟩ id st st1 user _ h]; rfl
  · intro h
    rw [service.Update_of_repository_result ⟨repo⟩ u st st1 _ h]; rfl
  · intro h
    rw [service.Delete_of_repository_result ⟨repo⟩ id st st1 _ h]; rfl
  · intro newID h
    rw [service.Create_of_repository_error ⟨repo⟩ u st st1 newID _ h]; rfl
  · intro h
    rw [service.Update_of_repository_result ⟨repo⟩ u st st1 _ h]; rfl

/-- Worked example for C5, the cases of the service tests: a repository failing
with `repository.ErrUserNotFound` under `Get`, `Update` and `Delete`, and one
failing with `repository.ErrUserAlreadyExists` under `Create` and `Update`. -/
theorem service.not_found_and_already_exists_remapped_witness :
    ((service.userService.mk (Fixtures.failingRepository repository.ErrUserNotFound)).Get 1 ()
        = (.ok (none, some service.ErrUserNotFound), ()))
      ∧ ((service.userService.mk (Fixtures.failingRepository repository.ErrUserNotFound)).Update
            (some Fixtures.USER1_SERVICE) ()
          = (.ok (some service.ErrUserNotFound), ()))
      ∧ ((service.userService.mk (Fixtures.failingRepository repository.ErrUserNotFound)).Delete
            1 ()
          = (.ok (some service.ErrUserNotFound), ()))
      ∧ ((service.userService.mk
              (Fixtures.failingRepository repository.ErrUserAlreadyExists)).Create
            (some Fixtures.USER1_SERVICE) ()
          = (.ok (none, some service.ErrUserAlreadyExists), ()))
      ∧ ((service.userService.mk
              (Fixtures.failingRepository repository.ErrUserAlreadyExists)).Update
            (some Fixtures.USER1_SERVICE) ()
          = (.ok (some service.ErrUserAlreadyExists), ())) :=
  have hnf := service.not_found_and_already_exists_remapped
    (Fixtures.failingRepository repository.ErrUserNotFound) () () 1 Fixtures.USER1_SERVICE
  have hae := service.not_found_and_already_exists_remapped
    (Fixtures.failingRepository repository.ErrUserAlreadyExists) () () 1 Fixtures.USER1_SERVICE
  ⟨hnf.1 none rfl, hnf.2.1 rfl, hnf.2.2.1 rfl, hae.2.2.2.1 0 rfl, hae.2.2.2.2 rfl⟩

/-- C6: when the repository's error matches neither
`repository.ErrUserNotFound` nor `repository.ErrUserAlreadyExists` under
`errors.Is`, every service operation returns that very error value, and when the
repository returns no error `Update` and `Delete` return no error. -/
theorem service.other_repository_error_returned_unchanged {σ : Type}
    (repo : repository.UserRepository σ) (st st1 : σ) (id : Int) (u : service.User)
    (e : GoError)
    (hnf : errors.Is (some e) (some repository.ErrUserNotFound) = false)
    (hae : errors.Is (some e) (some repository.ErrUserAlreadyExists) = false) :
    (∀ users, repo.GetAll st = (.ok (users, some e), st1) →
        (service.userService.mk repo).GetAll st = (.ok (none, some e), st1))
    ∧ (∀ user, repo.Get id st = (.ok (user, some e), st1) →
        (service.userService.mk repo).Get id st = (.ok (none, some e), st1))
    ∧ (∀ newID, repo.Create (some (service.serviceUserToRepositoryUser u)) st
          = (.ok (newID, some e), st1) →
        (service.userService.mk repo).Create (some u) st = (.ok (none, some e), st1))
    ∧ (repo.Update (some (service.serviceUserToRepositoryUser u)) st = (.ok (some e), st1) →
        (service.userService.mk repo).Update (some u) st = (.ok (some e), st1))
    ∧ (repo.Delete id st = (.ok (some e), st1) →
        (service.userService.mk repo).Delete id st = (.ok (some e), st1))
    ∧ (repo.Update (some (service.serviceUserToRepositoryUser u)) st = (.ok none, st1) →
        (service.userService.mk repo).Update (some u) st = (.ok none, st1))
    ∧ (repo.Delete id st = (.ok none, st1) →
        (service.userService.mk repo).Delete id st = (.ok none, st1)) := by
  refine ⟨?_, ?_, ?_, ?_, ?_, ?_, ?_⟩
  · intro users h
    exact service.GetAll_of_repository_error ⟨repo⟩ st st1 users e h
  · intro user h
    rw [service.Get_of_repository_error ⟨repo⟩ id st st1 user _ h, hnf]; rfl
  · intro newID h
    rw [service.Create_of_repository_error ⟨repo⟩ u st st1 newID _ h, hae]; rfl
  · intro h
    rw [service.Update_of_repository_result ⟨repo⟩ u st st1 _ h, hnf, hae]; rfl
  · intro h
    rw [service.Delete_of_repository_result ⟨repo⟩ id st st1 _ h, hnf]; rfl
  · intro h
    rw [service.Update_of_repository_result ⟨repo⟩ u st st1 _ h]; rfl
  · intro h
    rw [service.Delete_of_repository_result ⟨repo⟩ id st st1 _ h]; rfl

/-- Worked example for C6: a repository on which every call ends in
`context.DeadlineExceeded`; every service operation returns
`context.DeadlineExceeded`. -/
theorem service.other_repository_error_returned_unchanged_witness :
    errors.Is (some context.DeadlineExceeded) (some repository.ErrUserNotFound) = false
      ∧ errors.Is (some context.DeadlineExceeded) (some repository.ErrUserAlreadyExists) = false
      ∧ ((service.userService.mk (Fixtures.failingRepository context.DeadlineExceeded)).GetAll ()
          = (.ok (none, some context.DeadlineExceeded), ()))
      ∧ ((service.userService.mk (Fixtures.failingRepository context.DeadlineExceeded)).Get 1 ()
          = (.ok (none, some context.DeadlineExceeded), ()))
      ∧ ((service.userService.mk (Fixtures.failingRepository context.DeadlineExceeded)).Create
            (some Fixtures.USER1_SERVICE) ()
          = (.ok (none, some context.DeadlineExceeded), ()))
      ∧ ((service.userService.mk (Fixtures.failingRepository context.DeadlineExceeded)).Update
            (some Fixtures.USER1_SERVICE) ()
          = (.ok (some context.DeadlineExceeded), ()))
      ∧ ((service.userService.mk (Fixtures.failingRepository context.DeadlineExceeded)).Delete
            1 ()
          = (.ok (some context.DeadlineExceeded), ())) :=
  have h := service.other_repository_error_returned_unchanged
    (Fixtures.failingRepository context.DeadlineExceeded) () () 1 Fixtures.USER1_SERVICE
    context.DeadlineExceeded rfl rfl
  ⟨rfl, rfl, h.1 none rfl, h.2.1 none rfl, h.2.2.1 0 rfl, h.2.2.2.1 rfl, h.2.2.2.2.1 rfl⟩

/-- C7: when the repository's `Create` returns the id `i` with no error,
`userService.Create` returns the user with `ID` `i` and the `Name`, `Email` and
`Age` of the input, with no error, whatever `ID` the input carries; the only call
the repository receives is that one `Create` (in particular no `Get`). -/
theorem service.Create_builds_user_from_assigned_id {σ : Type}
    (repo : repository.UserRepository σ) (st st1 : σ) (log : List repository.Call)
    (u : service.User) (i : Int)
    (h : repo.Create (some (service.serviceUserToRepositoryUser u)) st = (.ok (i, none), st1)) :
    (service.userService.mk repo.recording).Create (some u) (st, log)
      = (.ok (some { ID := i, Name := u.Name, Email := u.Email, Age := u.Age }, none),
         (st1, log ++ [repository.Call.Create (some (service.serviceUserToRepositoryUser u))])) := by
  simp [service.userService.Create, repository.UserRepository.recording, h]

/-- Worked example for C7, the case of the service tests: the input carries
`ID` 1, the repository assigns 2; the result has `ID` 2 and the repository saw
one `Create`. -/
theorem service.Create_builds_user_from_assigned_id_witness :
    (service.userService.mk (Fixtures.creatingRepository 2).recording).Create
        (some Fixtures.USER1_SERVICE) ((), [])
      = (.ok (some { ID := 2, Name := "Name Name 1", Email := "email1@email.com", Age := 37 },
            none),
         ((), [repository.Call.Create (some Fixtures.USER1)])) :=
  service.Create_builds_user_from_assigned_id (Fixtures.creatingRepository 2) () () []
    Fixtures.USER1_SERVICE 2 rfl

/-- C8: when `strconv.Atoi` rejects the path parameter `id`, `getUser` and
`deleteUser` answer with status 400 and the body with code `ErrInvalidID`,
message `invalid id` and status 400, and the service receives no call: its
state and the log of calls are as before the request. -/
theorem controller.unparsable_id_gives_invalid_id {σ : Type}
    (svc : service.UserService σ) (ctx : gin.Context) (st : σ) (log : List service.Call)
    (perr : GoError) (h : strconv.Atoi (ctx.Param "id") = .error perr) :
    (controller.responseOf ((controller.NewUserController svc.recording).getUser ctx (st, log))
        = some { status := 400,
                 body := .apiError { ErrorCode := "ErrInvalidID", Message := "invalid id",
                                     Status := 400 } }
      ∧ ((controller.NewUserController svc.recording).getUser ctx (st, log)).2 = (st, log))
    ∧ (controller.responseOf
          ((controller.NewUserController svc.recording).deleteUser ctx (st, log))
        = some { status := 400,
                 body := .apiError { ErrorCode := "ErrInvalidID", Message := "invalid id",
                                     Status := 400 } }
      ∧ ((controller.NewUserController svc.recording).deleteUser ctx (st, log)).2
          = (st, log)) := by
  simp [controller.UserController.getUser, controller.UserController.deleteUser, h,
    controller.responseOf, controller.ErrInvalidID]

/-- Worked example for C8: the ids `abc` and `invalid`, and the numeral
9223372036854775808, one past the largest `int`; none reaches the service. -/
theorem controller.unparsable_id_gives_invalid_id_witness :
    (controller.responseOf
          ((controller.NewUserController
              (Fixtures.failingService Fixtures.plainError).recording).getUser
            (Fixtures.request "abc" .malformed) ((), []))
        = some { status := 400,
                 body := .apiError { ErrorCode := "ErrInvalidID", Message := "invalid id",
                                     Status := 400 } }
      ∧ ((controller.NewUserController
              (Fixtures.failingService Fixtures.plainError).recording).getUser
            (Fixtures.request "abc" .malformed) ((), [])).2 = ((), []))
    ∧ (controller.responseOf
          ((controller.NewUserController
              (Fixtures.failingService Fixtures.plainError).recording).deleteUser
            (Fixtures.request "invalid" .malformed) ((), []))
        = some { status := 400,
                 body := .apiError { ErrorCode := "ErrInvalidID", Message := "invalid id",
                                     Status := 400 } }
      ∧ ((controller.NewUserController
              (Fixtures.failingService Fixtures.plainError).recording).deleteUser
            (Fixtures.request "invalid" .malformed) ((), [])).2 = ((), []))
    ∧ (controller.responseOf
          ((controller.NewUserController
              (Fixtures.failingService Fixtures.plainError).recording).getUser
            (Fixtures.request "9223372036854775808" .malformed) ((), []))
        = some { status := 400,
                 body := .apiError { ErrorCode := "ErrInvalidID", Message := "invalid id",
                                     Status := 400 } }
      ∧ ((controller.NewUserController
              (Fixtures.failingService Fixtures.plainError).recording).getUser
            (Fixtures.request "9223372036854775808" .malformed) ((), [])).2 = ((), [])) :=
  ⟨(controller.unparsable_id_gives_invalid_id (Fixtures.failingService Fixtures.plainError)
      (Fixtures.request "abc" .malformed) () [] (strconv.syntaxError "Atoi" "abc") rfl).1,
   (controller.unparsable_id_gives_invalid_id (Fixtures.failingService Fixtures.plainError)
      (Fixtures.request "invalid" .malformed) () [] (strconv.syntaxError "Atoi" "invalid")
      rfl).2,
   (controller.unparsable_id_gives_invalid_id (Fixtures.failingService Fixtures.plainError)
      (Fixtures.request "9223372036854775808" .malformed) () []
      (strconv.rangeError "Atoi" "9223372036854775808") rfl).1⟩

/-! ### Controller: a request whose body does not bind -/

theorem controller.createUser_of_bind_error {σ : Type} (c : controller.UserController σ)
    (ctx : gin.Context) (st : σ) (berr : GoError)
    (h : controller.User.BindJSON ctx.emailRx ctx.body = .error berr) :
    c.createUser ctx st
      = (.ok { response := { status := 400, body := .apiError controller.ErrValidationFailed },
               logs := [{ level := .Warn, msg := "Failed to parse user", err := some berr }] },
         st) := by
  simp [controller.UserController.createUser, h, controller.ErrValidationFailed]

theorem controller.updateUser_of_bind_error {σ : Type} (c : controller.UserController σ)
    (ctx : gin.Context) (st : σ) (berr : GoError)
    (h : controller.UpdateUserRequest.BindJSON ctx.emailRx ctx.body = .error berr) :
    c.updateUser ctx st
      = (.ok { response := { status := 400, body := .apiError controller.ErrValidationFailed },
               logs := [{ level := .Warn, msg := "Failed to parse user", err := some berr }] },
         st) := by
  simp [controller.UserController.updateUser, h, controller.ErrValidationFailed]

theorem controller.User_BindJSON_of_invalid {emailRx : String → Bool} {body : json.Body}
    {u : controller.User}
    (hd : json.decode controller.User.decodeMember
      { ID := 0, Name := "", Email := "", Age := 0 } body = .ok u)
    (hv : controller.User.validate emailRx u = false) :
    controller.User.BindJSON emailRx body = .error binding.validationErrors := by
  simp [controller.User.BindJSON, hd, hv]

theorem controller.UpdateUserRequest_BindJSON_of_invalid {emailRx : String → Bool}
    {body : json.Body} {u : controller.UpdateUserRequest}
    (hd : json.decode controller.UpdateUserRequest.decodeMember
      { ID := 0, Name := "", Email := "", Age := 0 } body = .ok u)
    (hv : controller.UpdateUserRequest.validate emailRx u = false) :
    controller.UpdateUserRequest.BindJSON emailRx body = .error binding.validationErrors := by
  simp [controller.UpdateUserRequest.BindJSON, hd, hv]

/-- C9: when the body of the request does not bind, because it does not parse
or because validation fails, `createUser` and `updateUser` answer with status
400 and the body with code `ErrValidationFailed`, message `validation failed` and
status 400, and the service receives no call. A body that decodes but whose
email the validator's email rule rejects is such a body. -/
theorem controller.unbindable_body_gives_validation_failed {σ : Type}
    (svc : service.UserService σ) (ctx : gin.Context) (st : σ) (log : List service.Call) :
    (∀ berr, controller.User.BindJSON ctx.emailRx ctx.body = .error berr →
        controller.responseOf
            ((controller.NewUserController svc.recording).createUser ctx (st, log))
          = some { status := 400,
                   body := .apiError { ErrorCode := "ErrValidationFailed",
                                       Message := "validation failed", Status := 400 } }
        ∧ ((controller.NewUserController svc.recording).createUser ctx (st, log)).2
            = (st, log))
    ∧ (∀ berr, controller.UpdateUserRequest.BindJSON ctx.emailRx ctx.body = .error berr →
        controller.responseOf
            ((controller.NewUserController svc.recording).updateUser ctx (st, log))
          = some { status := 400,
                   body := .apiError { ErrorCode := "ErrValidationFailed",
                                       Message := "validation failed", Status := 400 } }
        ∧ ((controller.NewUserController svc.recording).updateUser ctx (st, log)).2
            = (st, log))
    ∧ (∀ u, json.decode controller.User.decodeMember
            { ID := 0, Name := "", Email := "", Age := 0 } ctx.body = .ok u →
        ctx.emailRx u.Email = false →
        controller.User.BindJSON ctx.emailRx ctx.body = .error binding.validationErrors)
    ∧ (∀ u, json.decode controller.UpdateUserRequest.decodeMember
            { ID := 0, Name := "", Email := "", Age := 0 } ctx.body = .ok u →
        ctx.emailRx u.Email = false →
        controller.UpdateUserRequest.BindJSON ctx.emailRx ctx.body
          = .error binding.validationErrors)
    ∧ (ctx.body = .malformed →
        controller.User.BindJSON ctx.emailRx ctx.body = .error json.syntaxError
        ∧ controller.UpdateUserRequest.BindJSON ctx.emailRx ctx.body
            = .error json.syntaxError) := by
  refine ⟨?_, ?_, ?_, ?_, ?_⟩
  · intro berr h
    rw [controller.createUser_of_bind_error _ ctx (st, log) berr h]
    exact ⟨rfl, rfl⟩
  · intro berr h
    rw [controller.updateUser_of_bind_error _ ctx (st, log) berr h]
    exact ⟨rfl, rfl⟩
  · intro u hd he
    exact controller.User_BindJSON_of_invalid hd (by simp [controller.User.validate, he])
  · intro u hd he
    exact controller.UpdateUserRequest_BindJSON_of_invalid hd
      (by simp [controller.UpdateUserRequest.validate, he])
  · intro hb
    simp [controller.User.BindJSON, controller.UpdateUserRequest.BindJSON, hb, json.decode]

/-- Worked example for C9, the case of the controller tests: the email
`invalid` in a create and in an update request; both answer 400 with the
`ErrValidationFailed` body and the service receives no call. -/
theorem controller.unbindable_body_gives_validation_failed_witness :
    (controller.responseOf
          ((controller.NewUserController
              (Fixtures.failingService Fixtures.plainError).recording).createUser
            (Fixtures.request "" Fixtures.invalidEmailBody) ((), []))
        = some { status := 400,
                 body := .apiError { ErrorCode := "ErrValidationFailed",
                                     Message := "validation failed", Status := 400 } }
      ∧ ((controller.NewUserController
              (Fixtures.failingService Fixtures.plainError).recording).createUser
            (Fixtures.request "" Fixtures.invalidEmailBody) ((), [])).2 = ((), []))
    ∧ (controller.responseOf
          ((controller.NewUserController
              (Fixtures.failingService Fixtures.plainError).recording).updateUser
            (Fixtures.request "" Fixtures.invalidEmailUpdateBody) ((), []))
        = some { status := 400,
                 body := .apiError { ErrorCode := "ErrValidationFailed",
                                     Message := "validation failed", Status := 400 } }
      ∧ ((controller.NewUserController
              (Fixtures.failingService Fixtures.plainError).recording).updateUser
            (Fixtures.request "" Fixtures.invalidEmailUpdateBody) ((), [])).2 = ((), [])) :=
  have hc := controller.unbindable_body_gives_validation_failed
    (Fixtures.failingService Fixtures.plainError)
    (Fixtures.request "" Fixtures.invalidEmailBody) () []
  have hu := controller.unbindable_body_gives_validation_failed
    (Fixtures.failingService Fixtures.plainError)
    (Fixtures.request "" Fixtures.invalidEmailUpdateBody) () []
  ⟨hc.1 _ (hc.2.2.1 { ID := 0, Name := "Name Name 1", Email := "invalid", Age := 37 } rfl rfl),
   hu.2.1 _ (hu.2.2.2.1 { ID := 1, Name := "Name Name 1", Email := "invalid", Age := 37 }
      rfl rfl)⟩

/-! ### Decoding: a field no member selects keeps its value -/

theorem controller.User_decodeMember_keeps {u u1 : controller.User} {key : String}
    {v : json.Value} (h : controller.User.decodeMember u key v = some u1) :
    (json.keyMatches key "id" = false → u1.ID = u.ID)
      ∧ (json.keyMatches key "name" = false → u1.Name = u.Name)
      ∧ (json.keyMatches key "age" = false → u1.Age = u.Age) := by
  unfold controller.User.decodeMember at h
  split_ifs at h with h1 h2 h3 h4
  · obtain ⟨n, _, rfl⟩ := Option.map_eq_some'.mp h
    simp [h1]
  · obtain ⟨n, _, rfl⟩ := Option.map_eq_some'.mp h
    simp [h2]
  · obtain ⟨n, _, rfl⟩ := Option.map_eq_some'.mp h
    simp
  · obtain ⟨n, _, rfl⟩ := Option.map_eq_some'.mp h
    simp [h4]
  · cases h
    simp

theorem controller.UpdateUserRequest_decodeMember_keeps {u u1 : controller.UpdateUserRequest}
    {key : String} {v : json.Value}
    (h : controller.UpdateUserRequest.decodeMember u key v = some u1) :
    (json.keyMatches key "id" = false → u1.ID = u.ID)
      ∧ (json.keyMatches key "name" = false → u1.Name = u.Name)
      ∧ (json.keyMatches key "age" = false → u1.Age = u.Age) := by
  unfold controller.UpdateUserRequest.decodeMember at h
  split_ifs at h with h1 h2 h3 h4
  · obtain ⟨n, _, rfl⟩ := Option.map_eq_some'.mp h
    simp [h1]
  · obtain ⟨n, _, rfl⟩ := Option.map_eq_some'.mp h
    simp [h2]
  · obtain ⟨n, _, rfl⟩ := Option.map_eq_some'.mp h
    simp
  · obtain ⟨n, _, rfl⟩ := Option.map_eq_some'.mp h
    simp [h4]
  · cases h
    simp

theorem controller.User_decodeMembers_keeps (members : List (String × json.Value)) :
    ∀ (u0 u : controller.User),
      json.decodeMembers controller.User.decodeMember members u0 = some u →
      (json.absent "id" members = true → u.ID = u0.ID)
        ∧ (json.absent "name" members = true → u.Name = u0.Name)
        ∧ (json.absent "age" members = true → u.Age = u0.Age) := by
  induction members with
  | nil =>
    intro u0 u h
    simp [json.decodeMembers] at h
    subst h
    simp
  | cons kv rest ih =>
    intro u0 u h
    obtain ⟨key, v⟩ := kv
    simp only [json.decodeMembers] at h
    cases hs : controller.User.decodeMember u0 key v with
    | none => simp [hs] at h
    | some u1 =>
      simp only [hs] at h
      have hk := controller.User_decodeMember_keeps hs
      have hr := ih u1 u h
      simp only [json.absent, List.all_cons, Bool.and_eq_true, Bool.not_eq_true',
        Bool.not_eq_eq_eq_not, Bool.not_true] at hr ⊢
      refine ⟨fun ha => ?_, fun ha => ?_, fun ha => ?_⟩
      · rw [hr.1 ha.2, hk.1 ha.1]
      · rw [hr.2.1 ha.2, hk.2.1 ha.1]
      · rw [hr.2.2 ha.2, hk.2.2 ha.1]

theorem controller.UpdateUserRequest_decodeMembers_keeps
    (members : List (String × json.Value)) :
    ∀ (u0 u : controller.UpdateUserRequest),
      json.decodeMembers controller.UpdateUserRequest.decodeMember members u0 = some u →
      (json.absent "id" members = true → u.ID = u0.ID)
        ∧ (json.absent "name" members = true → u.Name = u0.Name)
        ∧ (json.absent "age" members = true → u.Age = u0.Age) := by
  induction members with
  | nil =>
    intro u0 u h
    simp [json.decodeMembers] at h
    subst h
    simp
  | cons kv rest ih =>
    intro u0 u h
    obtain ⟨key, v⟩ := kv
    simp only [json.decodeMembers] at h
    cases hs : controller.UpdateUserRequest.decodeMember u0 key v with
    | none => simp [hs] at h
    | some u1 =>
      simp only [hs] at h
      have hk := controller.UpdateUserRequest_decodeMember_keeps hs
      have hr := ih u1 u h
      simp only [json.absent, List.all_cons, Bool.and_eq_true, Bool.not_eq_true',
        Bool.not_eq_eq_eq_not, Bool.not_true] at hr ⊢
      refine ⟨fun ha => ?_, fun ha => ?_, fun ha => ?_⟩
      · rw [hr.1 ha.2, hk.1 ha.1]
      · rw [hr.2.1 ha.2, hk.2.1 ha.1]
      · rw [hr.2.2 ha.2, hk.2.2 ha.1]

theorem controller.User_BindJSON_of_absent (emailRx : String → Bool)
    {members : List (String × json.Value)}
    (h : json.absent "name" members = true ∨ json.absent "age" members = true) :
    ∃ berr, controller.User.BindJSON emailRx (.object members) = .error berr := by
  cases hd : json.decodeMembers controller.User.decodeMember members
      { ID := 0, Name := "", Email := "", Age := 0 } with
  | none => exact ⟨json.unmarshalTypeError, by simp [controller.User.BindJSON, json.decode, hd]⟩
  | some u =>
    have hk := controller.User_decodeMembers_keeps members _ u hd
    refine ⟨binding.validationErrors, controller.User_BindJSON_of_invalid (u := u)
      (by simp [json.decode, hd]) ?_⟩
    rcases h with h | h
    · simp [controller.User.validate, binding.requiredString, hk.2.1 h]
    · simp [controller.User.validate, binding.requiredInt, hk.2.2 h]

theorem controller.UpdateUserRequest_BindJSON_of_absent (emailRx : String → Bool)
    {members : List (String × json.Value)}
    (h : json.absent "name" members = true ∨ json.absent "age" members = true
      ∨ json.absent "id" members = true) :
    ∃ berr, controller.UpdateUserRequest.BindJSON emailRx (.object members) = .error berr := by
  cases hd : json.decodeMembers controller.UpdateUserRequest.decodeMember members
      { ID := 0, Name := "", Email := "", Age := 0 } with
  | none =>
    exact ⟨json.unmarshalTypeError,
      by simp [controller.UpdateUserRequest.BindJSON, json.decode, hd]⟩
  | some u =>
    have hk := controller.UpdateUserRequest_decodeMembers_keeps members _ u hd
    refine ⟨binding.validationErrors, controller.UpdateUserRequest_BindJSON_of_invalid (u := u)
      (by simp [json.decode, hd]) ?_⟩
    rcases h with h | h | h
    · simp [controller.UpdateUserRequest.validate, binding.requiredString, hk.2.1 h]
    · simp [controller.UpdateUserRequest.validate, binding.requiredInt, hk.2.2 h]
    · simp [controller.UpdateUserRequest.validate, binding.requiredInt, hk.1 h]

/-- C10: the `required` rules reject zero values before the service is called.
A create or update payload that leaves `Name` empty or `Age` 0 after decoding,
or that has no `name` or no `age` member, and an update payload that leaves `ID`
0 or has no `id` member, is answered with 400 and the `ErrValidationFailed` body,
and the service receives no call. A create payload is not rejected for its id:
without an `id` member the decoded `ID` is 0, and whatever the decoded `ID` is,
a payload with a non-empty name, a non-empty email that passes the email rule
and a non-zero age binds, and the service receives the `Create` call. -/
theorem controller.required_fields_reject_zero_values {σ : Type}
    (svc : service.UserService σ) (ctx : gin.Context) (st : σ) (log : List service.Call) :
    (∀ u, json.decode controller.User.decodeMember
            { ID := 0, Name := "", Email := "", Age := 0 } ctx.body = .ok u →
        (u.Name = "" ∨ u.Age = 0) →
        controller.responseOf
            ((controller.NewUserController svc.recording).createUser ctx (st, log))
          = some { status := 400,
                   body := .apiError { ErrorCode := "ErrValidationFailed",
                                       Message := "validation failed", Status := 400 } }
        ∧ ((controller.NewUserController svc.recording).createUser ctx (st, log)).2
            = (st, log))
    ∧ (∀ u, json.decode controller.UpdateUserRequest.decodeMember
            { ID := 0, Name := "", Email := "", Age := 0 } ctx.body = .ok u →
        (u.Name = "" ∨ u.Age = 0 ∨ u.ID = 0) →
        controller.responseOf
            ((controller.NewUserController svc.recording).updateUser ctx (st, log))
          = some { status := 400,
                   body := .apiError { ErrorCode := "ErrValidationFailed",
                                       Message := "validation failed", Status := 400 } }
        ∧ ((controller.NewUserController svc.recording).updateUser ctx (st, log)).2
            = (st, log))
    ∧ (∀ members, ctx.body = .object members →
        (json.absent "name" members = true ∨ json.absent "age" members = true) →
        controller.responseOf
            ((controller.NewUserController svc.recording).createUser ctx (st, log))
          = some { status := 400,
                   body := .apiError { ErrorCode := "ErrValidationFailed",
                                       Message := "validation failed", Status := 400 } }
        ∧ ((controller.NewUserController svc.recording).createUser ctx (st, log)).2
            = (st, log))
    ∧ (∀ members, ctx.body = .object members →
        (json.absent "name" members = true ∨ json.absent "age" members = true
          ∨ json.absent "id" members = true) →
        controller.responseOf
            ((controller.NewUserController svc.recording).updateUser ctx (st, log))
          = some { status := 400,
                   body := .apiError { ErrorCode := "ErrValidationFailed",
                                       Message := "validation failed", Status := 400 } }
        ∧ ((controller.NewUserController svc.recording).updateUser ctx (st, log)).2
            = (st, log))
    ∧ (∀ members u, ctx.body = .object members → json.absent "id" members = true →
        json.decode controller.User.decodeMember
            { ID := 0, Name := "", Email := "", Age := 0 } ctx.body = .ok u →
        u.ID = 0)
    ∧ (∀ u, json.decode controller.User.decodeMember
            { ID := 0, Name := "", Email := "", Age := 0 } ctx.body = .ok u →
        u.Name ≠ "" → u.Email ≠ "" → ctx.emailRx u.Email = true → u.Age ≠ 0 →
        controller.User.BindJSON ctx.emailRx ctx.body = .ok u
        ∧ ((controller.NewUserController svc.recording).createUser ctx (st, log)).2.2
            = log ++ [service.Call.Create
                (some (controller.createUserRequestToServiceUser u))]) := by
  have hcreate : ∀ berr, controller.User.BindJSON ctx.emailRx ctx.body = .error berr →
      controller.responseOf
          ((controller.NewUserController svc.recording).createUser ctx (st, log))
        = some { status := 400,
                 body := .apiError { ErrorCode := "ErrValidationFailed",
                                     Message := "validation failed", Status := 400 } }
      ∧ ((controller.NewUserController svc.recording).createUser ctx (st, log)).2
          = (st, log) := by
    intro berr h
    rw [controller.createUser_of_bind_error _ ctx (st, log) berr h]
    exact ⟨rfl, rfl⟩
  have hupdate : ∀ berr,
      controller.UpdateUserRequest.BindJSON ctx.emailRx ctx.body = .error berr →
      controller.responseOf
          ((controller.NewUserController svc.recording).updateUser ctx (st, log))
        = some { status := 400,
                 body := .apiError { ErrorCode := "ErrValidationFailed",
                                     Message := "validation failed", Status := 400 } }
      ∧ ((controller.NewUserController svc.recording).updateUser ctx (st, log)).2
          = (st, log) := by
    intro berr h
    rw [controller.updateUser_of_bind_error _ ctx (st, log) berr h]
    exact ⟨rfl, rfl⟩
  refine ⟨?_, ?_, ?_, ?_, ?_, ?_⟩
  · intro u hd hz
    refine hcreate _ (controller.User_BindJSON_of_invalid hd ?_)
    rcases hz with hz | hz
    · simp [controller.User.validate, binding.requiredString, hz]
    · simp [controller.User.validate, binding.requiredInt, hz]
  · intro u hd hz
    refine hupdate _ (controller.UpdateUserRequest_BindJSON_of_invalid hd ?_)
    rcases hz with hz | hz | hz
    · simp [controller.UpdateUserRequest.validate, binding.requiredString, hz]
    · simp [controller.UpdateUserRequest.validate, binding.requiredInt, hz]
    · simp [controller.UpdateUserRequest.validate, binding.requiredInt, hz]
  · intro members hb ha
    obtain ⟨berr, hberr⟩ := controller.User_BindJSON_of_absent ctx.emailRx ha
    exact hcreate berr (by rw [hb]; exact hberr)
  · intro members hb ha
    obtain ⟨berr, hberr⟩ :=
      controller.UpdateUserRequest_BindJSON_of_absent ctx.emailRx ha
    exact hupdate berr (by rw [hb]; exact hberr)
  · intro members u hb ha hd
    rw [hb] at hd
    cases hm : json.decodeMembers controller.User.decodeMember members
        { ID := 0, Name := "", Email := "", Age := 0 } with
    | none => simp [json.decode, hm] at hd
    | some u1 =>
      simp [json.decode, hm] at hd
      subst hd
      exact (controller.User_decodeMembers_keeps members _ u1 hm).1 ha
  · intro u hd hn he hrx ha
    have hbind : controller.User.BindJSON ctx.emailRx ctx.body = .ok u := by
      simp [controller.User.BindJSON, hd, controller.User.validate, binding.requiredString,
        binding.requiredInt, hn, he, hrx, ha]
    refine ⟨hbind, ?_⟩
    cases hsvc : svc.Create (some (controller.createUserRequestToServiceUser u)) st with
    | mk res st1 =>
      rcases res with p | ⟨newUser, err⟩
      · simp [controller.UserController.createUser, hbind, controller.NewUserController,
          service.UserService.recording, hsvc]
      · cases err with
        | some e =>
          simp [controller.UserController.createUser, hbind, controller.NewUserController,
            service.UserService.recording, hsvc]
        | none =>
          cases newUser with
          | none =>
            simp [controller.UserController.createUser, hbind, controller.NewUserController,
              service.UserService.recording, hsvc]
          | some nu =>
            simp [controller.UserController.createUser, hbind, controller.NewUserController,
              service.UserService.recording, hsvc]

/-- Worked example for C10: a create body without `name` and an update body
with `"id": 0` are answered 400 without a call to the service; the create body
of the tests, which has no `id`, binds with `ID` 0 and reaches the service. -/
theorem controller.required_fields_reject_zero_values_witness :
    (controller.responseOf
          ((controller.NewUserController Fixtures.echoService.recording).createUser
            (Fixtures.request "" Fixtures.noNameBody) ((), []))
        = some { status := 400,
                 body := .apiError { ErrorCode := "ErrValidationFailed",
                                     Message := "validation failed", Status := 400 } }
      ∧ ((controller.NewUserController Fixtures.echoService.recording).createUser
            (Fixtures.request "" Fixtures.noNameBody) ((), [])).2 = ((), []))
    ∧ (controller.responseOf
          ((controller.NewUserController Fixtures.echoService.recording).updateUser
            (Fixtures.request "" Fixtures.zeroIDUpdateBody) ((), []))
        = some { status := 400,
                 body := .apiError { ErrorCode := "ErrValidationFailed",
                                     Message := "validation failed", Status := 400 } }
      ∧ ((controller.NewUserController Fixtures.echoService.recording).updateUser
            (Fixtures.request "" Fixtures.zeroIDUpdateBody) ((), [])).2 = ((), []))
    ∧ (controller.User.BindJSON Fixtures.sampleEmailRx Fixtures.createBody
        = .ok { ID := 0, Name := "Name Name 1", Email := "email1@email.com", Age := 37 }
      ∧ ((controller.NewUserController Fixtures.echoService.recording).createUser
            (Fixtures.request "" Fixtures.createBody) ((), [])).2.2
          = [] ++ [service.Call.Create (some
              (controller.createUserRequestToServiceUser
                { ID := 0, Name := "Name Name 1", Email := "email1@email.com",
                  Age := 37 }))]) :=
  ⟨(controller.required_fields_reject_zero_values Fixtures.echoService
      (Fixtures.request "" Fixtures.noNameBody) () []).2.2.1
      [("email", .str "email1@email.com"), ("age", .intLit 37)] rfl (Or.inl rfl),
   (controller.required_fields_reject_zero_values Fixtures.echoService
      (Fixtures.request "" Fixtures.zeroIDUpdateBody) () []).2.1
      { ID := 0, Name := "Name Name 1", Email := "email1@email.com", Age := 37 } rfl
      (Or.inr (Or.inr rfl)),
   (controller.required_fields_reject_zero_values Fixtures.echoService
      (Fixtures.request "" Fixtures.createBody) () []).2.2.2.2.2
      { ID := 0, Name := "Name Name 1", Email := "email1@email.com", Age := 37 } rfl
      (by decide) (by decide) rfl (by decide)⟩

/-! ### Decoding: a member that selects no field changes nothing -/

theorem json.decodeMembers_skip {α : Type} (step : α → String → json.Value → Option α)
    (key : String) (v : json.Value) (hskip : ∀ a, step a key v = some a)
    (m1 m2 : List (String × json.Value)) :
    ∀ a0, json.decodeMembers step (m1 ++ (key, v) :: m2) a0
      = json.decodeMembers step (m1 ++ m2) a0 := by
  induction m1 with
  | nil =>
    intro a0
    simp [json.decodeMembers, hskip]
  | cons kv rest ih =>
    intro a0
    obtain ⟨k, w⟩ := kv
    simp only [List.cons_append, json.decodeMembers]
    cases step a0 k w with
    | none => rfl
    | some a1 => exact ih a1

theorem controller.User_decodeMember_unknown {key : String}
    (h : controller.unknownField key = true) (v : json.Value) (u : controller.User) :
    controller.User.decodeMember u key v = some u := by
  simp only [controller.unknownField, Bool.and_eq_true, Bool.not_eq_true',
    Bool.not_eq_eq_eq_not, Bool.not_true] at h
  obtain ⟨⟨⟨h1, h2⟩, h3⟩, h4⟩ := h
  simp [controller.User.decodeMember, h1, h2, h3, h4]

theorem controller.UpdateUserRequest_decodeMember_unknown {key : String}
    (h : controller.unknownField key = true) (v : json.Value)
    (u : controller.UpdateUserRequest) :
    controller.UpdateUserRequest.decodeMember u key v = some u := by
  simp only [controller.unknownField, Bool.and_eq_true, Bool.not_eq_true',
    Bool.not_eq_eq_eq_not, Bool.not_true] at h
  obtain ⟨⟨⟨h1, h2⟩, h3⟩, h4⟩ := h
  simp [controller.UpdateUserRequest.decodeMember, h1, h2, h3, h4]

theorem controller.User_BindJSON_unknown (emailRx : String → Bool) {key : String}
    (h : controller.unknownField key = true) (v : json.Value)
    (m1 m2 : List (String × json.Value)) :
    controller.User.BindJSON emailRx (.object (m1 ++ (key, v) :: m2))
      = controller.User.BindJSON emailRx (.object (m1 ++ m2)) := by
  simp only [controller.User.BindJSON, json.decode,
    json.decodeMembers_skip controller.User.decodeMember key v
      (controller.User_decodeMember_unknown h v) m1 m2]

theorem controller.UpdateUserRequest_BindJSON_unknown (emailRx : String → Bool) {key : String}
    (h : controller.unknownField key = true) (v : json.Value)
    (m1 m2 : List (String × json.Value)) :
    controller.UpdateUserRequest.BindJSON emailRx (.object (m1 ++ (key, v) :: m2))
      = controller.UpdateUserRequest.BindJSON emailRx (.object (m1 ++ m2)) := by
  simp only [controller.UpdateUserRequest.BindJSON, json.decode,
    json.decodeMembers_skip controller.UpdateUserRequest.decodeMember key v
      (controller.UpdateUserRequest_decodeMember_unknown h v) m1 m2]

/-- C11: adding a member whose key selects no field (such as `"foo": "bar"`)
anywhere in the JSON object of a create or update payload changes nothing: the
run of the handler, with its response, its log entries, the state of the service
and the calls the service received, is the same as without the member. For a
valid payload on which the service succeeds that is 201 with the user for
create and 200 with an empty body for update, after the one service call with
the user bound from the payload. -/
theorem controller.unknown_field_is_ignored {σ : Type} (svc : service.UserService σ)
    (params : List (String × String)) (emailRx : String → Bool) (st : σ)
    (log : List service.Call) (m1 m2 : List (String × json.Value)) (key : String)
    (v : json.Value) (h : controller.unknownField key = true) :
    ((controller.NewUserController svc.recording).createUser
          { params := params, body := .object (m1 ++ (key, v) :: m2), emailRx := emailRx }
          (st, log)
        = (controller.NewUserController svc.recording).createUser
          { params := params, body := .object (m1 ++ m2), emailRx := emailRx } (st, log))
    ∧ ((controller.NewUserController svc.recording).updateUser
          { params := params, body := .object (m1 ++ (key, v) :: m2), emailRx := emailRx }
          (st, log)
        = (controller.NewUserController svc.recording).updateUser
          { params := params, body := .object (m1 ++ m2), emailRx := emailRx } (st, log))
    ∧ (∀ u newUser st1, controller.User.BindJSON emailRx (.object (m1 ++ m2)) = .ok u →
        svc.Create (some (controller.createUserRequestToServiceUser u)) st
          = (.ok (some newUser, none), st1) →
        (controller.NewUserController svc.recording).createUser
          { params := params, body := .object (m1 ++ (key, v) :: m2), emailRx := emailRx }
          (st, log)
        = (.ok { response :=
                   { status := 201,
                     body := .user (controller.serviceUserToControllerUser newUser) },
                 logs := [] },
           (st1, log ++ [service.Call.Create
              (some (controller.createUserRequestToServiceUser u))])))
    ∧ (∀ u st1, controller.UpdateUserRequest.BindJSON emailRx (.object (m1 ++ m2)) = .ok u →
        svc.Update (some (controller.updateUserRequestToServiceUser u)) st = (.ok none, st1) →
        (controller.NewUserController svc.recording).updateUser
          { params := params, body := .object (m1 ++ (key, v) :: m2), emailRx := emailRx }
          (st, log)
        = (.ok { response := { status := 200, body := .empty }, logs := [] },
           (st1, log ++ [service.Call.Update
              (some (controller.updateUserRequestToServiceUser u))]))) := by
  refine ⟨?_, ?_, ?_, ?_⟩
  · simp only [controller.UserController.createUser,
      controller.User_BindJSON_unknown emailRx h v m1 m2]
  · simp only [controller.UserController.updateUser,
      controller.UpdateUserRequest_BindJSON_unknown emailRx h v m1 m2]
  · intro u newUser st1 hb hs
    simp [controller.UserController.createUser,
      controller.User_BindJSON_unknown emailRx h v m1 m2, hb,
      controller.NewUserController, service.UserService.recording, hs]
  · intro u st1 hb hs
    simp [controller.UserController.updateUser,
      controller.UpdateUserRequest_BindJSON_unknown emailRx h v m1 m2, hb,
      controller.NewUserController, service.UserService.recording, hs]

/-- Worked example for C11, the two tests `additional fields are ignored`: the
bodies of the create and of the update request with `"foo": "bar"` added. -/
theorem controller.unknown_field_is_ignored_witness :
    controller.unknownField "foo" = true
    ∧ ((controller.NewUserController Fixtures.acceptingService.recording).createUser
          (Fixtures.request "" Fixtures.createBodyWithFoo) ((), [])
        = (.ok { response :=
                   { status := 201,
                     body := .user { ID := 1, Name := "Name Name 1",
                                     Email := "email1@email.com", Age := 37 } },
                 logs := [] },
           ((), [] ++ [service.Call.Create
              (some (controller.createUserRequestToServiceUser
                { ID := 0, Name := "Name Name 1", Email := "email1@email.com",
                  Age := 37 }))])))
    ∧ ((controller.NewUserController Fixtures.acceptingService.recording).updateUser
          (Fixtures.request "" Fixtures.updateBodyWithFoo) ((), [])
        = (.ok { response := { status := 200, body := .empty }, logs := [] },
           ((), [] ++ [service.Call.Update
              (some (controller.updateUserRequestToServiceUser
                { ID := 1, Name := "Name Name 1", Email := "email1@email.com",
                  Age := 37 }))]))) :=
  ⟨rfl,
   (controller.unknown_field_is_ignored Fixtures.acceptingService [("id", "")]
      Fixtures.sampleEmailRx () []
      [("name", .str "Name Name 1"), ("email", .str "email1@email.com"), ("age", .intLit 37)]
      [] "foo" (.str "bar") rfl).2.2.1
      { ID := 0, Name := "Name Name 1", Email := "email1@email.com", Age := 37 }
      Fixtures.USER1_SERVICE () rfl rfl,
   (controller.unknown_field_is_ignored Fixtures.acceptingService [("id", "")]
      Fixtures.sampleEmailRx () []
      [("id", .intLit 1), ("name", .str "Name Name 1"), ("email", .str "email1@email.com"),
        ("age", .intLit 37)]
      [] "foo" (.str "bar") rfl).2.2.2
      { ID := 1, Name := "Name Name 1", Email := "email1@email.com", Age := 37 } () rfl rfl⟩

/-! ### Converting lists of users -/

theorem controller.convertAll_of_service_users (us : List service.User) :
    controller.convertAll (us.map some)
      = .ok (us.map (fun u => some (controller.serviceUserToControllerUser u))) := by
  induction us with
  | nil => rfl
  | cons u rest ih => simp [controller.convertAll, ih]

theorem service.convertAll_of_repository_users (us : List repository.User) :
    service.convertAll (us.map some)
      = .ok (us.map (fun u => some (service.repositoryUserToServiceUser u))) := by
  induction us with
  | nil => rfl
  | cons u rest ih => simp [service.convertAll, ih]

/-- C12: when the service returns a list of users and no error, `getUsers`
answers 200 with the body `users` holding one element per service user, in the
same order, each with the same id, name, email and age. When the service returns
no users, as an empty slice or as a nil slice, the body holds an empty array;
and whenever `getUsers` writes a `users` body its array is not nil, so it is
never serialised as `null`. -/
theorem controller.getUsers_lists_service_users {σ : Type}
    (c : controller.UserController σ) (ctx : gin.Context) (st st1 : σ)
    (users : Slice (Ptr service.User)) (us : List service.User)
    (hus : users = some (us.map some) ∨ (users = none ∧ us = []))
    (h : c.userService.GetAll st = (.ok (users, none), st1)) :
    c.getUsers ctx st
        = (.ok { response :=
                   { status := 200,
                     body := .users
                       { Users := some (us.map (fun u =>
                           some { ID := u.ID, Name := u.Name, Email := u.Email,
                                  Age := u.Age })) } },
                 logs := [] },
           st1)
      ∧ (us = [] →
          controller.responseOf (c.getUsers ctx st)
            = some { status := 200, body := .users { Users := some [] } })
      ∧ (∀ resp r, controller.responseOf (c.getUsers ctx st) = some resp →
          resp.body = .users r → r.Users ≠ none) := by
  have hrun : c.getUsers ctx st
      = (.ok { response :=
                 { status := 200,
                   body := .users
                     { Users := some (us.map (fun u =>
                         some { ID := u.ID, Name := u.Name, Email := u.Email,
                                Age := u.Age })) } },
               logs := [] },
         st1) := by
    rcases hus with hus | ⟨hus, hnil⟩
    · subst hus
      simp only [controller.UserController.getUsers, h, Option.getD_some,
        controller.convertAll_of_service_users]
      rfl
    · subst hus
      subst hnil
      simp only [controller.UserController.getUsers, h]
      rfl
  refine ⟨hrun, ?_, ?_⟩
  · intro hnil
    subst hnil
    rw [hrun]
    rfl
  · intro resp r hresp hbody
    rw [hrun] at hresp
    simp only [controller.responseOf, Option.some.injEq] at hresp
    subst hresp
    simp only [controller.ResponseBody.users.injEq] at hbody
    subst hbody
    simp

/-- Worked example for C12, the tests of `TestGetAll`: a service returning
`USER1_SERVICE` and `USER2_SERVICE`, one returning the empty slice, and one
returning the nil slice. -/
theorem controller.getUsers_lists_service_users_witness :
    (controller.NewUserController
          (Fixtures.listingService
            (some [some Fixtures.USER1_SERVICE, some Fixtures.USER2_SERVICE]))).getUsers
        (Fixtures.request "" .malformed) ()
      = (.ok { response :=
                 { status := 200,
                   body := .users
                     { Users := some
                         [some { ID := 1, Name := "Name Name 1", Email := "email1@email.com",
                                 Age := 37 },
                          some { ID := 2, Name := "Name Name 2", Email := "email2@email.com",
                                 Age := 102 }] } },
               logs := [] },
         ())
    ∧ controller.responseOf
        ((controller.NewUserController (Fixtures.listingService (some []))).getUsers
          (Fixtures.request "" .malformed) ())
      = some { status := 200, body := .users { Users := some [] } }
    ∧ controller.responseOf
        ((controller.NewUserController (Fixtures.listingService none)).getUsers
          (Fixtures.request "" .malformed) ())
      = some { status := 200, body := .users { Users := some [] } } :=
  ⟨(controller.getUsers_lists_service_users
      (controller.NewUserController
        (Fixtures.listingService
          (some [some Fixtures.USER1_SERVICE, some Fixtures.USER2_SERVICE])))
      (Fixtures.request "" .malformed) () ()
      (some [some Fixtures.USER1_SERVICE, some Fixtures.USER2_SERVICE])
      [Fixtures.USER1_SERVICE, Fixtures.USER2_SERVICE] (Or.inl rfl) rfl).1,
   (controller.getUsers_lists_service_users
      (controller.NewUserController (Fixtures.listingService (some [])))
      (Fixtures.request "" .malformed) () () (some []) [] (Or.inl rfl) rfl).2.1 rfl,
   (controller.getUsers_lists_service_users
      (controller.NewUserController (Fixtures.listingService none))
      (Fixtures.request "" .malformed) () () none [] (Or.inr ⟨rfl, rfl⟩) rfl).2.1 rfl⟩

/-- C13: `PostgresUserRepository.GetAll` never returns a nil slice. Whatever
the database handle does, the call returns normally with a non-nil slice; when
the store returns no rows and no error, as the empty store does, the result is
the empty non-nil slice with no error. -/
theorem repository.GetAll_slice_is_never_nil {σ : Type}
    (r : repository.PostgresUserRepository σ) (st : σ) :
    (∃ xs err st1, r.GetAll st = (.ok (some xs, err), st1))
      ∧ (∀ st1, r.db.SelectContext repository.postgresGetAllUsersQuery st
            = (([], none), st1) →
          r.GetAll st = (.ok (some [], none), st1))
      ∧ (∀ timeout nextID,
          (repository.NewPostgresUserRepository postgres.db timeout).GetAll
              { rows := [], nextID := nextID }
            = (.ok (some [], none), { rows := [], nextID := nextID })) := by
  refine ⟨?_, ?_, ?_⟩
  · cases hsel : r.db.SelectContext repository.postgresGetAllUsersQuery st with
    | mk res st1 =>
      obtain ⟨rows, err⟩ := res
      exact ⟨[] ++ rows.map some, err, st1,
        by simp [repository.PostgresUserRepository.GetAll, hsel]⟩
  · intro st1 hsel
    simp [repository.PostgresUserRepository.GetAll, hsel]
  · intro timeout nextID
    rfl

/-- Worked example for C13, the test `empty returns empty array`: `GetAll` on
the freshly migrated store. -/
theorem repository.GetAll_slice_is_never_nil_witness :
    Fixtures.storeRepository.GetAll Fixtures.emptyStore
      = (.ok (some [], none), Fixtures.emptyStore) :=
  (repository.GetAll_slice_is_never_nil Fixtures.storeRepository Fixtures.emptyStore).2.1
    Fixtures.emptyStore rfl

/-- C14: when the repository returns a list of users and no error,
`userService.GetAll` returns, with no error, the list with one user per
repository user, in the same order, each with the same `ID`, `Name`, `Email` and
`Age`; for no users (an empty or a nil slice) that is the empty list. When the
repository returns an error the service returns a nil list and that error. -/
theorem service.GetAll_maps_repository_users {σ : Type}
    (repo : repository.UserRepository σ) (st st1 : σ)
    (users : Slice (Ptr repository.User)) (us : List repository.User)
    (hus : users = some (us.map some) ∨ (users = none ∧ us = [])) :
    (repo.GetAll st = (.ok (users, none), st1) →
        (service.userService.mk repo).GetAll st
          = (.ok (some (us.map (fun u =>
                some { ID := u.ID, Name := u.Name, Email := u.Email, Age := u.Age })),
              none), st1))
      ∧ (repo.GetAll st = (.ok (users, none), st1) →
          ∃ out, (service.userService.mk repo).GetAll st = (.ok (some out, none), st1)
            ∧ out.length = us.length)
      ∧ (∀ e users2, repo.GetAll st = (.ok (users2, some e), st1) →
          (service.userService.mk repo).GetAll st = (.ok (none, some e), st1)) := by
  have hrun : repo.GetAll st = (.ok (users, none), st1) →
      (service.userService.mk repo).GetAll st
        = (.ok (some (us.map (fun u =>
              some { ID := u.ID, Name := u.Name, Email := u.Email, Age := u.Age })),
            none), st1) := by
    intro h
    rcases hus with hus | ⟨hus, hnil⟩
    · subst hus
      simp only [service.userService.GetAll, h, Option.getD_some,
        service.convertAll_of_repository_users]
      rfl
    · subst hus
      subst hnil
      simp only [service.userService.GetAll, h]
      rfl
  refine ⟨hrun, ?_, ?_⟩
  · intro h
    exact ⟨_, hrun h, by simp⟩
  · intro e users2 h
    exact service.GetAll_of_repository_error ⟨repo⟩ st st1 users2 e h

/-- Worked example for C14, the tests of `TestGetAll`: a repository returning
`USER1` and `USER2`, one returning the empty slice, and one failing. -/
theorem service.GetAll_maps_repository_users_witness :
    (service.userService.mk
          (Fixtures.listingRepository (some [some Fixtures.USER1, some Fixtures.USER2]))).GetAll
        ()
      = (.ok (some [some { ID := 1, Name := "Name Name 1", Email := "email1@email.com",
                           Age := 37 },
                    some { ID := 2, Name := "Name Name 2", Email := "email2@email.com",
                           Age := 102 }],
              none), ())
    ∧ (service.userService.mk (Fixtures.listingRepository (some []))).GetAll ()
      = (.ok (some [], none), ())
    ∧ (service.userService.mk (Fixtures.failingRepository Fixtures.plainError)).GetAll ()
      = (.ok (none, some Fixtures.plainError), ()) :=
  ⟨(service.GetAll_maps_repository_users
      (Fixtures.listingRepository (some [some Fixtures.USER1, some Fixtures.USER2])) () ()
      (some [some Fixtures.USER1, some Fixtures.USER2]) [Fixtures.USER1, Fixtures.USER2]
      (Or.inl rfl)).1 rfl,
   (service.GetAll_maps_repository_users (Fixtures.listingRepository (some [])) () ()
      (some []) [] (Or.inl rfl)).1 rfl,
   (service.GetAll_maps_repository_users (Fixtures.failingRepository Fixtures.plainError) () ()
      none [] (Or.inr ⟨rfl, rfl⟩)).2.2 Fixtures.plainError none rfl⟩

/-- C15: when the store answers the insert or the update with a `pgx.PgError`
whose code is the unique-violation code, `Create` returns id 0 with
`ErrUserAlreadyExists` and `Update` returns `ErrUserAlreadyExists`; when the
insert succeeds `Create` returns the id the store assigned, with no error. In
each case the database handle receives exactly one call, the statement itself:
there is no query for the email beforehand. -/
theorem repository.unique_violation_gives_already_exists {σ : Type}
    (db : repository.DB σ) (timeout : Nat) (u : repository.User) (st st1 : σ)
    (log : List repository.DBCall) :
    (∀ dest message,
        db.QueryRowScan 0 repository.postgresCreateUserQuery
            [.str u.Name, .str u.Email, .int u.Age] st
          = ((dest, some (.pgError pgerrcode.UniqueViolation message)), st1) →
        (repository.NewPostgresUserRepository db.recording timeout).Create (some u) (st, log)
          = (.ok (0, some repository.ErrUserAlreadyExists),
             (st1, log ++ [repository.DBCall.QueryRowScan repository.postgresCreateUserQuery
                [.str u.Name, .str u.Email, .int u.Age]])))
    ∧ (∀ result message,
        db.ExecContext repository.postgresUpdateUserQuery
            [.str u.Name, .str u.Email, .int u.Age, .int u.ID] st
          = ((result, some (.pgError pgerrcode.UniqueViolation message)), st1) →
        (repository.NewPostgresUserRepository db.recording timeout).Update (some u) (st, log)
          = (.ok (some repository.ErrUserAlreadyExists),
             (st1, log ++ [repository.DBCall.ExecContext repository.postgresUpdateUserQuery
                [.str u.Name, .str u.Email, .int u.Age, .int u.ID]])))
    ∧ (∀ id,
        db.QueryRowScan 0 repository.postgresCreateUserQuery
            [.str u.Name, .str u.Email, .int u.Age] st
          = ((id, none), st1) →
        (repository.NewPostgresUserRepository db.recording timeout).Create (some u) (st, log)
          = (.ok (id, none),
             (st1, log ++ [repository.DBCall.QueryRowScan repository.postgresCreateUserQuery
                [.str u.Name, .str u.Email, .int u.Age]]))) := by
  refine ⟨?_, ?_, ?_⟩
  · intro dest message h
    simp [repository.PostgresUserRepository.Create, repository.NewPostgresUserRepository,
      repository.DB.recording, h, repository.isUniqueViolation]
  · intro result message h
    simp [repository.PostgresUserRepository.Update, repository.NewPostgresUserRepository,
      repository.DB.recording, h, repository.isUniqueViolation]
  · intro id h
    simp [repository.PostgresUserRepository.Create, repository.NewPostgresUserRepository,
      repository.DB.recording, h, repository.isUniqueViolation]

/-- Worked example for C15, the tests `user already exists` and `cannot use
email of another user` on the store holding `USER1` and `USER2`, and a create
with a fresh email. -/
theorem repository.unique_violation_gives_already_exists_witness :
    ((repository.NewPostgresUserRepository postgres.db.recording 2000000000).Create
          (some Fixtures.USER1) (Fixtures.twoUserStore, [])
        = (.ok (0, some repository.ErrUserAlreadyExists),
           ({ rows := [Fixtures.USER1, Fixtures.USER2], nextID := 4 },
            [] ++ [repository.DBCall.QueryRowScan repository.postgresCreateUserQuery
              [.str "Name Name 1", .str "email1@email.com", .int 37]])))
    ∧ ((repository.NewPostgresUserRepository postgres.db.recording 2000000000).Update
          (some { ID := 2, Name := "Name Name 2", Email := "email1@email.com", Age := 102 })
          (Fixtures.twoUserStore, [])
        = (.ok (some repository.ErrUserAlreadyExists),
           (Fixtures.twoUserStore,
            [] ++ [repository.DBCall.ExecContext repository.postgresUpdateUserQuery
              [.str "Name Name 2", .str "email1@email.com", .int 102, .int 2]])))
    ∧ ((repository.NewPostgresUserRepository postgres.db.recording 2000000000).Create
          (some Fixtures.USER1) (Fixtures.emptyStore, [])
        = (.ok (1, none),
           ({ rows := [Fixtures.USER1], nextID := 2 },
            [] ++ [repository.DBCall.QueryRowScan repository.postgresCreateUserQuery
              [.str "Name Name 1", .str "email1@email.com", .int 37]]))) :=
  ⟨(repository.unique_violation_gives_already_exists postgres.db 2000000000 Fixtures.USER1
      Fixtures.twoUserStore { rows := [Fixtures.USER1, Fixtures.USER2], nextID := 4 } []).1
      0 "duplicate key value violates unique constraint" rfl,
   (repository.unique_violation_gives_already_exists postgres.db 2000000000
      { ID := 2, Name := "Name Name 2", Email := "email1@email.com", Age := 102 }
      Fixtures.twoUserStore Fixtures.twoUserStore []).2.1
      none "duplicate key value violates unique constraint" rfl,
   (repository.unique_violation_gives_already_exists postgres.db 2000000000 Fixtures.USER1
      Fixtures.emptyStore { rows := [Fixtures.USER1], nextID := 2 } []).2.2 1 rfl⟩

/-- C16: when the store executes the statement without error, `Update` and
`Delete` return `ErrUserNotFound` if the result reports zero affected rows and
no error if it reports at least one. The database handle receives exactly one
call, the statement itself: the decision rests on the affected-row count alone,
with no separate query for the row. -/
theorem repository.zero_rows_affected_gives_not_found {σ : Type}
    (db : repository.DB σ) (timeout : Nat) (u : repository.User) (id : Int) (st st1 : σ)
    (log : List repository.DBCall) (result : repository.SqlResult) :
    (db.ExecContext repository.postgresUpdateUserQuery
          [.str u.Name, .str u.Email, .int u.Age, .int u.ID] st
        = ((some result, none), st1) →
      (repository.NewPostgresUserRepository db.recording timeout).Update (some u) (st, log)
        = (.ok (if result.rowsAffected = 0 then some repository.ErrUserNotFound else none),
           (st1, log ++ [repository.DBCall.ExecContext repository.postgresUpdateUserQuery
              [.str u.Name, .str u.Email, .int u.Age, .int u.ID]])))
    ∧ (db.ExecContext repository.postgresDeleteUserQuery [.int id] st
        = ((some result, none), st1) →
      (repository.NewPostgresUserRepository db.recording timeout).Delete id (st, log)
        = (.ok (if result.rowsAffected = 0 then some repository.ErrUserNotFound else none),
           (st1, log ++ [repository.DBCall.ExecContext repository.postgresDeleteUserQuery
              [.int id]])))
    ∧ (1 ≤ result.rowsAffected →
        (if result.rowsAffected = 0 then some repository.ErrUserNotFound else none) = none) := by
  refine ⟨?_, ?_, ?_⟩
  · intro h
    by_cases hz : result.rowsAffected = 0
    · have hb : (result.rowsAffected == 0) = true := by simp [hz]
      simp [repository.PostgresUserRepository.Update, repository.NewPostgresUserRepository,
        repository.DB.recording, h, repository.isUniqueViolation, repository.noRowsAffected,
        hb, hz]
    · have hb : (result.rowsAffected == 0) = false := by simp [hz]
      simp [repository.PostgresUserRepository.Update, repository.NewPostgresUserRepository,
        repository.DB.recording, h, repository.isUniqueViolation, repository.noRowsAffected,
        hb, hz]
  · intro h
    by_cases hz : result.rowsAffected = 0
    · have hb : (result.rowsAffected == 0) = true := by simp [hz]
      simp [repository.PostgresUserRepository.Delete, repository.NewPostgresUserRepository,
        repository.DB.recording, h, repository.noRowsAffected, hb, hz]
    · have hb : (result.rowsAffected == 0) = false := by simp [hz]
      simp [repository.PostgresUserRepository.Delete, repository.NewPostgresUserRepository,
        repository.DB.recording, h, repository.noRowsAffected, hb, hz]
  · intro h
    have hz : result.rowsAffected ≠ 0 := by omega
    simp [hz]

/-- Worked example for C16, the tests `update non-existing`, `delete
non-existing` and `delete existing` on the store: an update and a delete of an
id without a row, and a delete of the id of `USER1`. -/
theorem repository.zero_rows_affected_gives_not_found_witness :
    ((repository.NewPostgresUserRepository postgres.db.recording 2000000000).Update
          (some Fixtures.USER1) (Fixtures.emptyStore, [])
        = (.ok (some repository.ErrUserNotFound),
           (Fixtures.emptyStore,
            [] ++ [repository.DBCall.ExecContext repository.postgresUpdateUserQuery
              [.str "Name Name 1", .str "email1@email.com", .int 37, .int 1]])))
    ∧ ((repository.NewPostgresUserRepository postgres.db.recording 2000000000).Delete 25
          (Fixtures.twoUserStore, [])
        = (.ok (some repository.ErrUserNotFound),
           (Fixtures.twoUserStore,
            [] ++ [repository.DBCall.ExecContext repository.postgresDeleteUserQuery
              [.int 25]])))
    ∧ ((repository.NewPostgresUserRepository postgres.db.recording 2000000000).Delete 1
          (Fixtures.twoUserStore, [])
        = (.ok none,
           ({ rows := [Fixtures.USER2], nextID := 3 },
            [] ++ [repository.DBCall.ExecContext repository.postgresDeleteUserQuery
              [.int 1]]))) :=
  ⟨(repository.zero_rows_affected_gives_not_found postgres.db 2000000000 Fixtures.USER1 25
      Fixtures.emptyStore Fixtures.emptyStore []
      { rowsAffected := 0, rowsAffectedErr := none }).1 rfl,
   (repository.zero_rows_affected_gives_not_found postgres.db 2000000000 Fixtures.USER1 25
      Fixtures.twoUserStore Fixtures.twoUserStore []
      { rowsAffected := 0, rowsAffectedErr := none }).2.1 rfl,
   (repository.zero_rows_affected_gives_not_found postgres.db 2000000000 Fixtures.USER1 1
      Fixtures.twoUserStore { rows := [Fixtures.USER2], nextID := 3 } []
      { rowsAffected := 1, rowsAffectedErr := none }).2.1 rfl⟩

/-- C17: `Get` returns a nil user and `ErrUserNotFound` whenever the error of
the store matches `sql.ErrNoRows` under `errors.Is`, so also when it wraps it;
when the store finds the row and returns no error, `Get` returns that row with
no error. -/
theorem repository.Get_no_rows_gives_not_found {σ : Type}
    (r : repository.PostgresUserRepository σ) (id : Int) (st st1 : σ)
    (row : repository.User) :
    (∀ e, errors.Is (some e) (some sql.ErrNoRows) = true →
        r.db.GetContext { ID := 0, Name := "", Email := "", Age := 0 }
            repository.postgresGetUserQuery [.int id] st
          = ((row, some e), st1) →
        r.Get id st = (.ok (none, some repository.ErrUserNotFound), st1))
    ∧ (r.db.GetContext { ID := 0, Name := "", Email := "", Age := 0 }
            repository.postgresGetUserQuery [.int id] st
          = ((row, none), st1) →
        r.Get id st = (.ok (some row, none), st1))
    ∧ errors.Is (some sql.ErrNoRows) (some sql.ErrNoRows) = true
    ∧ (∀ ptr typ text, errors.Is (some (.wrapped ptr typ text sql.ErrNoRows))
        (some sql.ErrNoRows) = true) := by
  refine ⟨?_, ?_, by rfl, ?_⟩
  · intro e he h
    simp [repository.PostgresUserRepository.Get, h, he]
  · intro h
    simp only [repository.PostgresUserRepository.Get, h]
    rfl
  · intro ptr typ text
    simp [errors.Is, errors.is, sql.ErrNoRows]

/-- Worked example for C17, the tests of `TestGet` on the store: an id without
a row, the id of `USER2`, and a handle that wraps `sql.ErrNoRows`. -/
theorem repository.Get_no_rows_gives_not_found_witness :
    (Fixtures.storeRepository.Get 25 Fixtures.twoUserStore
        = (.ok (none, some repository.ErrUserNotFound), Fixtures.twoUserStore))
    ∧ (Fixtures.storeRepository.Get 2 Fixtures.twoUserStore
        = (.ok (some Fixtures.USER2, none), Fixtures.twoUserStore))
    ∧ ((repository.NewPostgresUserRepository Fixtures.wrappedNoRowsDB 2000000000).Get 1 ()
        = (.ok (none, some repository.ErrUserNotFound), ())) :=
  ⟨(repository.Get_no_rows_gives_not_found Fixtures.storeRepository 25 Fixtures.twoUserStore
      Fixtures.twoUserStore { ID := 0, Name := "", Email := "", Age := 0 }).1
      sql.ErrNoRows rfl rfl,
   (repository.Get_no_rows_gives_not_found Fixtures.storeRepository 2 Fixtures.twoUserStore
      Fixtures.twoUserStore Fixtures.USER2).2.1 rfl,
   (repository.Get_no_rows_gives_not_found
      (repository.NewPostgresUserRepository Fixtures.wrappedNoRowsDB 2000000000) 1 () ()
      { ID := 0, Name := "", Email := "", Age := 0 }).1 Fixtures.wrappedNoRows rfl rfl⟩

/-- C18: through the three layers as `main` wires them, a get, an update or a
delete for which the store reports that the row is missing (an error matching
`sql.ErrNoRows` for the select, zero affected rows and no error for the update
or the delete) is answered with status 404 and the body with code
`ErrUserNotFound`, message `user not found` and status 404. -/
theorem main.missing_row_gives_not_found_response {σ : Type} (db : repository.DB σ)
    (timeout : Nat) (ctx : gin.Context) (st st1 : σ) :
    (∀ id dest e, strconv.Atoi (ctx.Param "id") = .ok id →
        db.GetContext { ID := 0, Name := "", Email := "", Age := 0 }
            repository.postgresGetUserQuery [.int id] st
          = ((dest, some e), st1) →
        errors.Is (some e) (some sql.ErrNoRows) = true →
        controller.responseOf ((main.userController db timeout).getUser ctx st)
          = some { status := 404,
                   body := .apiError { ErrorCode := "ErrUserNotFound",
                                       Message := "user not found", Status := 404 } })
    ∧ (∀ input result,
        controller.UpdateUserRequest.BindJSON ctx.emailRx ctx.body = .ok input →
        db.ExecContext repository.postgresUpdateUserQuery
            [.str input.Name, .str input.Email, .int input.Age, .int input.ID] st
          = ((some result, none), st1) →
        result.rowsAffected = 0 →
        controller.responseOf ((main.userController db timeout).updateUser ctx st)
          = some { status := 404,
                   body := .apiError { ErrorCode := "ErrUserNotFound",
                                       Message := "user not found", Status := 404 } })
    ∧ (∀ id result, strconv.Atoi (ctx.Param "id") = .ok id →
        db.ExecContext repository.postgresDeleteUserQuery [.int id] st
          = ((some result, none), st1) →
        result.rowsAffected = 0 →
        controller.responseOf ((main.userController db timeout).deleteUser ctx st)
          = some { status := 404,
                   body := .apiError { ErrorCode := "ErrUserNotFound",
                                       Message := "user not found", Status := 404 } }) := by
  have hrepo : errors.Is (some repository.ErrUserNotFound) (some repository.ErrUserNotFound)
      = true := by rfl
  refine ⟨?_, ?_, ?_⟩
  · intro id dest e hid hdb he
    have hget : (repository.NewPostgresUserRepository db timeout).Get id st
        = (.ok (none, some repository.ErrUserNotFound), st1) := by
      simp [repository.PostgresUserRepository.Get, repository.NewPostgresUserRepository,
        hdb, he]
    simp [controller.UserController.getUser, hid, main.userController,
      controller.NewUserController, service.NewUserService,
      service.userService.toUserService, service.userService.Get,
      repository.PostgresUserRepository.toUserRepository, hget, hrepo,
      controller.responseOf]
    decide
  · intro input result hb hdb hz
    have hb0 : (result.rowsAffected == 0) = true := by simp [hz]
    have hupd : (repository.NewPostgresUserRepository db timeout).Update
        (some (service.serviceUserToRepositoryUser
          (controller.updateUserRequestToServiceUser input))) st
        = (.ok (some repository.ErrUserNotFound), st1) := by
      simp [repository.PostgresUserRepository.Update, repository.NewPostgresUserRepository,
        service.serviceUserToRepositoryUser, controller.updateUserRequestToServiceUser,
        hdb, repository.isUniqueViolation, repository.noRowsAffected, hb0]
    simp [controller.UserController.updateUser, hb, main.userController,
      controller.NewUserController, service.NewUserService,
      service.userService.toUserService, service.userService.Update,
      repository.PostgresUserRepository.toUserRepository, hupd, hrepo,
      controller.responseOf]
    decide
  · intro id result hid hdb hz
    have hb0 : (result.rowsAffected == 0) = true := by simp [hz]
    have hdel : (repository.NewPostgresUserRepository db timeout).Delete id st
        = (.ok (some repository.ErrUserNotFound), st1) := by
      simp [repository.PostgresUserRepository.Delete, repository.NewPostgresUserRepository,
        hdb, repository.noRowsAffected, hb0]
    simp [controller.UserController.deleteUser, hid, main.userController,
      controller.NewUserController, service.NewUserService,
      service.userService.toUserService, service.userService.Delete,
      repository.PostgresUserRepository.toUserRepository, hdel, hrepo,
      controller.responseOf]
    decide

/-- Worked example for C18: a get, an update and a delete of the id 99999 on
the store holding `USER1` and `USER2`. -/
theorem main.missing_row_gives_not_found_response_witness :
    controller.responseOf
        ((main.userController postgres.db 5000000000).getUser
          (Fixtures.request "99999" Fixtures.missingUpdateBody) Fixtures.twoUserStore)
      = some { status := 404,
               body := .apiError { ErrorCode := "ErrUserNotFound",
                                   Message := "user not found", Status := 404 } }
    ∧ controller.responseOf
        ((main.userController postgres.db 5000000000).updateUser
          (Fixtures.request "99999" Fixtures.missingUpdateBody) Fixtures.twoUserStore)
      = some { status := 404,
               body := .apiError { ErrorCode := "ErrUserNotFound",
                                   Message := "user not found", Status := 404 } }
    ∧ controller.responseOf
        ((main.userController postgres.db 5000000000).deleteUser
          (Fixtures.request "99999" Fixtures.missingUpdateBody) Fixtures.twoUserStore)
      = some { status := 404,
               body := .apiError { ErrorCode := "ErrUserNotFound",
                                   Message := "user not found", Status := 404 } } :=
  have h := main.missing_row_gives_not_found_response postgres.db 5000000000
    (Fixtures.request "99999" Fixtures.missingUpdateBody) Fixtures.twoUserStore
    Fixtures.twoUserStore
  ⟨h.1 99999 { ID := 0, Name := "", Email := "", Age := 0 } sql.ErrNoRows rfl rfl rfl,
   h.2.1 { ID := 99999, Name := "Name Name 1", Email := "email1@email.com", Age := 37 }
      { rowsAffected := 0, rowsAffectedErr := none } rfl rfl rfl,
   h.2.2 99999 { rowsAffected := 0, rowsAffectedErr := none } rfl rfl rfl⟩

/-! ### The three layers on a database handle: one request, one statement -/

theorem main.deleteUser_of_exec_ok {σ : Type} (db : repository.DB σ) (timeout : Nat)
    (ctx : gin.Context) (st st1 : σ) (id : Int) (result : repository.SqlResult)
    (hid : strconv.Atoi (ctx.Param "id") = .ok id)
    (hdb : db.ExecContext repository.postgresDeleteUserQuery [.int id] st
      = ((some result, none), st1)) :
    (main.userController db timeout).deleteUser ctx st
      = (.ok { response :=
                 if result.rowsAffected = 0 then
                   { status := 404, body := .apiError controller.ErrUserNotFound }
                 else { status := 200, body := .empty },
               logs := [] },
         st1) := by
  have hrepo : errors.Is (some repository.ErrUserNotFound) (some repository.ErrUserNotFound)
      = true := by rfl
  have hnone : errors.Is none (some repository.ErrUserNotFound) = false := by rfl
  by_cases hz : result.rowsAffected = 0
  · have hb0 : (result.rowsAffected == 0) = true := by simp [hz]
    have hdel : (repository.NewPostgresUserRepository db timeout).Delete id st
        = (.ok (some repository.ErrUserNotFound), st1) := by
      simp [repository.PostgresUserRepository.Delete, repository.NewPostgresUserRepository,
        hdb, repository.noRowsAffected, hb0]
    simp [controller.UserController.deleteUser, hid, main.userController,
      controller.NewUserController, service.NewUserService,
      service.userService.toUserService, service.userService.Delete,
      repository.PostgresUserRepository.toUserRepository, hdel, hrepo, hz]
    decide
  · have hb0 : (result.rowsAffected == 0) = false := by simp [hz]
    have hdel : (repository.NewPostgresUserRepository db timeout).Delete id st
        = (.ok none, st1) := by
      simp [repository.PostgresUserRepository.Delete, repository.NewPostgresUserRepository,
        hdb, repository.noRowsAffected, hb0]
    simp [controller.UserController.deleteUser, hid, main.userController,
      controller.NewUserController, service.NewUserService,
      service.userService.toUserService, service.userService.Delete,
      repository.PostgresUserRepository.toUserRepository, hdel, hnone, hz]

theorem main.getUser_of_no_rows {σ : Type} (db : repository.DB σ) (timeout : Nat)
    (ctx : gin.Context) (st st1 : σ) (id : Int) (dest : repository.User)
    (hid : strconv.Atoi (ctx.Param "id") = .ok id)
    (hdb : db.GetContext { ID := 0, Name := "", Email := "", Age := 0 }
        repository.postgresGetUserQuery [.int id] st
      = ((dest, some sql.ErrNoRows), st1)) :
    (main.userController db timeout).getUser ctx st
      = (.ok { response := { status := 404, body := .apiError controller.ErrUserNotFound },
               logs := [] },
         st1) := by
  have hrepo : errors.Is (some repository.ErrUserNotFound) (some repository.ErrUserNotFound)
      = true := by rfl
  have hno : errors.Is (some sql.ErrNoRows) (some sql.ErrNoRows) = true := by rfl
  have hget : (repository.NewPostgresUserRepository db timeout).Get id st
      = (.ok (none, some repository.ErrUserNotFound), st1) := by
    simp [repository.PostgresUserRepository.Get, repository.NewPostgresUserRepository,
      hdb, hno]
  simp [controller.UserController.getUser, hid, main.userController,
    controller.NewUserController, service.NewUserService,
    service.userService.toUserService, service.userService.Get,
    repository.PostgresUserRepository.toUserRepository, hget, hrepo]
  decide

theorem main.getUser_of_row {σ : Type} (db : repository.DB σ) (timeout : Nat)
    (ctx : gin.Context) (st st1 : σ) (id : Int) (row : repository.User)
    (hid : strconv.Atoi (ctx.Param "id") = .ok id)
    (hdb : db.GetContext { ID := 0, Name := "", Email := "", Age := 0 }
        repository.postgresGetUserQuery [.int id] st
      = ((row, none), st1)) :
    (main.userController db timeout).getUser ctx st
      = (.ok { response :=
                 { status := 200,
                   body := .user { ID := row.ID, Name := row.Name, Email := row.Email,
                                   Age := row.Age } },
               logs := [] },
         st1) := by
  have hnone : errors.Is none (some sql.ErrNoRows) = false := by rfl
  have hget : (repository.NewPostgresUserRepository db timeout).Get id st
      = (.ok (some row, none), st1) := by
    simp [repository.PostgresUserRepository.Get, repository.NewPostgresUserRepository,
      hdb, hnone]
  simp [controller.UserController.getUser, hid, main.userController,
    controller.NewUserController, service.NewUserService,
    service.userService.toUserService, service.userService.Get,
    repository.PostgresUserRepository.toUserRepository, hget,
    controller.serviceUserToControllerUser, service.repositoryUserToServiceUser]

theorem main.createUser_of_insert_ok {σ : Type} (db : repository.DB σ) (timeout : Nat)
    (ctx : gin.Context) (st st1 : σ) (u : controller.User) (id : Int)
    (hb : controller.User.BindJSON ctx.emailRx ctx.body = .ok u)
    (hdb : db.QueryRowScan 0 repository.postgresCreateUserQuery
        [.str u.Name, .str u.Email, .int u.Age] st
      = ((id, none), st1)) :
    (main.userController db timeout).createUser ctx st
      = (.ok { response :=
                 { status := 201,
                   body := .user { ID := id, Name := u.Name, Email := u.Email,
                                   Age := u.Age } },
               logs := [] },
         st1) := by
  have hcreate : (repository.NewPostgresUserRepository db timeout).Create
      (some (service.serviceUserToRepositoryUser
        (controller.createUserRequestToServiceUser u))) st
      = (.ok (id, none), st1) := by
    simp [repository.PostgresUserRepository.Create, repository.NewPostgresUserRepository,
      service.serviceUserToRepositoryUser, controller.createUserRequestToServiceUser,
      hdb, repository.isUniqueViolation]
  simp [controller.UserController.createUser, hb, main.userController,
    controller.NewUserController, service.NewUserService,
    service.userService.toUserService, service.userService.Create,
    repository.PostgresUserRepository.toUserRepository, hcreate]
  simp [controller.serviceUserToControllerUser, controller.createUserRequestToServiceUser]

theorem main.createUser_of_unique_violation {σ : Type} (db : repository.DB σ) (timeout : Nat)
    (ctx : gin.Context) (st st1 : σ) (u : controller.User) (dest : Int) (message : String)
    (hb : controller.User.BindJSON ctx.emailRx ctx.body = .ok u)
    (hdb : db.QueryRowScan 0 repository.postgresCreateUserQuery
        [.str u.Name, .str u.Email, .int u.Age] st
      = ((dest, some (.pgError pgerrcode.UniqueViolation message)), st1)) :
    (main.userController db timeout).createUser ctx st
      = (.ok { response :=
                 { status := 409, body := .apiError controller.ErrUserAlreadyExists },
               logs := [{ level := .Warn, msg := "Failed to create user",
                          err := some service.ErrUserAlreadyExists }] },
         st1) := by
  have hrepo : errors.Is (some repository.ErrUserAlreadyExists)
      (some repository.ErrUserAlreadyExists) = true := by rfl
  have hcreate : (repository.NewPostgresUserRepository db timeout).Create
      (some (service.serviceUserToRepositoryUser
        (controller.createUserRequestToServiceUser u))) st
      = (.ok (0, some repository.ErrUserAlreadyExists), st1) := by
    simp [repository.PostgresUserRepository.Create, repository.NewPostgresUserRepository,
      service.serviceUserToRepositoryUser, controller.createUserRequestToServiceUser,
      hdb, repository.isUniqueViolation]
  simp [controller.UserController.createUser, hb, main.userController,
    controller.NewUserController, service.NewUserService,
    service.userService.toUserService, service.userService.Create,
    repository.PostgresUserRepository.toUserRepository, hcreate, hrepo]
  decide

/-! ### The store: statements evaluated -/

theorem postgres.db_exec_delete (s : postgres.Store) (id : Int) :
    postgres.db.ExecContext repository.postgresDeleteUserQuery [.int id] s
      = ((some { rowsAffected := (s.delete id).1, rowsAffectedErr := none }, none),
         (s.delete id).2) := by
  rfl

theorem postgres.db_get_missing (s : postgres.Store) (id : Int) (dest : repository.User)
    (h : s.rows.find? (fun r => r.ID == id) = none) :
    postgres.db.GetContext dest repository.postgresGetUserQuery [.int id] s
      = ((dest, some sql.ErrNoRows), s) := by
  simp [postgres.db, h]

theorem postgres.db_get_found (s : postgres.Store) (id : Int) (dest row : repository.User)
    (h : s.rows.find? (fun r => r.ID == id) = some row) :
    postgres.db.GetContext dest repository.postgresGetUserQuery [.int id] s
      = ((row, none), s) := by
  simp [postgres.db, h]

theorem postgres.db_insert_fresh (s : postgres.Store) (name email : String) (age : Int)
    (h : ∀ r ∈ s.rows, r.Email ≠ email) :
    postgres.db.QueryRowScan 0 repository.postgresCreateUserQuery
        [.str name, .str email, .int age] s
      = ((s.nextID, none),
         { rows := s.rows ++ [{ ID := s.nextID, Name := name, Email := email, Age := age }],
           nextID := s.nextID + 1 }) := by
  have hne : ¬ ∃ x ∈ s.rows, x.Email = email := by
    rintro ⟨r, hr, he⟩
    exact h r hr he
  simp [postgres.db, postgres.Store.insert, hne]

theorem postgres.db_insert_taken (s : postgres.Store) (name email : String) (age : Int)
    (h : ∃ r ∈ s.rows, r.Email = email) :
    postgres.db.QueryRowScan 0 repository.postgresCreateUserQuery
        [.str name, .str email, .int age] s
      = ((0, some postgres.uniqueViolation), { rows := s.rows, nextID := s.nextID + 1 }) := by
  simp [postgres.db, postgres.Store.insert, h]

theorem postgres.delete_count_pos (s : postgres.Store) (id : Int)
    (h : ∃ r ∈ s.rows, r.ID = id) : (s.delete id).1 ≠ 0 := by
  obtain ⟨r, hr, hid⟩ := h
  have hpos : 0 < s.rows.countP (fun r => r.ID == id) :=
    List.countP_pos_iff.mpr ⟨r, hr, by simp [hid]⟩
  simp only [postgres.Store.delete]
  omega

theorem postgres.delete_removes (s : postgres.Store) (id : Int) :
    (s.delete id).2.rows.find? (fun r => r.ID == id) = none
      ∧ ((s.delete id).2.delete id).1 = 0
      ∧ ((s.delete id).2.delete id).2 = (s.delete id).2 := by
  have hall : ∀ r ∈ s.rows.filter (fun r => r.ID != id), (r.ID == id) = false := by
    intro r hr
    have := (List.mem_filter.mp hr).2
    simpa using this
  refine ⟨?_, ?_, ?_⟩
  · simp only [postgres.Store.delete, List.find?_eq_none]
    intro r hr
    simp [hall r hr]
  · simp only [postgres.Store.delete]
    have : (s.rows.filter (fun r => r.ID != id)).countP (fun r => r.ID == id) = 0 := by
      rw [List.countP_eq_zero]
      intro r hr
      simp [hall r hr]
    omega
  · simp only [postgres.Store.delete, List.filter_filter, Bool.and_self]

/-- C19: on the store, through the three layers. Creating a user whose email no
row has is answered 201 with that user and the id the store assigned; a second
create with the same email is then answered 409 with the body with code
`ErrUserAlreadyExists`, message `user already exists` and status 409, and it
leaves the rows of the store as they were, so that a get of the first user's id
still returns it with its id, name, email and age. -/
theorem postgres.second_create_with_same_email_conflicts (s : postgres.Store)
    (ctx1 ctx2 ctx3 : gin.Context) (u1 u2 : controller.User)
    (hb1 : controller.User.BindJSON ctx1.emailRx ctx1.body = .ok u1)
    (hb2 : controller.User.BindJSON ctx2.emailRx ctx2.body = .ok u2)
    (hsame : u2.Email = u1.Email)
    (hfresh : ∀ r ∈ s.rows, r.Email ≠ u1.Email) :
    postgres.app.createUser ctx1 s
        = (.ok { response :=
                   { status := 201,
                     body := .user { ID := s.nextID, Name := u1.Name, Email := u1.Email,
                                     Age := u1.Age } },
                 logs := [] },
           { rows := s.rows
               ++ [{ ID := s.nextID, Name := u1.Name, Email := u1.Email, Age := u1.Age }],
             nextID := s.nextID + 1 })
      ∧ controller.responseOf
          (postgres.app.createUser ctx2
            { rows := s.rows
                ++ [{ ID := s.nextID, Name := u1.Name, Email := u1.Email, Age := u1.Age }],
              nextID := s.nextID + 1 })
        = some { status := 409,
                 body := .apiError { ErrorCode := "ErrUserAlreadyExists",
                                     Message := "user already exists", Status := 409 } }
      ∧ (postgres.app.createUser ctx2
            { rows := s.rows
                ++ [{ ID := s.nextID, Name := u1.Name, Email := u1.Email, Age := u1.Age }],
              nextID := s.nextID + 1 }).2.rows
        = s.rows ++ [{ ID := s.nextID, Name := u1.Name, Email := u1.Email, Age := u1.Age }]
      ∧ ((∀ r ∈ s.rows, r.ID ≠ s.nextID) →
          strconv.Atoi (ctx3.Param "id") = .ok s.nextID →
          controller.responseOf
            (postgres.app.getUser ctx3
              (postgres.app.createUser ctx2
                { rows := s.rows
                    ++ [{ ID := s.nextID, Name := u1.Name, Email := u1.Email,
                          Age := u1.Age }],
                  nextID := s.nextID + 1 }).2)
          = some { status := 200,
                   body := .user { ID := s.nextID, Name := u1.Name, Email := u1.Email,
                                   Age := u1.Age } }) := by
  have hfirst := main.createUser_of_insert_ok postgres.db 5000000000 ctx1 s _ u1 s.nextID hb1
    (postgres.db_insert_fresh s u1.Name u1.Email u1.Age hfresh)
  have hsecond := main.createUser_of_unique_violation postgres.db 5000000000 ctx2
    { rows := s.rows
        ++ [{ ID := s.nextID, Name := u1.Name, Email := u1.Email, Age := u1.Age }],
      nextID := s.nextID + 1 } _ u2 0 _ hb2
    (postgres.db_insert_taken _ u2.Name u2.Email u2.Age
      ⟨{ ID := s.nextID, Name := u1.Name, Email := u1.Email, Age := u1.Age },
        by simp, hsame.symm⟩)
  refine ⟨hfirst, ?_, ?_, ?_⟩
  · simp only [postgres.app, hsecond]
    rfl
  · simp only [postgres.app, hsecond]
  · intro hseq hid
    have hfind : (s.rows
        ++ [({ ID := s.nextID, Name := u1.Name, Email := u1.Email, Age := u1.Age } :
              repository.User)]).find? (fun r => r.ID == s.nextID)
        = some { ID := s.nextID, Name := u1.Name, Email := u1.Email, Age := u1.Age } := by
      have hnone : s.rows.find? (fun r => r.ID == s.nextID) = none := by
        simp only [List.find?_eq_none]
        intro r hr
        simpa using hseq r hr
      simp [List.find?_append, hnone]
    simp only [postgres.app, hsecond]
    rw [main.getUser_of_row postgres.db 5000000000 ctx3 _ _ s.nextID
      { ID := s.nextID, Name := u1.Name, Email := u1.Email, Age := u1.Age } hid
      (postgres.db_get_found _ _ _ _ hfind)]
    rfl

/-- Worked example for C19, the example of the specification on the freshly
migrated store: the first create is answered 201 with id 1, the second create
with the same email 409, and a get of id 1 still returns the first user. -/
theorem postgres.second_create_with_same_email_conflicts_witness :
    postgres.app.createUser (Fixtures.request "1" Fixtures.createBody) Fixtures.emptyStore
        = (.ok { response :=
                   { status := 201,
                     body := .user { ID := 1, Name := "Name Name 1",
                                     Email := "email1@email.com", Age := 37 } },
                 logs := [] },
           { rows := [] ++ [{ ID := 1, Name := "Name Name 1", Email := "email1@email.com",
                              Age := 37 }],
             nextID := 1 + 1 })
      ∧ controller.responseOf
          (postgres.app.createUser (Fixtures.request "1" Fixtures.sameEmailBody)
            { rows := [] ++ [{ ID := 1, Name := "Name Name 1", Email := "email1@email.com",
                               Age := 37 }],
              nextID := 1 + 1 })
        = some { status := 409,
                 body := .apiError { ErrorCode := "ErrUserAlreadyExists",
                                     Message := "user already exists", Status := 409 } }
      ∧ controller.responseOf
          (postgres.app.getUser (Fixtures.request "1" Fixtures.createBody)
            (postgres.app.createUser (Fixtures.request "1" Fixtures.sameEmailBody)
              { rows := [] ++ [{ ID := 1, Name := "Name Name 1",
                                 Email := "email1@email.com", Age := 37 }],
                nextID := 1 + 1 }).2)
        = some { status := 200,
                 body := .user { ID := 1, Name := "Name Name 1",
                                 Email := "email1@email.com", Age := 37 } } :=
  have h := postgres.second_create_with_same_email_conflicts Fixtures.emptyStore
    (Fixtures.request "1" Fixtures.createBody) (Fixtures.request "1" Fixtures.sameEmailBody)
    (Fixtures.request "1" Fixtures.createBody)
    { ID := 0, Name := "Name Name 1", Email := "email1@email.com", Age := 37 }
    { ID := 0, Name := "Other Name", Email := "email1@email.com", Age := 50 }
    rfl rfl rfl (by intro r hr; cases hr)
  ⟨h.1, h.2.1, h.2.2.2 (by intro r hr; cases hr) rfl⟩

/-- C20: on the store, through the three layers. For the id of a stored user
the first delete is answered 200 with an empty body and removes the row; a get
of that id is then answered 404 with the `ErrUserNotFound` body, and so is a
second delete of that id, which changes nothing. -/
theorem postgres.second_delete_gives_not_found (s : postgres.Store) (ctx : gin.Context)
    (id : Int) (hid : strconv.Atoi (ctx.Param "id") = .ok id)
    (hex : ∃ r ∈ s.rows, r.ID = id) :
    postgres.app.deleteUser ctx s
        = (.ok { response := { status := 200, body := .empty }, logs := [] },
           { rows := s.rows.filter (fun r => r.ID != id), nextID := s.nextID })
      ∧ postgres.app.getUser ctx
            { rows := s.rows.filter (fun r => r.ID != id), nextID := s.nextID }
        = (.ok { response :=
                   { status := 404,
                     body := .apiError { ErrorCode := "ErrUserNotFound",
                                         Message := "user not found", Status := 404 } },
                 logs := [] },
           { rows := s.rows.filter (fun r => r.ID != id), nextID := s.nextID })
      ∧ postgres.app.deleteUser ctx
            { rows := s.rows.filter (fun r => r.ID != id), nextID := s.nextID }
        = (.ok { response :=
                   { status := 404,
                     body := .apiError { ErrorCode := "ErrUserNotFound",
                                         Message := "user not found", Status := 404 } },
                 logs := [] },
           { rows := s.rows.filter (fun r => r.ID != id), nextID := s.nextID }) := by
  have hrem := postgres.delete_removes s id
  have hpos := postgres.delete_count_pos s id hex
  refine ⟨?_, ?_, ?_⟩
  · have h := main.deleteUser_of_exec_ok postgres.db 5000000000 ctx s _ id _ hid
      (postgres.db_exec_delete s id)
    simp only [hpos, if_false] at h
    exact h
  · exact main.getUser_of_no_rows postgres.db 5000000000 ctx _ _ id
      { ID := 0, Name := "", Email := "", Age := 0 } hid
      (postgres.db_get_missing _ id _ hrem.1)
  · have h := main.deleteUser_of_exec_ok postgres.db 5000000000 ctx (s.delete id).2 _ id _ hid
      (postgres.db_exec_delete (s.delete id).2 id)
    simp only [hrem.2.1, if_true, hrem.2.2] at h
    exact h

/-- Worked example for C20, the test `delete existing` through the HTTP layer:
on the store holding `USER1` and `USER2`, delete id 1, get id 1, delete id 1
again. -/
theorem postgres.second_delete_gives_not_found_witness :
    postgres.app.deleteUser (Fixtures.request "1" .malformed) Fixtures.twoUserStore
        = (.ok { response := { status := 200, body := .empty }, logs := [] },
           { rows := [Fixtures.USER2], nextID := 3 })
      ∧ postgres.app.getUser (Fixtures.request "1" .malformed)
            { rows := [Fixtures.USER2], nextID := 3 }
        = (.ok { response :=
                   { status := 404,
                     body := .apiError { ErrorCode := "ErrUserNotFound",
                                         Message := "user not found", Status := 404 } },
                 logs := [] },
           { rows := [Fixtures.USER2], nextID := 3 })
      ∧ postgres.app.deleteUser (Fixtures.request "1" .malformed)
            { rows := [Fixtures.USER2], nextID := 3 }
        = (.ok { response :=
                   { status := 404,
                     body := .apiError { ErrorCode := "ErrUserNotFound",
                                         Message := "user not found", Status := 404 } },
                 logs := [] },
           { rows := [Fixtures.USER2], nextID := 3 }) :=
  postgres.second_delete_gives_not_found Fixtures.twoUserStore
    (Fixtures.request "1" .malformed) 1 rfl ⟨Fixtures.USER1, by decide, rfl⟩

/-- C21: on success the handlers answer with the fixed statuses and bodies.
When the service returns a user and no error, `getUser` answers 200 with the
user object whose id, name, email and age are those of the service's user, and
`createUser` answers 201 with the user object of the user the service returned;
when the service returns no error, `updateUser` and `deleteUser` answer 200
with an empty body. -/
theorem controller.success_statuses_and_bodies {σ : Type}
    (c : controller.UserController σ) (ctx : gin.Context) (st st1 : σ) :
    (∀ id u, strconv.Atoi (ctx.Param "id") = .ok id →
        c.userService.Get id st = (.ok (some u, none), st1) →
        c.getUser ctx st
          = (.ok { response :=
                     { status := 200,
                       body := .user { ID := u.ID, Name := u.Name, Email := u.Email,
                                       Age := u.Age } },
                   logs := [] },
             st1))
    ∧ (∀ input newUser, controller.User.BindJSON ctx.emailRx ctx.body = .ok input →
        c.userService.Create (some (controller.createUserRequestToServiceUser input)) st
          = (.ok (some newUser, none), st1) →
        c.createUser ctx st
          = (.ok { response :=
                     { status := 201,
                       body := .user { ID := newUser.ID, Name := newUser.Name,
                                       Email := newUser.Email, Age := newUser.Age } },
                   logs := [] },
             st1))
    ∧ (∀ input, controller.UpdateUserRequest.BindJSON ctx.emailRx ctx.body = .ok input →
        c.userService.Update (some (controller.updateUserRequestToServiceUser input)) st
          = (.ok none, st1) →
        c.updateUser ctx st
          = (.ok { response := { status := 200, body := .empty }, logs := [] }, st1))
    ∧ (∀ id, strconv.Atoi (ctx.Param "id") = .ok id →
        c.userService.Delete id st = (.ok none, st1) →
        c.deleteUser ctx st
          = (.ok { response := { status := 200, body := .empty }, logs := [] }, st1)) := by
  refine ⟨?_, ?_, ?_, ?_⟩
  · intro id u hid h
    simp [controller.UserController.getUser, hid, h, controller.serviceUserToControllerUser]
  · intro input newUser hb h
    simp [controller.UserController.createUser, hb, h,
      controller.serviceUserToControllerUser]
  · intro input hb h
    simp [controller.UserController.updateUser, hb, h]
  · intro id hid h
    simp [controller.UserController.deleteUser, hid, h]

/-- Worked example for C21, the success tests of the controller: a service that
returns `USER1_SERVICE` from `Get` and `Create` and no error from `Update` and
`Delete`. -/
theorem controller.success_statuses_and_bodies_witness :
    (controller.NewUserController Fixtures.acceptingService).getUser
        (Fixtures.request "1" Fixtures.updateBody) ()
      = (.ok { response :=
                 { status := 200,
                   body := .user { ID := 1, Name := "Name Name 1",
                                   Email := "email1@email.com", Age := 37 } },
               logs := [] },
         ())
    ∧ (controller.NewUserController Fixtures.acceptingService).createUser
        (Fixtures.request "1" Fixtures.updateBody) ()
      = (.ok { response :=
                 { status := 201,
                   body := .user { ID := 1, Name := "Name Name 1",
                                   Email := "email1@email.com", Age := 37 } },
               logs := [] },
         ())
    ∧ (controller.NewUserController Fixtures.acceptingService).updateUser
        (Fixtures.request "1" Fixtures.updateBody) ()
      = (.ok { response := { status := 200, body := .empty }, logs := [] }, ())
    ∧ (controller.NewUserController Fixtures.acceptingService).deleteUser
        (Fixtures.request "1" Fixtures.updateBody) ()
      = (.ok { response := { status := 200, body := .empty }, logs := [] }, ()) :=
  have h := controller.success_statuses_and_bodies
    (controller.NewUserController Fixtures.acceptingService)
    (Fixtures.request "1" Fixtures.updateBody) () ()
  ⟨h.1 1 Fixtures.USER1_SERVICE rfl rfl,
   h.2.1 { ID := 1, Name := "Name Name 1", Email := "email1@email.com", Age := 37 }
      Fixtures.USER1_SERVICE rfl rfl,
   h.2.2.1 { ID := 1, Name := "Name Name 1", Email := "email1@email.com", Age := 37 }
      rfl rfl,
   h.2.2.2 1 rfl rfl⟩

/-- C22: the three user shapes are projections of the same four fields.
`repositoryUserToServiceUser` and `serviceUserToRepositoryUser` are inverse to
each other, and `createUserRequestToServiceUser`,
`updateUserRequestToServiceUser` and `serviceUserToControllerUser` each copy
`ID`, `Name`, `Email` and `Age` unchanged. -/
theorem service.user_shapes_are_isomorphic :
    (∀ u : service.User,
        service.repositoryUserToServiceUser (service.serviceUserToRepositoryUser u) = u)
    ∧ (∀ r : repository.User,
        service.serviceUserToRepositoryUser (service.repositoryUserToServiceUser r) = r)
    ∧ (∀ r : repository.User,
        (service.repositoryUserToServiceUser r).ID = r.ID
          ∧ (service.repositoryUserToServiceUser r).Name = r.Name
          ∧ (service.repositoryUserToServiceUser r).Email = r.Email
          ∧ (service.repositoryUserToServiceUser r).Age = r.Age)
    ∧ (∀ u : service.User,
        (service.serviceUserToRepositoryUser u).ID = u.ID
          ∧ (service.serviceUserToRepositoryUser u).Name = u.Name
          ∧ (service.serviceUserToRepositoryUser u).Email = u.Email
          ∧ (service.serviceUserToRepositoryUser u).Age = u.Age)
    ∧ (∀ c : controller.User,
        (controller.createUserRequestToServiceUser c).ID = c.ID
          ∧ (controller.createUserRequestToServiceUser c).Name = c.Name
          ∧ (controller.createUserRequestToServiceUser c).Email = c.Email
          ∧ (controller.createUserRequestToServiceUser c).Age = c.Age)
    ∧ (∀ q : controller.UpdateUserRequest,
        (controller.updateUserRequestToServiceUser q).ID = q.ID
          ∧ (controller.updateUserRequestToServiceUser q).Name = q.Name
          ∧ (controller.updateUserRequestToServiceUser q).Email = q.Email
          ∧ (controller.updateUserRequestToServiceUser q).Age = q.Age)
    ∧ (∀ u : service.User,
        (controller.serviceUserToControllerUser u).ID = u.ID
          ∧ (controller.serviceUserToControllerUser u).Name = u.Name
          ∧ (controller.serviceUserToControllerUser u).Email = u.Email
          ∧ (controller.serviceUserToControllerUser u).Age = u.Age)
    ∧ (∀ c : controller.User,
        controller.serviceUserToControllerUser (controller.createUserRequestToServiceUser c)
          = c) := by
  refine ⟨?_, ?_, ?_, ?_, ?_, ?_, ?_, ?_⟩
  · intro u; rfl
  · intro r; rfl
  · intro r; exact ⟨rfl, rfl, rfl, rfl⟩
  · intro u; exact ⟨rfl, rfl, rfl, rfl⟩
  · intro c; exact ⟨rfl, rfl, rfl, rfl⟩
  · intro q; exact ⟨rfl, rfl, rfl, rfl⟩
  · intro u; exact ⟨rfl, rfl, rfl, rfl⟩
  · intro c; rfl

/-! ### `errors.Is` against a sentinel -/

theorem errors.is_sentinel_unique (e : GoError) (p n p2 n2 : String)
    (h1 : errors.is e (.sentinel p n) = true) (h2 : errors.is e (.sentinel p2 n2) = true) :
    p = p2 ∧ n = n2 := by
  induction e with
  | sentinel a b =>
    simp [errors.is] at h1 h2
    exact ⟨h1.1.symm.trans h2.1, h1.2.symm.trans h2.2⟩
  | pgError code message => simp [errors.is] at h1
  | value ptr typ text => simp [errors.is] at h1
  | wrapped ptr typ text inner ih =>
    simp [errors.is] at h1 h2
    exact ih h1 h2

theorem errors.Is_already_exists_excludes_not_found (err : Option GoError)
    (h : errors.Is err (some repository.ErrUserAlreadyExists) = true) :
    errors.Is err (some repository.ErrUserNotFound) = false := by
  cases err with
  | none => rfl
  | some e =>
    cases hnf : errors.Is (some e) (some repository.ErrUserNotFound) with
    | false => rfl
    | true =>
      have := errors.is_sentinel_unique e _ _ _ _ hnf h
      simp at this

/-- C23: `apiErrorFromServiceError` compares by identity. An error that matches
`service.ErrUserNotFound` or `service.ErrUserAlreadyExists` under `errors.Is`
without being that value, such as one that wraps it, is mapped to
`ErrInternalServer` with status 500. The service layer tests with `errors.Is`:
an error of the repository that wraps `repository.ErrUserNotFound` becomes the
bare `service.ErrUserNotFound` in `Get`, `Update` and `Delete`, and one that
wraps `repository.ErrUserAlreadyExists` becomes the bare
`service.ErrUserAlreadyExists` in `Create` and `Update`. -/
theorem controller.identity_comparison_misses_wrapped_errors {σ : Type}
    (repo : repository.UserRepository σ) (st st1 : σ) (id : Int) (u : service.User)
    (e : GoError) :
    ((errors.Is (some e) (some service.ErrUserNotFound) = true
          ∧ e ≠ service.ErrUserNotFound)
        ∨ (errors.Is (some e) (some service.ErrUserAlreadyExists) = true
          ∧ e ≠ service.ErrUserAlreadyExists) →
      controller.apiErrorFromServiceError e
        = { ErrorCode := "ErrInternalServer", Message := "internal server error",
            Status := 500 })
    ∧ (∀ ptr typ text,
        controller.apiErrorFromServiceError (.wrapped ptr typ text service.ErrUserNotFound)
          = { ErrorCode := "ErrInternalServer", Message := "internal server error",
              Status := 500 }
        ∧ controller.apiErrorFromServiceError
            (.wrapped ptr typ text service.ErrUserAlreadyExists)
          = { ErrorCode := "ErrInternalServer", Message := "internal server error",
              Status := 500 })
    ∧ (errors.Is (some e) (some repository.ErrUserNotFound) = true →
        (∀ user, repo.Get id st = (.ok (user, some e), st1) →
          (service.userService.mk repo).Get id st
            = (.ok (none, some service.ErrUserNotFound), st1))
        ∧ (repo.Update (some (service.serviceUserToRepositoryUser u)) st
              = (.ok (some e), st1) →
          (service.userService.mk repo).Update (some u) st
            = (.ok (some service.ErrUserNotFound), st1))
        ∧ (repo.Delete id st = (.ok (some e), st1) →
          (service.userService.mk repo).Delete id st
            = (.ok (some service.ErrUserNotFound), st1)))
    ∧ (errors.Is (some e) (some repository.ErrUserAlreadyExists) = true →
        (∀ newID, repo.Create (some (service.serviceUserToRepositoryUser u)) st
              = (.ok (newID, some e), st1) →
          (service.userService.mk repo).Create (some u) st
            = (.ok (none, some service.ErrUserAlreadyExists), st1))
        ∧ (repo.Update (some (service.serviceUserToRepositoryUser u)) st
              = (.ok (some e), st1) →
          (service.userService.mk repo).Update (some u) st
            = (.ok (some service.ErrUserAlreadyExists), st1))) := by
  refine ⟨?_, ?_, ?_, ?_⟩
  · intro h
    have hne : e ≠ service.ErrUserNotFound ∧ e ≠ service.ErrUserAlreadyExists := by
      rcases h with ⟨his, hne⟩ | ⟨his, hne⟩
      · refine ⟨hne, ?_⟩
        intro heq
        subst heq
        simp [errors.Is, errors.is, service.ErrUserAlreadyExists, service.ErrUserNotFound]
          at his
      · refine ⟨?_, hne⟩
        intro heq
        subst heq
        simp [errors.Is, errors.is, service.ErrUserAlreadyExists, service.ErrUserNotFound]
          at his
    simp [controller.apiErrorFromServiceError, hne.1, hne.2, controller.ErrInternalServer]
  · intro ptr typ text
    constructor <;>
      simp [controller.apiErrorFromServiceError, service.ErrUserNotFound,
        service.ErrUserAlreadyExists, controller.ErrInternalServer]
  · intro his
    refine ⟨?_, ?_, ?_⟩
    · intro user h
      rw [service.Get_of_repository_error ⟨repo⟩ id st st1 user _ h, his]; rfl
    · intro h
      rw [service.Update_of_repository_result ⟨repo⟩ u st st1 _ h, his]; rfl
    · intro h
      rw [service.Delete_of_repository_result ⟨repo⟩ id st st1 _ h, his]; rfl
  · intro his
    refine ⟨?_, ?_⟩
    · intro newID h
      rw [service.Create_of_repository_error ⟨repo⟩ u st st1 newID _ h, his]; rfl
    · intro h
      rw [service.Update_of_repository_result ⟨repo⟩ u st st1 _ h,
        errors.Is_already_exists_excludes_not_found _ his, his]; rfl

/-- Worked example for C23: `service.ErrUserNotFound` wrapped by `fmt.Errorf`
reaches the client as 500, while the service turns the wrapped
`repository.ErrUserNotFound` and `repository.ErrUserAlreadyExists` into the bare
service-level errors. -/
theorem controller.identity_comparison_misses_wrapped_errors_witness :
    controller.apiErrorFromServiceError Fixtures.wrappedServiceNotFound
        = { ErrorCode := "ErrInternalServer", Message := "internal server error",
            Status := 500 }
    ∧ (service.userService.mk
          (Fixtures.failingRepository Fixtures.wrappedRepositoryNotFound)).Get 1 ()
        = (.ok (none, some service.ErrUserNotFound), ())
    ∧ (service.userService.mk
          (Fixtures.failingRepository Fixtures.wrappedRepositoryAlreadyExists)).Update
          (some Fixtures.USER1_SERVICE) ()
        = (.ok (some service.ErrUserAlreadyExists), ()) :=
  ⟨(controller.identity_comparison_misses_wrapped_errors
      (Fixtures.failingRepository Fixtures.wrappedRepositoryNotFound) () () 1
      Fixtures.USER1_SERVICE Fixtures.wrappedServiceNotFound).1
      (Or.inl ⟨rfl, by decide⟩),
   ((controller.identity_comparison_misses_wrapped_errors
      (Fixtures.failingRepository Fixtures.wrappedRepositoryNotFound) () () 1
      Fixtures.USER1_SERVICE Fixtures.wrappedRepositoryNotFound).2.2.1 rfl).1 none rfl,
   ((controller.identity_comparison_misses_wrapped_errors
      (Fixtures.failingRepository Fixtures.wrappedRepositoryAlreadyExists) () () 1
      Fixtures.USER1_SERVICE Fixtures.wrappedRepositoryAlreadyExists).2.2.2 rfl).2 rfl⟩

/-! ### Controller: the responses of each handler -/

theorem controller.apiErrorFromServiceError_mem (e : GoError) :
    controller.apiErrorFromServiceError e ∈ controller.apiErrors := by
  unfold controller.apiErrorFromServiceError controller.apiErrors
  split_ifs <;> simp

theorem controller.getUsers_response_shape {σ : Type} (c : controller.UserController σ)
    (ctx : gin.Context) (st : σ) (resp : controller.Response)
    (hrun : controller.responseOf (c.getUsers ctx st) = some resp) :
    ((resp.status = 200 ∨ resp.status = 201) ∧ ∀ e, resp.body ≠ .apiError e)
      ∨ ∃ e, e ∈ controller.apiErrors ∧ resp.body = .apiError e ∧ resp.status = e.Status := by
  unfold controller.UserController.getUsers at hrun
  repeat' split at hrun
  all_goals simp [controller.responseOf] at hrun
  all_goals subst hrun
  all_goals first
    | exact Or.inr ⟨_, controller.apiErrorFromServiceError_mem _, rfl, rfl⟩
    | exact Or.inl ⟨by simp, fun e h => by cases h⟩

theorem controller.getUser_response_shape {σ : Type} (c : controller.UserController σ)
    (ctx : gin.Context) (st : σ) (resp : controller.Response)
    (hrun : controller.responseOf (c.getUser ctx st) = some resp) :
    ((resp.status = 200 ∨ resp.status = 201) ∧ ∀ e, resp.body ≠ .apiError e)
      ∨ ∃ e, e ∈ controller.apiErrors ∧ resp.body = .apiError e ∧ resp.status = e.Status := by
  unfold controller.UserController.getUser at hrun
  repeat' split at hrun
  all_goals simp [controller.responseOf] at hrun
  all_goals subst hrun
  all_goals first
    | (refine Or.inr ⟨_, ?_, rfl, rfl⟩
       first
         | exact controller.apiErrorFromServiceError_mem _
         | decide)
    | exact Or.inl ⟨by simp, fun e h => by cases h⟩

theorem controller.createUser_response_shape {σ : Type} (c : controller.UserController σ)
    (ctx : gin.Context) (st : σ) (resp : controller.Response)
    (hrun : controller.responseOf (c.createUser ctx st) = some resp) :
    ((resp.status = 200 ∨ resp.status = 201) ∧ ∀ e, resp.body ≠ .apiError e)
      ∨ ∃ e, e ∈ controller.apiErrors ∧ resp.body = .apiError e ∧ resp.status = e.Status := by
  unfold controller.UserController.createUser at hrun
  repeat' split at hrun
  all_goals simp [controller.responseOf] at hrun
  all_goals subst hrun
  all_goals first
    | (refine Or.inr ⟨_, ?_, rfl, rfl⟩
       first
         | exact controller.apiErrorFromServiceError_mem _
         | decide)
    | exact Or.inl ⟨by simp, fun e h => by cases h⟩

theorem controller.updateUser_response_shape {σ : Type} (c : controller.UserController σ)
    (ctx : gin.Context) (st : σ) (resp : controller.Response)
    (hrun : controller.responseOf (c.updateUser ctx st) = some resp) :
    ((resp.status = 200 ∨ resp.status = 201) ∧ ∀ e, resp.body ≠ .apiError e)
      ∨ ∃ e, e ∈ controller.apiErrors ∧ resp.body = .apiError e ∧ resp.status = e.Status := by
  unfold controller.UserController.updateUser at hrun
  repeat' split at hrun
  all_goals simp [controller.responseOf] at hrun
  all_goals subst hrun
  all_goals first
    | (refine Or.inr ⟨_, ?_, rfl, rfl⟩
       first
         | exact controller.apiErrorFromServiceError_mem _
         | decide)
    | exact Or.inl ⟨by simp, fun e h => by cases h⟩

theorem controller.deleteUser_response_shape {σ : Type} (c : controller.UserController σ)
    (ctx : gin.Context) (st : σ) (resp : controller.Response)
    (hrun : controller.responseOf (c.deleteUser ctx st) = some resp) :
    ((resp.status = 200 ∨ resp.status = 201) ∧ ∀ e, resp.body ≠ .apiError e)
      ∨ ∃ e, e ∈ controller.apiErrors ∧ resp.body = .apiError e ∧ resp.status = e.Status := by
  unfold controller.UserController.deleteUser at hrun
  repeat' split at hrun
  all_goals simp [controller.responseOf] at hrun
  all_goals subst hrun
  all_goals first
    | (refine Or.inr ⟨_, ?_, rfl, rfl⟩
       first
         | exact controller.apiErrorFromServiceError_mem _
         | decide)
    | exact Or.inl ⟨by simp, fun e h => by cases h⟩

theorem controller.route_response_shape {σ : Type} (c : controller.UserController σ)
    (ctx : gin.Context) (st : σ) (method pattern : String)
    (handler : gin.Context → Go σ controller.Served)
    (hroute : (method, pattern, handler) ∈ c.ConfigureRoutes)
    (resp : controller.Response)
    (hrun : controller.responseOf (handler ctx st) = some resp) :
    ((resp.status = 200 ∨ resp.status = 201) ∧ ∀ e, resp.body ≠ .apiError e)
      ∨ ∃ e, e ∈ controller.apiErrors ∧ resp.body = .apiError e ∧ resp.status = e.Status := by
  simp only [controller.UserController.ConfigureRoutes, List.mem_cons, Prod.mk.injEq,
    List.mem_singleton, List.not_mem_nil, or_false] at hroute
  rcases hroute with ⟨_, _, rfl⟩ | ⟨_, _, rfl⟩ | ⟨_, _, rfl⟩ | ⟨_, _, rfl⟩ | ⟨_, _, rfl⟩
  · exact controller.getUsers_response_shape c ctx st resp hrun
  · exact controller.getUser_response_shape c ctx st resp hrun
  · exact controller.createUser_response_shape c ctx st resp hrun
  · exact controller.updateUser_response_shape c ctx st resp hrun
  · exact controller.deleteUser_response_shape c ctx st resp hrun

/-- C24: every response a handler registered by `ConfigureRoutes` writes is
either a success, with status 200 or 201 and a body that is not an `APIError`,
or an error response whose body is one of the five package-level `APIError`
values and whose HTTP status equals the `status` field of that body. So a
response with any other status than 200 and 201 carries one of the five bodies
with its own status, and a response with an `APIError` body has that body's
status. The five values are `ErrUserNotFound` 404, `ErrUserAlreadyExists` 409,
`ErrValidationFailed` 400, `ErrInternalServer` 500 and `ErrInvalidID` 400, their
error codes are pairwise distinct, and each of them is written by some
handler. -/
theorem controller.error_response_is_one_of_five {σ : Type}
    (c : controller.UserController σ) (ctx : gin.Context) (st : σ)
    (method pattern : String) (handler : gin.Context → Go σ controller.Served)
    (hroute : (method, pattern, handler) ∈ c.ConfigureRoutes)
    (resp : controller.Response)
    (hrun : controller.responseOf (handler ctx st) = some resp) :
    (((resp.status = 200 ∨ resp.status = 201) ∧ ∀ e, resp.body ≠ .apiError e)
        ∨ ∃ e, e ∈ controller.apiErrors ∧ resp.body = .apiError e
            ∧ resp.status = e.Status)
      ∧ (resp.status ≠ 200 → resp.status ≠ 201 →
          ∃ e, e ∈ controller.apiErrors ∧ resp.body = .apiError e
            ∧ resp.status = e.Status)
      ∧ (∀ e, resp.body = .apiError e → resp.status = e.Status ∧ e ∈ controller.apiErrors)
      ∧ controller.apiErrors
          = [{ ErrorCode := "ErrUserNotFound", Message := "user not found", Status := 404 },
             { ErrorCode := "ErrUserAlreadyExists", Message := "user already exists",
               Status := 409 },
             { ErrorCode := "ErrValidationFailed", Message := "validation failed",
               Status := 400 },
             { ErrorCode := "ErrInternalServer", Message := "internal server error",
               Status := 500 },
             { ErrorCode := "ErrInvalidID", Message := "invalid id", Status := 400 }]
      ∧ (controller.apiErrors.map (fun a => a.ErrorCode)).Pairwise (fun a b => a ≠ b)
      ∧ (∀ a, a ∈ controller.apiErrors →
          ∃ (svc : service.UserService Unit) (ctx2 : gin.Context) (method2 pattern2 : String)
            (handler2 : gin.Context → Go Unit controller.Served),
            (method2, pattern2, handler2) ∈ (controller.NewUserController svc).ConfigureRoutes
              ∧ controller.responseOf (handler2 ctx2 ())
                  = some { status := a.Status, body := .apiError a }) := by
  have hshape := controller.route_response_shape c ctx st method pattern handler hroute
    resp hrun
  refine ⟨hshape, ?_, ?_, rfl, by decide, ?_⟩
  · intro h200 h201
    rcases hshape with ⟨hok, _⟩ | herr
    · rcases hok with hok | hok
      · exact absurd hok h200
      · exact absurd hok h201
    · exact herr
  · intro e hbody
    rcases hshape with ⟨_, hno⟩ | ⟨e2, hmem, hb, hs⟩
    · exact absurd hbody (hno e)
    · rw [hb] at hbody
      cases hbody
      exact ⟨hs, hmem⟩
  · intro a ha
    simp only [controller.apiErrors, List.mem_cons, List.mem_singleton, List.not_mem_nil,
      or_false] at ha
    rcases ha with rfl | rfl | rfl | rfl | rfl
    · exact ⟨Fixtures.failingService service.ErrUserNotFound,
        Fixtures.request "1" Fixtures.updateBody, "GET", "/v1/users/:id",
        (controller.NewUserController
          (Fixtures.failingService service.ErrUserNotFound)).getUser,
        by simp [controller.UserController.ConfigureRoutes], rfl⟩
    · exact ⟨Fixtures.failingService service.ErrUserAlreadyExists,
        Fixtures.request "1" Fixtures.updateBody, "POST", "/v1/users",
        (controller.NewUserController
          (Fixtures.failingService service.ErrUserAlreadyExists)).createUser,
        by simp [controller.UserController.ConfigureRoutes], rfl⟩
    · exact ⟨Fixtures.acceptingService,
        Fixtures.request "1" Fixtures.invalidEmailUpdateBody, "PUT", "/v1/users",
        (controller.NewUserController Fixtures.acceptingService).updateUser,
        by simp [controller.UserController.ConfigureRoutes], rfl⟩
    · exact ⟨Fixtures.failingService Fixtures.plainError,
        Fixtures.request "1" Fixtures.updateBody, "GET", "/v1/users",
        (controller.NewUserController (Fixtures.failingService Fixtures.plainError)).getUsers,
        by simp [controller.UserController.ConfigureRoutes], rfl⟩
    · exact ⟨Fixtures.acceptingService,
        Fixtures.request "abc" Fixtures.updateBody, "DELETE", "/v1/users/:id",
        (controller.NewUserController Fixtures.acceptingService).deleteUser,
        by simp [controller.UserController.ConfigureRoutes], rfl⟩

/-- Worked example for C24: the response of `GET /v1/users/abc` is an error
response with the `ErrInvalidID` body and its status, that of
`POST /v1/users` with a body that is not JSON one with the
`ErrValidationFailed` body, that of `GET /v1/users` on a failing service one of
the five with its own status; the response of `GET /v1/users` on a service
without users is a success with status 200. -/
theorem controller.error_response_is_one_of_five_witness :
    (∃ e, e ∈ controller.apiErrors
        ∧ controller.responseOf
            ((controller.NewUserController Fixtures.acceptingService).getUser
              (Fixtures.request "abc" .malformed) ())
          = some { status := e.Status, body := .apiError e })
    ∧ (∃ e, e ∈ controller.apiErrors
        ∧ controller.responseOf
            ((controller.NewUserController Fixtures.acceptingService).createUser
              (Fixtures.request "1" .malformed) ())
          = some { status := e.Status, body := .apiError e })
    ∧ (∃ e, e ∈ controller.apiErrors
        ∧ controller.responseOf
            ((controller.NewUserController
                (Fixtures.failingService Fixtures.plainError)).getUsers
              (Fixtures.request "1" .malformed) ())
          = some { status := e.Status, body := .apiError e })
    ∧ (controller.responseOf
          ((controller.NewUserController (Fixtures.listingService (some []))).getUsers
            (Fixtures.request "1" .malformed) ())
        = some { status := 200, body := .users { Users := some [] } }
      ∧ ∀ e, controller.ResponseBody.users { Users := some [] } ≠ .apiError e) := by
  have h1 := (controller.error_response_is_one_of_five
    (controller.NewUserController Fixtures.acceptingService)
    (Fixtures.request "abc" .malformed) () "GET" "/v1/users/:id"
    (controller.NewUserController Fixtures.acceptingService).getUser
    (by simp [controller.UserController.ConfigureRoutes])
    { status := 400, body := .apiError controller.ErrInvalidID } rfl).2.1
    (by decide) (by decide)
  have h2 := (controller.error_response_is_one_of_five
    (controller.NewUserController Fixtures.acceptingService)
    (Fixtures.request "1" .malformed) () "POST" "/v1/users"
    (controller.NewUserController Fixtures.acceptingService).createUser
    (by simp [controller.UserController.ConfigureRoutes])
    { status := 400, body := .apiError controller.ErrValidationFailed } rfl).2.1
    (by decide) (by decide)
  have h3 := (controller.error_response_is_one_of_five
    (controller.NewUserController (Fixtures.failingService Fixtures.plainError))
    (Fixtures.request "1" .malformed) () "GET" "/v1/users"
    (controller.NewUserController (Fixtures.failingService Fixtures.plainError)).getUsers
    (by simp [controller.UserController.ConfigureRoutes])
    { status := 500, body := .apiError controller.ErrInternalServer } rfl).2.1
    (by decide) (by decide)
  have h4 := (controller.error_response_is_one_of_five
    (controller.NewUserController (Fixtures.listingService (some [])))
    (Fixtures.request "1" .malformed) () "GET" "/v1/users"
    (controller.NewUserController (Fixtures.listingService (some []))).getUsers
    (by simp [controller.UserController.ConfigureRoutes])
    { status := 200, body := .users { Users := some [] } } rfl).1
  refine ⟨?_, ?_, ?_, rfl, ?_⟩
  · obtain ⟨e, hm, hb, hs⟩ := h1
    refine ⟨e, hm, ?_⟩
    rw [← hs, ← hb]
    rfl
  · obtain ⟨e, hm, hb, hs⟩ := h2
    refine ⟨e, hm, ?_⟩
    rw [← hs, ← hb]
    rfl
  · obtain ⟨e, hm, hb, hs⟩ := h3
    refine ⟨e, hm, ?_⟩
    rw [← hs, ← hb]
    rfl
  · rcases h4 with ⟨_, hno⟩ | ⟨e, _, hb, _⟩
    · exact hno
    · cases hb

/-- C25: `noRowsAffected` discards the error of `RowsAffected`. When the store
executes the update or the delete without error and the result reports the
count 0 together with an error, `Update` and `Delete` return `ErrUserNotFound`,
whatever the statement did to the store. -/
theorem repository.rows_affected_error_is_discarded {σ : Type} (db : repository.DB σ)
    (timeout : Nat) (u : repository.User) (id : Int) (st st1 : σ) (rerr : GoError) :
    (∀ n err, repository.noRowsAffected
          (some { rowsAffected := n, rowsAffectedErr := err })
        = repository.noRowsAffected (some { rowsAffected := n, rowsAffectedErr := none }))
    ∧ (db.ExecContext repository.postgresUpdateUserQuery
            [.str u.Name, .str u.Email, .int u.Age, .int u.ID] st
          = ((some { rowsAffected := 0, rowsAffectedErr := some rerr }, none), st1) →
        (repository.NewPostgresUserRepository db timeout).Update (some u) st
          = (.ok (some repository.ErrUserNotFound), st1))
    ∧ (db.ExecContext repository.postgresDeleteUserQuery [.int id] st
          = ((some { rowsAffected := 0, rowsAffectedErr := some rerr }, none), st1) →
        (repository.NewPostgresUserRepository db timeout).Delete id st
          = (.ok (some repository.ErrUserNotFound), st1)) := by
  refine ⟨?_, ?_, ?_⟩
  · intro n err
    rfl
  · intro h
    simp [repository.PostgresUserRepository.Update, repository.NewPostgresUserRepository, h,
      repository.isUniqueViolation, repository.noRowsAffected]
  · intro h
    simp [repository.PostgresUserRepository.Delete, repository.NewPostgresUserRepository, h,
      repository.noRowsAffected]

/-- Worked example for C25: on the store holding `USER1` and `USER2`, with a
handle that cannot report the affected rows, deleting id 1 removes the row and
updating id 2 changes the row, and both return `ErrUserNotFound`. -/
theorem repository.rows_affected_error_is_discarded_witness :
    (repository.NewPostgresUserRepository Fixtures.unreportingDB 2000000000).Delete 1
        Fixtures.twoUserStore
      = (.ok (some repository.ErrUserNotFound), { rows := [Fixtures.USER2], nextID := 3 })
    ∧ (repository.NewPostgresUserRepository Fixtures.unreportingDB 2000000000).Update
        (some { ID := 2, Name := "Modified Name", Email := "email2@email.com", Age := 99 })
        Fixtures.twoUserStore
      = (.ok (some repository.ErrUserNotFound),
         { rows := [Fixtures.USER1,
                    { ID := 2, Name := "Modified Name", Email := "email2@email.com",
                      Age := 99 }],
           nextID := 3 }) :=
  ⟨(repository.rows_affected_error_is_discarded Fixtures.unreportingDB 2000000000
      Fixtures.USER1 1 Fixtures.twoUserStore { rows := [Fixtures.USER2], nextID := 3 }
      Fixtures.rowsAffectedUnsupported).2.2 rfl,
   (repository.rows_affected_error_is_discarded Fixtures.unreportingDB 2000000000
      { ID := 2, Name := "Modified Name", Email := "email2@email.com", Age := 99 } 1
      Fixtures.twoUserStore
      { rows := [Fixtures.USER1,
                 { ID := 2, Name := "Modified Name", Email := "email2@email.com",
                   Age := 99 }],
        nextID := 3 }
      Fixtures.rowsAffectedUnsupported).2.1 rfl⟩

/-- C26: `userService.Get`, `Create` and `GetAll` never return a result
together with an error: whenever one of them returns, a non-nil error comes
with a nil user or list, and a nil error with a non-nil user or list. This holds
although `PostgresUserRepository.Get` can return a non-nil empty user together
with a non-nil error, as it does when the query times out; `userService.Get`
then returns a nil user with that error. -/
theorem service.result_and_error_are_exclusive {σ : Type}
    (repo : repository.UserRepository σ) (st st1 : σ) (id : Int) (input : Ptr service.User) :
    (∀ user err, (service.userService.mk repo).Get id st = (.ok (user, err), st1) →
        (err ≠ none → user = none) ∧ (err = none → user ≠ none))
    ∧ (∀ user err, (service.userService.mk repo).Create input st = (.ok (user, err), st1) →
        (err ≠ none → user = none) ∧ (err = none → user ≠ none))
    ∧ (∀ users err, (service.userService.mk repo).GetAll st = (.ok (users, err), st1) →
        (err ≠ none → users = none) ∧ (err = none → users ≠ none))
    ∧ (∀ user e, repo.Get id st = (.ok (some user, some e), st1) →
        ∃ e2, (service.userService.mk repo).Get id st = (.ok (none, some e2), st1))
    ∧ (Fixtures.timeoutRepository.Get 1 ()).1
        = .ok (some { ID := 0, Name := "", Email := "", Age := 0 },
            some context.DeadlineExceeded)
    ∧ ((service.userService.mk Fixtures.timeoutRepository.toUserRepository).Get 1 ()).1
        = .ok (none, some context.DeadlineExceeded) := by
  refine ⟨?_, ?_, ?_, ?_, rfl, rfl⟩
  · intro user err h
    unfold service.userService.Get at h
    repeat' split at h
    all_goals simp at h
    all_goals obtain ⟨⟨rfl, rfl⟩, _⟩ := h
    all_goals simp
  · intro user err h
    unfold service.userService.Create at h
    repeat' split at h
    all_goals simp at h
    all_goals obtain ⟨⟨rfl, rfl⟩, _⟩ := h
    all_goals simp
  · intro users err h
    unfold service.userService.GetAll at h
    repeat' split at h
    all_goals simp at h
    all_goals obtain ⟨⟨rfl, rfl⟩, _⟩ := h
    all_goals simp
  · intro user e h
    exact ⟨_, service.Get_of_repository_error ⟨repo⟩ id st st1 (some user) e h⟩

/-- Worked example for C26: on a repository that fails with
`errors.New("error")`, `Get`, `Create` and `GetAll` return a nil result with the
error; on one that succeeds they return a non-nil result with a nil error. -/
theorem service.result_and_error_are_exclusive_witness :
    ((service.userService.mk (Fixtures.failingRepository Fixtures.plainError)).Get 1 ()
        = (.ok (none, some Fixtures.plainError), ())
      ∧ ((some Fixtures.plainError ≠ none → (none : Ptr service.User) = none)
        ∧ (some Fixtures.plainError = none → (none : Ptr service.User) ≠ none)))
    ∧ ((service.userService.mk (Fixtures.creatingRepository 2)).Create
          (some Fixtures.USER1_SERVICE) ()
        = (.ok (some { ID := 2, Name := "Name Name 1", Email := "email1@email.com",
                       Age := 37 }, none), ())
      ∧ (((none : Option GoError) ≠ none →
            (some { ID := 2, Name := "Name Name 1", Email := "email1@email.com",
                    Age := 37 } : Ptr service.User) = none)
        ∧ ((none : Option GoError) = none →
            (some { ID := 2, Name := "Name Name 1", Email := "email1@email.com",
                    Age := 37 } : Ptr service.User) ≠ none)))
    ∧ ((service.userService.mk (Fixtures.creatingRepository 2)).GetAll ()
        = (.ok (some [], none), ())
      ∧ (((none : Option GoError) ≠ none → (some [] : Slice (Ptr service.User)) = none)
        ∧ ((none : Option GoError) = none → (some [] : Slice (Ptr service.User)) ≠ none))) :=
  ⟨⟨rfl, (service.result_and_error_are_exclusive
      (Fixtures.failingRepository Fixtures.plainError) () () 1
      (some Fixtures.USER1_SERVICE)).1 none (some Fixtures.plainError) rfl⟩,
   ⟨rfl, (service.result_and_error_are_exclusive (Fixtures.creatingRepository 2) () () 1
      (some Fixtures.USER1_SERVICE)).2.1
      (some { ID := 2, Name := "Name Name 1", Email := "email1@email.com", Age := 37 })
      none rfl⟩,
   ⟨rfl, (service.result_and_error_are_exclusive (Fixtures.creatingRepository 2) () () 1
      (some Fixtures.USER1_SERVICE)).2.2.1 (some []) none rfl⟩⟩

end GoDemoApp
